import Mathlib

/-!
# Block-group metadata accounting and free-cluster admission of `fs/ext5/balloc.c`

A shallow embedding of the allocation-accounting routines of `balloc.c` and of
the handle wrappers of `ext5_jbd2.c`.

Conventions of the embedding.

* Block numbers (`ext5_fsblk_t`), group numbers (`ext5_group_t`) and cluster
  counts are natural numbers; the superblock fields and the arguments are taken
  to lie in the range of their C types.  A subtraction of two 64-bit block
  numbers wraps modulo `2^64` as it does in C (`sub64`), a value stored through
  the 32-bit `ext5_group_t` is reduced modulo `2^32`, and the `int`
  multiplication of `test_root` wraps modulo `2^32`.
* The signed 64-bit counters of the free-space accountant are integers; the
  `s64` sums of `ext5_has_free_clusters` wrap to the range of `s64`
  (`wrap_s64`).
* A bitmap buffer is the finite set of the bit positions that hold a 1.
* Code that lives in headers or files outside `balloc.c` (`ext5.h` macros, the
  checksum routines, `ext5_mark_bitmap_end`, `ext5_abort`) and the journalling
  layer are either parameters or definitions whose comment says where they come
  from.
* The loop of `test_root` need not terminate, so the functions that depend on it
  return an `Option`; `none` stands for a run that never returns.
-/

namespace Ext5

/-! ## Data model -/

/-- Geometry and feature flags: the fields of the super block, of
`struct ext5_sb_info` and of the on-disk superblock that `balloc.c` reads. -/
structure super_block where
  /-- Block size in bytes (`sb->s_blocksize`). -/
  s_blocksize : Nat
  /-- Base-2 logarithm of the block size (`EXT5_BLOCK_SIZE_BITS`). -/
  s_blocksize_bits : Nat
  /-- Base-2 logarithm of the number of blocks per cluster. -/
  s_cluster_bits : Nat
  /-- Blocks per group (`EXT5_BLOCKS_PER_GROUP`). -/
  s_blocks_per_group : Nat
  s_first_data_block : Nat
  /-- Total number of blocks of the volume (`ext5_blocks_count`). -/
  s_blocks_count : Nat
  /-- Number of block groups (`ext5_get_groups_count`). -/
  s_groups_count : Nat
  /-- Group descriptors per block (`EXT5_DESC_PER_BLOCK`). -/
  s_desc_per_block : Nat
  /-- Number of blocks of the whole descriptor table. -/
  s_gdb_count : Nat
  s_first_meta_bg : Nat
  s_reserved_gdt_blocks : Nat
  /-- Inode-table blocks per group. -/
  s_itb_per_group : Nat
  /-- Feature `EXT5_FEATURE_RO_COMPAT_SPARSE_SUPER`. -/
  sparse_super : Bool
  /-- Feature `EXT5_FEATURE_INCOMPAT_META_BG`. -/
  meta_bg : Bool
  /-- Feature `EXT5_FEATURE_INCOMPAT_FLEX_BG`. -/
  flex_bg : Bool
  /-- Mount option `STD_GROUP_SIZE` (`test_opt2`). -/
  std_group_size : Bool
deriving DecidableEq

/-- The fields of `struct ext5_group_desc` that `balloc.c` reads or writes. -/
structure ext5_group_desc where
  bg_block_bitmap : Nat
  bg_inode_bitmap : Nat
  bg_inode_table : Nat
  bg_free_blocks_count : Nat
  bg_free_inodes_count : Nat
  bg_itable_unused : Nat
  bg_flags : Nat
  bg_block_bitmap_csum : Nat
  bg_checksum : Nat
deriving DecidableEq

/-- Bitmap buffer (`bh->b_data`): the set of bit positions whose bit is 1. -/
abbrev Bitmap := Finset Nat

/-! ## Machine arithmetic and header macros -/

/-- Subtraction of two `ext5_fsblk_t` values: unsigned, modulo `2^64`. -/
def sub64 (a b : Nat) : Nat := (a + 2 ^ 64 - b) % 2 ^ 64

/-- Modelled from the spec: `EXT5_B2C` of `ext5.h`, a block count or offset
converted to clusters by a right shift of cluster-bits. -/
def EXT5_B2C (sb : super_block) (blk : Nat) : Nat := blk >>> sb.s_cluster_bits

/-- Modelled from the spec: `EXT5_NUM_B2C` of `ext5.h`, a number of blocks rounded
up to whole clusters. -/
def EXT5_NUM_B2C (sb : super_block) (blks : Nat) : Nat :=
  (blks + (2 ^ sb.s_cluster_bits - 1)) >>> sb.s_cluster_bits

/-- Modelled from the spec: `ext5_group_first_block_no` of `ext5.h`, the first
block of a group, `group × blocks_per_group + first_data_block`. -/
def ext5_group_first_block_no (sb : super_block) (group_no : Nat) : Nat :=
  group_no * sb.s_blocks_per_group + sb.s_first_data_block

/-! ## ClusterAddressTranslator -/

/-- `ext5_get_group_no_and_offset`: the pair `(*blockgrpp, *offsetp)`.  `do_div`
leaves the 64-bit quotient in `blocknr`, and `*blockgrpp = blocknr` stores it
through the 32-bit `ext5_group_t`. -/
def ext5_get_group_no_and_offset (sb : super_block) (blocknr : Nat) : Nat × Nat :=
  let blocknr := sub64 blocknr sb.s_first_data_block
  let offset := (blocknr % sb.s_blocks_per_group) >>> sb.s_cluster_bits
  ((blocknr / sb.s_blocks_per_group) % 2 ^ 32, offset)

/-- `ext5_get_group_number`.  The shifted 64-bit value is assigned to the 32-bit
`ext5_group_t group`. -/
def ext5_get_group_number (sb : super_block) (block : Nat) : Nat :=
  if sb.std_group_size then
    ((sub64 block sb.s_first_data_block) >>>
      (sb.s_blocksize_bits + sb.s_cluster_bits + 3)) % 2 ^ 32
  else
    (ext5_get_group_no_and_offset sb block).1

/-- `ext5_block_in_group`. -/
def ext5_block_in_group (sb : super_block) (block block_group : Nat) : Bool :=
  ext5_get_group_number sb block == block_group

/-! ## Sparse superblock placement and descriptor-table blocks -/

/-- The loop of `test_root`: `while (a > num) num *= b; return num == a;`.
The variable `num` is an `int` compared with the unsigned `a`, so it is kept as
its 32-bit pattern and the product wraps.  `none` when the fuel runs out. -/
def test_root_loop : Nat → Nat → Nat → Nat → Option Bool
  | 0, _, _, _ => none
  | fuel + 1, a, num, b =>
    if a > num then test_root_loop fuel a ((num * b) % 2 ^ 32) b
    else some (num == a)

/-- `test_root`.  The loop state is one 32-bit value, so a run that has not left
the loop after `2^32` tests never leaves it. -/
def test_root (a b : Nat) : Option Bool := test_root_loop (2 ^ 32) a b b

/-- `ext5_group_sparse`; the disjunction short-circuits as in C. -/
def ext5_group_sparse (group : Nat) : Option Bool :=
  if group ≤ 1 then some true
  else if group &&& 1 = 0 then some false
  else
    match test_root group 7 with
    | none => none
    | some true => some true
    | some false =>
      match test_root group 5 with
      | none => none
      | some true => some true
      | some false => test_root group 3

/-- `ext5_bg_has_super`: 0 or 1. -/
def ext5_bg_has_super (sb : super_block) (group : Nat) : Option Nat :=
  if sb.sparse_super then
    match ext5_group_sparse group with
    | none => none
    | some s => if !s then some 0 else some 1
  else some 1

/-- `ext5_bg_num_gdb_meta`. -/
def ext5_bg_num_gdb_meta (sb : super_block) (group : Nat) : Nat :=
  let metagroup := group / sb.s_desc_per_block
  let first := metagroup * sb.s_desc_per_block
  let last := first + sb.s_desc_per_block - 1
  if group = first ∨ group = first + 1 ∨ group = last then 1 else 0

/-- `ext5_bg_num_gdb_nometa`. -/
def ext5_bg_num_gdb_nometa (sb : super_block) (group : Nat) : Option Nat :=
  match ext5_bg_has_super sb group with
  | none => none
  | some s =>
    if s = 0 then some 0
    else if sb.meta_bg then some sb.s_first_meta_bg
    else some sb.s_gdb_count

/-- `ext5_bg_num_gdb`. -/
def ext5_bg_num_gdb (sb : super_block) (group : Nat) : Option Nat :=
  let first_meta_bg := sb.s_first_meta_bg
  let metagroup := group / sb.s_desc_per_block
  if !sb.meta_bg ∨ metagroup < first_meta_bg then
    ext5_bg_num_gdb_nometa sb group
  else
    some (ext5_bg_num_gdb_meta sb group)

/-- `ext5_num_base_meta_clusters`. -/
def ext5_num_base_meta_clusters (sb : super_block) (block_group : Nat) : Option Nat :=
  match ext5_bg_has_super sb block_group with
  | none => none
  | some num =>
    if !sb.meta_bg ∨ block_group < sb.s_first_meta_bg * sb.s_desc_per_block then
      if num ≠ 0 then
        match ext5_bg_num_gdb sb block_group with
        | none => none
        | some gdb => some (EXT5_NUM_B2C sb (num + gdb + sb.s_reserved_gdt_blocks))
      else some (EXT5_NUM_B2C sb num)
    else
      match ext5_bg_num_gdb sb block_group with
      | none => none
      | some gdb => some (EXT5_NUM_B2C sb (num + gdb))

/-! ## BitmapManager: metadata overhead -/

/-- Body of the inode-table loop of `ext5_num_overhead_clusters` for index `i`;
the loop state is `(num_clusters, itbl_cluster)`. -/
def overhead_itbl_step (sb : super_block) (block_group start itbl_blk : Nat)
    (block_cluster inode_cluster : Int) (st : Nat × Int) (i : Nat) : Nat × Int :=
  if ext5_block_in_group sb ((itbl_blk + i) % 2 ^ 64) block_group then
    let c : Int := EXT5_B2C sb (sub64 ((itbl_blk + i) % 2 ^ 64) start)
    if c < st.1 ∨ c = inode_cluster ∨ c = block_cluster ∨ c = st.2 then st
    else if c = st.1 then (st.1 + 1, st.2)
    else (st.1 + 1, c)
  else st

/-- `ext5_num_overhead_clusters`.  The three cluster variables are C `int`s
initialised to `-1`. -/
def ext5_num_overhead_clusters (sb : super_block) (block_group : Nat)
    (gdp : ext5_group_desc) : Option Nat :=
  let start := ext5_group_first_block_no sb block_group
  match ext5_num_base_meta_clusters sb block_group with
  | none => none
  | some num_clusters =>
    let s1 : Nat × Int :=
      if ext5_block_in_group sb gdp.bg_block_bitmap block_group then
        let block_cluster : Int := EXT5_B2C sb (sub64 gdp.bg_block_bitmap start)
        if block_cluster < num_clusters then (num_clusters, -1)
        else if block_cluster = num_clusters then (num_clusters + 1, -1)
        else (num_clusters, block_cluster)
      else (num_clusters, -1)
    let num_clusters := s1.1
    let block_cluster := s1.2
    let s2 : Nat × Int :=
      if ext5_block_in_group sb gdp.bg_inode_bitmap block_group then
        let inode_cluster : Int := EXT5_B2C sb (sub64 gdp.bg_inode_bitmap start)
        if inode_cluster < num_clusters then (num_clusters, -1)
        else if inode_cluster = num_clusters then (num_clusters + 1, -1)
        else (num_clusters, inode_cluster)
      else (num_clusters, -1)
    let num_clusters := s2.1
    let inode_cluster := s2.2
    let itbl_blk := gdp.bg_inode_table
    let s3 : Nat × Int :=
      (List.range sb.s_itb_per_group).foldl
        (overhead_itbl_step sb block_group start itbl_blk block_cluster inode_cluster)
        (num_clusters, -1)
    let num_clusters := s3.1
    let num_clusters := if block_cluster ≠ -1 then num_clusters + 1 else num_clusters
    let num_clusters := if inode_cluster ≠ -1 then num_clusters + 1 else num_clusters
    some num_clusters

/-- `num_clusters_in_group`; `blocks` is an `unsigned int`, and
`ext5_get_groups_count(sb) - 1` is an unsigned 32-bit difference. -/
def num_clusters_in_group (sb : super_block) (block_group : Nat) : Nat :=
  let blocks :=
    if block_group = (sb.s_groups_count + 2 ^ 32 - 1) % 2 ^ 32 then
      (sub64 sb.s_blocks_count (ext5_group_first_block_no sb block_group)) % 2 ^ 32
    else sb.s_blocks_per_group
  EXT5_NUM_B2C sb blocks

/-! ## BitmapManager: materialising an uninitialised bitmap -/

/-- The checksum routines of `super.c` and `bitmap.c`, which `balloc.c` only
calls: parameters of the embedding. -/
structure csum_ops where
  /-- Result of `ext5_group_desc_csum_verify(sb, group, gdp)`. -/
  group_desc_csum_verify : Nat → ext5_group_desc → Bool
  /-- Value that `ext5_block_bitmap_csum_set(sb, group, gdp, bh)` leaves in the
  descriptor's bitmap-checksum field. -/
  block_bitmap_csum : Nat → ext5_group_desc → Bitmap → Nat
  /-- Value that `ext5_group_desc_csum_set(sb, group, gdp)` leaves in
  `bg_checksum`. -/
  group_desc_csum : Nat → ext5_group_desc → Nat

/-- `ext5_set_bit(nr, bh->b_data)`.  A position at or beyond `8 × blocksize` is a
store outside the buffer in C; here it joins the set like any other. -/
def ext5_set_bit (nr : Nat) (bitmap : Bitmap) : Bitmap := insert nr bitmap

/-- Modelled from the spec: `ext5_mark_bitmap_end` of `ialloc.c`, which pads the
bits from `start_bit` up to `end_bit` as used. -/
def ext5_mark_bitmap_end (start_bit end_bit : Nat) (bitmap : Bitmap) : Bitmap :=
  bitmap ∪ Finset.Ico start_bit end_bit

/-- `memset(bh->b_data, 0xff, sb->s_blocksize)`. -/
def memset_ff (sb : super_block) : Bitmap := Finset.range (sb.s_blocksize * 8)

/-- `ext5_set_bit` of the cluster of `tmp` when the source's guard
`!flex_bg || ext5_block_in_group(sb, tmp, block_group)` holds. -/
def init_mark_block (sb : super_block) (block_group start : Nat) (bh : Bitmap)
    (tmp : Nat) : Bitmap :=
  if !sb.flex_bg ∨ ext5_block_in_group sb tmp block_group then
    ext5_set_bit (EXT5_B2C sb (sub64 tmp start)) bh
  else bh

/-- `ext5_init_block_bitmap`: the buffer and the descriptor it leaves.  The
former content of `bh` is overwritten by either `memset`.  The inode-table loop
runs `tmp` from `bg_inode_table` while `tmp < bg_inode_table + s_itb_per_group`
in 64-bit arithmetic. -/
def ext5_init_block_bitmap (cs : csum_ops) (sb : super_block) (_bh : Bitmap)
    (block_group : Nat) (gdp : ext5_group_desc) : Option (Bitmap × ext5_group_desc) :=
  if !cs.group_desc_csum_verify block_group gdp then
    let gdp := { gdp with bg_free_blocks_count := 0 }
    let gdp := { gdp with bg_free_inodes_count := 0 }
    let gdp := { gdp with bg_itable_unused := 0 }
    let bh := memset_ff sb
    some (bh, { gdp with bg_block_bitmap_csum := cs.block_bitmap_csum block_group gdp bh })
  else
    let bh : Bitmap := ∅
    match ext5_num_base_meta_clusters sb block_group with
    | none => none
    | some bit_max =>
      let bh := (List.range bit_max).foldl (fun b bit => ext5_set_bit bit b) bh
      let start := ext5_group_first_block_no sb block_group
      let bh := init_mark_block sb block_group start bh gdp.bg_block_bitmap
      let bh := init_mark_block sb block_group start bh gdp.bg_inode_bitmap
      let itbl_end := (gdp.bg_inode_table + sb.s_itb_per_group) % 2 ^ 64
      let bh := (List.range' gdp.bg_inode_table (itbl_end - gdp.bg_inode_table)).foldl
        (init_mark_block sb block_group start) bh
      let bh := ext5_mark_bitmap_end (num_clusters_in_group sb block_group)
        (sb.s_blocksize * 8) bh
      let gdp := { gdp with bg_block_bitmap_csum := cs.block_bitmap_csum block_group gdp bh }
      some (bh, { gdp with bg_checksum := cs.group_desc_csum block_group gdp })

/-! ## FreeSpaceAccountant -/

/-- A per-CPU counter of the kernel: the shared approximate `count` and the
per-CPU deltas not yet folded into it. -/
structure percpu_counter where
  count : Int
  counters : List Int
deriving DecidableEq

/-- `percpu_counter_read_positive`: the approximate value, clamped at 0. -/
def percpu_counter_read_positive (fbc : percpu_counter) : Int :=
  if fbc.count ≥ 0 then fbc.count else 0

/-- `__percpu_counter_sum`: the exact value. -/
def percpu_counter_sum (fbc : percpu_counter) : Int := fbc.count + fbc.counters.sum

/-- `percpu_counter_sum_positive`: the exact value, clamped at 0. -/
def percpu_counter_sum_positive (fbc : percpu_counter) : Int :=
  if percpu_counter_sum fbc < 0 then 0 else percpu_counter_sum fbc

/-- `percpu_counter_add` on CPU `cpu` with batch size `batch`: the delta of that
CPU absorbs `amount` and is folded into `count` once it reaches the batch. -/
def percpu_counter_add (cpu : Nat) (batch : Int) (fbc : percpu_counter) (amount : Int) :
    percpu_counter :=
  let count := fbc.counters.getD cpu 0 + amount
  if count ≥ batch ∨ count ≤ -batch then
    { count := fbc.count + count, counters := fbc.counters.set cpu 0 }
  else
    { fbc with counters := fbc.counters.set cpu count }

/-- The calling task and the constants of `ext5.h` that the accountant uses. -/
structure kernel_env where
  /-- Value of `current_fsuid()`. -/
  current_fsuid : Nat
  /-- Groups of the task: `in_group_p(gid)` is membership in this list. -/
  current_groups : List Nat
  /-- Value of `capable(CAP_SYS_RESOURCE)`. -/
  cap_sys_resource : Bool
  /-- CPU the task runs on. -/
  cpu : Nat
  percpu_counter_batch : Int
  EXT5_FREECLUSTERS_WATERMARK : Int
  EXT5_MB_USE_ROOT_BLOCKS : Nat
  EXT5_MB_USE_RESERVED : Nat

/-- The accounting fields of `struct ext5_sb_info`. -/
structure ext5_sb_info where
  s_freeclusters_counter : percpu_counter
  s_dirtyclusters_counter : percpu_counter
  /-- The reserved-cluster pool (`atomic64_t s_resv_clusters`). -/
  s_resv_clusters : Int
  /-- Root-reserved blocks of the superblock (`ext5_r_blocks_count`). -/
  s_r_blocks_count : Nat
  s_cluster_bits : Nat
  s_resuid : Nat
  s_resgid : Nat
deriving DecidableEq

/-- `GLOBAL_ROOT_GID`. -/
def GLOBAL_ROOT_GID : Nat := 0

/-- `ENOSPC` of `errno.h`. -/
def ENOSPC : Int := 28

/-- The privilege test of `ext5_has_free_clusters`. -/
def may_use_root_blocks (k : kernel_env) (sbi : ext5_sb_info) (flags : Nat) : Bool :=
  sbi.s_resuid == k.current_fsuid ||
  (!(sbi.s_resgid == GLOBAL_ROOT_GID) && decide (sbi.s_resgid ∈ k.current_groups)) ||
  k.cap_sys_resource ||
  (flags &&& k.EXT5_MB_USE_ROOT_BLOCKS != 0)

/-- Reduction of an integer to the range of the C type `s64`: the value a
64-bit two's-complement sum or difference takes. -/
def wrap_s64 (x : Int) : Int := (x + (2 ^ 63 : Nat)) % (2 ^ 64 : Nat) - (2 ^ 63 : Nat)

/-- `ext5_has_free_clusters`: 1 or 0.  Every sum and difference is an `s64`
operation and wraps. -/
def ext5_has_free_clusters (k : kernel_env) (sbi : ext5_sb_info) (nclusters : Int)
    (flags : Nat) : Int :=
  let free_clusters := percpu_counter_read_positive sbi.s_freeclusters_counter
  let dirty_clusters := percpu_counter_read_positive sbi.s_dirtyclusters_counter
  let resv_clusters := sbi.s_resv_clusters
  let rsv : Int :=
    wrap_s64 (((sbi.s_r_blocks_count >>> sbi.s_cluster_bits : Nat) : Int) + resv_clusters)
  let exact : Bool :=
    decide (wrap_s64 (free_clusters - wrap_s64 (wrap_s64 (nclusters + rsv) + dirty_clusters))
      < k.EXT5_FREECLUSTERS_WATERMARK)
  let free_clusters :=
    if exact then percpu_counter_sum_positive sbi.s_freeclusters_counter else free_clusters
  let dirty_clusters :=
    if exact then percpu_counter_sum_positive sbi.s_dirtyclusters_counter else dirty_clusters
  if free_clusters ≥ wrap_s64 (wrap_s64 (rsv + nclusters) + dirty_clusters) then 1
  else if may_use_root_blocks k sbi flags ∧
      free_clusters ≥ wrap_s64 (wrap_s64 (nclusters + dirty_clusters) + resv_clusters) then 1
  else if flags &&& k.EXT5_MB_USE_RESERVED ≠ 0 ∧
      free_clusters ≥ wrap_s64 (nclusters + dirty_clusters) then 1
  else 0

/-- `ext5_claim_free_clusters`: the return value and the counters afterwards. -/
def ext5_claim_free_clusters (k : kernel_env) (sbi : ext5_sb_info) (nclusters : Int)
    (flags : Nat) : Int × ext5_sb_info :=
  if ext5_has_free_clusters k sbi nclusters flags ≠ 0 then
    let dcc := percpu_counter_add k.cpu k.percpu_counter_batch
      sbi.s_dirtyclusters_counter nclusters
    (0, { sbi with s_dirtyclusters_counter := dcc })
  else
    (-ENOSPC, sbi)

/-- `ext5_free_clusters_after_init`: both operands are `unsigned`, so the
difference is taken modulo `2^32`. -/
def ext5_free_clusters_after_init (sb : super_block) (block_group : Nat)
    (gdp : ext5_group_desc) : Option Nat :=
  match ext5_num_overhead_clusters sb block_group gdp with
  | none => none
  | some overhead => some ((num_clusters_in_group sb block_group + 2 ^ 32 - overhead) % 2 ^ 32)

/-! ## BitmapManager: validation -/

/-- `ext5_test_bit(nr, bh->b_data)`. -/
def ext5_test_bit (nr : Nat) (bitmap : Bitmap) : Bool := decide (nr ∈ bitmap)

/-- `ext5_find_next_zero_bit(addr, size, offset)`: the first clear bit at or after
`offset` and below `size`, or `size` when there is none. -/
def ext5_find_next_zero_bit (bitmap : Bitmap) (size offset : Nat) : Nat :=
  match (List.range' offset (size - offset)).find? (fun p => !ext5_test_bit p bitmap) with
  | some p => p
  | none => size

/-- `ext5_valid_block_bitmap`: the block number found invalid, or 0.  The bit
position of a block is its offset from the first block of the group
(`ext5_grpblk_t offset = blk - group_first_block`, an `int` in C, in range for a
block of the group). -/
def ext5_valid_block_bitmap (sb : super_block) (desc : ext5_group_desc)
    (block_group : Nat) (bh : Bitmap) : Nat :=
  if sb.flex_bg then 0
  else
    let group_first_block := ext5_group_first_block_no sb block_group
    if !ext5_test_bit (sub64 desc.bg_block_bitmap group_first_block) bh then
      desc.bg_block_bitmap
    else if !ext5_test_bit (sub64 desc.bg_inode_bitmap group_first_block) bh then
      desc.bg_inode_bitmap
    else
      let blk := desc.bg_inode_table
      let offset := sub64 blk group_first_block
      let next_zero_bit := ext5_find_next_zero_bit bh (offset + sb.s_itb_per_group) offset
      if next_zero_bit < offset + sb.s_itb_per_group then blk else 0

/-! ## GroupDescriptorTable -/

/-- A buffer head: the block it caches and its bytes. -/
structure buffer_head where
  b_blocknr : Nat
  b_data : List Nat
deriving DecidableEq

/-- The fields of `struct ext5_sb_info` behind `ext5_get_group_desc`: the shift
`EXT5_DESC_PER_BLOCK_BITS`, the record size `EXT5_DESC_SIZE` and the array
`s_group_desc` of descriptor-block buffers, where `none` is a null slot. -/
structure group_desc_table where
  s_desc_per_block_bits : Nat
  s_desc_size : Nat
  s_group_desc : List (Option buffer_head)

/-- The two failures of `ext5_get_group_desc`; both return `NULL`, after a
different `ext5_error` report. -/
inductive desc_lookup_error where
  /-- Report "block_group >= groups_count". -/
  | group_out_of_range
  /-- Report "Group descriptor not loaded". -/
  | descriptor_missing
deriving DecidableEq

/-- `ext5_get_group_desc`: the descriptor as the byte offset of the record inside
the buffer, together with the buffer stored through `bh`.  A slot index beyond
the array reads as a null slot. -/
def ext5_get_group_desc (sb : super_block) (t : group_desc_table) (block_group : Nat) :
    Except desc_lookup_error (Nat × buffer_head) :=
  let ngroups := sb.s_groups_count
  if block_group ≥ ngroups then Except.error desc_lookup_error.group_out_of_range
  else
    let group_desc := block_group >>> t.s_desc_per_block_bits
    let offset := block_group &&& (sb.s_desc_per_block - 1)
    match t.s_group_desc.getD group_desc none with
    | none => Except.error desc_lookup_error.descriptor_missing
    | some bh => Except.ok (offset * t.s_desc_size, bh)

/-! ## Journal collaborators and RetryPolicy -/

/-- The fields of `journal_t` that the wrappers test. -/
structure journal_t where
  /-- Result of `is_journal_aborted(journal)`. -/
  j_aborted : Bool
  /-- Sequence number of the last commit, as far as the embedding tracks it. -/
  j_commit_sequence : Nat
deriving DecidableEq

/-- A journaled handle (`struct jbd2_journal_handle`). -/
structure jbd2_handle where
  h_err : Int
  h_aborted : Bool
deriving DecidableEq

/-- A value of type `handle_t *`: an `ERR_PTR`, the small integer that counts
the nesting of a volume without journal, or a journaled handle. -/
inductive handle_ptr where
  | err_ptr (errno : Int)
  | nojournal (ref_cnt : Nat)
  | journaled (h : jbd2_handle)
deriving DecidableEq

/-- The routines of the journalling layer (jbd2) that `ext5` calls; they are
outside the repository and are parameters. -/
structure jbd2_ops where
  /-- The call `jbd2__journal_start(journal, nblocks, GFP_NOFS, type, line)`: the journal
  afterwards and the handle or `ERR_PTR` returned. -/
  jbd2__journal_start : journal_t → Int → Int → Nat → journal_t × handle_ptr
  /-- The call `jbd2_journal_force_commit_nested(journal)`: the journal afterwards
  and the value returned. -/
  jbd2_journal_force_commit_nested : journal_t → journal_t × Int

/-- `ext5_should_retry_alloc`: the value returned, `*retries` and the journal
afterwards.  The three tests short-circuit in source order. -/
def ext5_should_retry_alloc (k : kernel_env) (ops : jbd2_ops) (sbi : ext5_sb_info)
    (s_journal : Option journal_t) (retries : Int) : Int × Int × Option journal_t :=
  if ext5_has_free_clusters k sbi 1 0 = 0 then (0, retries, s_journal)
  else if retries > 3 then (0, retries + 1, s_journal)
  else
    match s_journal with
    | none => (0, retries + 1, none)
    | some journal =>
      let r := ops.jbd2_journal_force_commit_nested journal
      (r.2, retries + 1, some r.1)

/-! ## TransactionGuard: starting a handle -/

/-- A call that leaves the wrappers for the rest of the kernel. -/
inductive journal_event where
  /-- The warning `WARN_ON(sb->s_writers.frozen == SB_FREEZE_COMPLETE)`. -/
  | warn_frozen
  /-- The call `ext5_abort(sb, ...)`. -/
  | fs_abort
deriving DecidableEq

/-- The state `__ext5_journal_start_sb` reads or writes. -/
structure journal_sb where
  /-- Flag `MS_RDONLY` of `sb->s_flags`. -/
  s_rdonly : Bool
  /-- Freeze level `sb->s_writers.frozen`. -/
  s_frozen : Nat
  /-- Journal `EXT5_SB(sb)->s_journal`, `none` for a null pointer. -/
  s_journal : Option journal_t
  /-- Value of `current->journal_info` read as an integer: the nesting count of
  a volume without journal. -/
  journal_info : Nat
  /-- Warnings and abort calls so far. -/
  events : List journal_event
deriving DecidableEq

/-- `SB_FREEZE_COMPLETE` of `linux/fs.h`. -/
def SB_FREEZE_COMPLETE : Nat := 4

/-- `EROFS` of `errno.h`. -/
def EROFS : Int := 30

/-- Modelled from the spec: `ext5_abort` of `super.c`, the filesystem abort path,
which forces the volume read-only. -/
def ext5_abort (sb : journal_sb) : journal_sb :=
  { sb with s_rdonly := true, events := sb.events ++ [journal_event.fs_abort] }

/-- `ext5_get_nojournal`: `none` when `BUG_ON(ref_cnt >= EXT5_NOJOURNAL_MAX_REF_COUNT)`
fires; `max_ref` is that constant of `ext5_jbd2.h`. -/
def ext5_get_nojournal (max_ref : Nat) (sb : journal_sb) : Option (handle_ptr × journal_sb) :=
  let ref_cnt := sb.journal_info
  if ref_cnt ≥ max_ref then none
  else some (handle_ptr.nojournal (ref_cnt + 1), { sb with journal_info := ref_cnt + 1 })

/-- `__ext5_journal_start_sb`: the handle returned and the state afterwards;
`none` when a `BUG_ON` fires. -/
def __ext5_journal_start_sb (ops : jbd2_ops) (max_ref : Nat) (sb : journal_sb)
    (line : Nat) (type nblocks : Int) : Option (handle_ptr × journal_sb) :=
  if sb.s_rdonly then some (handle_ptr.err_ptr (-EROFS), sb)
  else
    let sb :=
      if sb.s_frozen = SB_FREEZE_COMPLETE then
        { sb with events := sb.events ++ [journal_event.warn_frozen] }
      else sb
    match sb.s_journal with
    | none => ext5_get_nojournal max_ref sb
    | some journal =>
      if journal.j_aborted then some (handle_ptr.err_ptr (-EROFS), ext5_abort sb)
      else
        let r := ops.jbd2__journal_start journal nblocks type line
        some (r.2, { sb with s_journal := some r.1 })

/-! ## TransactionGuard: handle wrappers -/

/-- A call that leaves the handle wrappers: into the journalling layer, the
buffer cache or the error paths of the filesystem. -/
inductive handle_event where
  | jbd2_journal_stop
  | jbd2_journal_abort_handle
  | jbd2_journal_get_write_access (bh : buffer_head)
  | jbd2_journal_get_create_access (bh : buffer_head)
  | jbd2_journal_dirty_metadata (bh : buffer_head)
  | jbd2_journal_forget (bh : buffer_head)
  | jbd2_journal_revoke (blocknr : Nat) (bh : Option buffer_head)
  | bforget (bh : Option buffer_head)
  | set_buffer_meta_prio (bh : buffer_head)
  | mark_buffer_dirty (bh : buffer_head)
  | mark_buffer_dirty_inode (bh : buffer_head)
  | sync_dirty_buffer (bh : buffer_head)
  | ext5_superblock_csum_set
  /-- The call `__ext5_std_error(sb, where, line, err)`. -/
  | std_error (err : Int)
  /-- The call `ext5_error_inode` after a failed write-through. -/
  | error_inode (blocknr : Nat)
  /-- The call `__ext5_abort(sb, ...)`. -/
  | fs_abort
deriving DecidableEq

/-- The values returned by the handle-level routines of the journalling layer
(jbd2), which is outside the repository: parameters of the embedding. -/
structure jbd2_handle_ops where
  jbd2_journal_stop : jbd2_handle → Int
  jbd2_journal_get_write_access : jbd2_handle → buffer_head → Int
  jbd2_journal_get_create_access : jbd2_handle → buffer_head → Int
  jbd2_journal_dirty_metadata : jbd2_handle → buffer_head → Int
  jbd2_journal_forget : jbd2_handle → buffer_head → Int
  jbd2_journal_revoke : jbd2_handle → Nat → Option buffer_head → Int

/-- `EIO` of `errno.h`. -/
def EIO : Int := 5

/-- Modelled from the spec: `ext5_handle_valid` of `ext5_jbd2.h`, which tells a
journaled handle from the nesting placeholder of a volume without journal. -/
def ext5_handle_valid : handle_ptr → Bool
  | handle_ptr.nojournal _ => false
  | _ => true

/-- `is_handle_aborted` of `jbd2.h`: the handle is flagged aborted or its journal
is; `j_aborted` is the result of `is_journal_aborted` for that journal. -/
def is_handle_aborted (j_aborted : Bool) (h : jbd2_handle) : Bool :=
  h.h_aborted || j_aborted

/-- `ext5_put_nojournal`: the new value of `current->journal_info`; `none` when
`BUG_ON(ref_cnt == 0)` fires. -/
def ext5_put_nojournal (ref_cnt : Nat) : Option Nat :=
  if ref_cnt = 0 then none else some (ref_cnt - 1)

/-- `__ext5_journal_stop`: the value returned, `current->journal_info` afterwards
and the calls made.  `none` when a `BUG_ON` fires or the handle is an `ERR_PTR`. -/
def __ext5_journal_stop (ops : jbd2_handle_ops) (handle : handle_ptr) (journal_info : Nat) :
    Option (Int × Nat × List handle_event) :=
  if !ext5_handle_valid handle then
    match handle with
    | handle_ptr.nojournal ref_cnt =>
      match ext5_put_nojournal ref_cnt with
      | none => none
      | some c => some (0, c, [])
    | _ => none
  else
    match handle with
    | handle_ptr.journaled h =>
      let err := h.h_err
      let rc := ops.jbd2_journal_stop h
      let err := if err = 0 then rc else err
      if err ≠ 0 then
        some (err, journal_info, [handle_event.jbd2_journal_stop, handle_event.std_error err])
      else some (err, journal_info, [handle_event.jbd2_journal_stop])
    | _ => none

/-- `ext5_journal_abort_handle` on a journaled handle: the handle afterwards and
the calls made.  `jbd2_journal_abort_handle` sets the aborted flag. -/
def ext5_journal_abort_handle (j_aborted : Bool) (h : jbd2_handle) (err : Int) :
    jbd2_handle × List handle_event :=
  let h := if h.h_err = 0 then { h with h_err := err } else h
  if is_handle_aborted j_aborted h then (h, [])
  else ({ h with h_aborted := true }, [handle_event.jbd2_journal_abort_handle])

/-- `__ext5_journal_get_write_access`: the value returned, the handle afterwards
and the calls made. -/
def __ext5_journal_get_write_access (ops : jbd2_handle_ops) (j_aborted : Bool)
    (handle : handle_ptr) (bh : buffer_head) : Option (Int × handle_ptr × List handle_event) :=
  if ext5_handle_valid handle then
    match handle with
    | handle_ptr.journaled h =>
      let err := ops.jbd2_journal_get_write_access h bh
      if err ≠ 0 then
        let a := ext5_journal_abort_handle j_aborted h err
        some (err, handle_ptr.journaled a.1,
          handle_event.jbd2_journal_get_write_access bh :: a.2)
      else some (err, handle, [handle_event.jbd2_journal_get_write_access bh])
    | _ => none
  else some (0, handle, [])

/-- `__ext5_journal_get_create_access`. -/
def __ext5_journal_get_create_access (ops : jbd2_handle_ops) (j_aborted : Bool)
    (handle : handle_ptr) (bh : buffer_head) : Option (Int × handle_ptr × List handle_event) :=
  if ext5_handle_valid handle then
    match handle with
    | handle_ptr.journaled h =>
      let err := ops.jbd2_journal_get_create_access h bh
      if err ≠ 0 then
        let a := ext5_journal_abort_handle j_aborted h err
        some (err, handle_ptr.journaled a.1,
          handle_event.jbd2_journal_get_create_access bh :: a.2)
      else some (err, handle, [handle_event.jbd2_journal_get_create_access bh])
    | _ => none
  else some (0, handle, [])

/-- `__ext5_forget`.  `data_journal` is `test_opt(sb, DATA_FLAGS) ==
EXT5_MOUNT_JOURNAL_DATA`, `should_journal_data` the result of
`ext5_should_journal_data(inode)`, and `bh` may be null. -/
def __ext5_forget (ops : jbd2_handle_ops) (j_aborted : Bool) (handle : handle_ptr)
    (is_metadata : Bool) (data_journal should_journal_data : Bool)
    (bh : Option buffer_head) (blocknr : Nat) :
    Option (Int × handle_ptr × List handle_event) :=
  if !ext5_handle_valid handle then some (0, handle, [handle_event.bforget bh])
  else
    match handle with
    | handle_ptr.journaled h =>
      if data_journal ∨ (!is_metadata ∧ !should_journal_data) then
        match bh with
        | some b =>
          let err := ops.jbd2_journal_forget h b
          if err ≠ 0 then
            let a := ext5_journal_abort_handle j_aborted h err
            some (err, handle_ptr.journaled a.1, handle_event.jbd2_journal_forget b :: a.2)
          else some (err, handle, [handle_event.jbd2_journal_forget b])
        | none => some (0, handle, [])
      else
        let err := ops.jbd2_journal_revoke h blocknr bh
        if err ≠ 0 then
          let a := ext5_journal_abort_handle j_aborted h err
          some (err, handle_ptr.journaled a.1,
            handle_event.jbd2_journal_revoke blocknr bh :: a.2 ++ [handle_event.fs_abort])
        else some (err, handle, [handle_event.jbd2_journal_revoke blocknr bh])
    | _ => none

/-- `__ext5_handle_dirty_metadata`.  `inode_needs_sync` is `none` for a null
inode and otherwise the result of `inode_needs_sync(inode)`; `io_failed` is
`buffer_req(bh) && !buffer_uptodate(bh)` after the write-through.  The value of
the nested `__ext5_journal_stop` is dropped as in the source. -/
def __ext5_handle_dirty_metadata (ops : jbd2_handle_ops) (handle : handle_ptr)
    (inode_needs_sync : Option Bool) (io_failed : Bool) (bh : buffer_head) :
    Option (Int × handle_ptr × List handle_event) :=
  if ext5_handle_valid handle then
    match handle with
    | handle_ptr.journaled h =>
      let err := ops.jbd2_journal_dirty_metadata h bh
      if err ≠ 0 then
        let h := { h with h_err := err }
        match __ext5_journal_stop ops (handle_ptr.journaled h) 0 with
        | none => none
        | some s =>
          some (err, handle_ptr.journaled h,
            handle_event.set_buffer_meta_prio bh ::
              handle_event.jbd2_journal_dirty_metadata bh :: s.2.2)
      else
        some (err, handle,
          [handle_event.set_buffer_meta_prio bh, handle_event.jbd2_journal_dirty_metadata bh])
    | _ => none
  else
    match inode_needs_sync with
    | none =>
      some (0, handle, [handle_event.set_buffer_meta_prio bh, handle_event.mark_buffer_dirty bh])
    | some false =>
      some (0, handle,
        [handle_event.set_buffer_meta_prio bh, handle_event.mark_buffer_dirty_inode bh])
    | some true =>
      if io_failed then
        some (- EIO, handle,
          [handle_event.set_buffer_meta_prio bh, handle_event.mark_buffer_dirty_inode bh,
            handle_event.sync_dirty_buffer bh, handle_event.error_inode bh.b_blocknr])
      else
        some (0, handle,
          [handle_event.set_buffer_meta_prio bh, handle_event.mark_buffer_dirty_inode bh,
            handle_event.sync_dirty_buffer bh])

/-- `__ext5_handle_dirty_super`; `s_sbh` is the superblock buffer. -/
def __ext5_handle_dirty_super (ops : jbd2_handle_ops) (j_aborted : Bool)
    (handle : handle_ptr) (s_sbh : buffer_head) :
    Option (Int × handle_ptr × List handle_event) :=
  if ext5_handle_valid handle then
    match handle with
    | handle_ptr.journaled h =>
      let err := ops.jbd2_journal_dirty_metadata h s_sbh
      if err ≠ 0 then
        let a := ext5_journal_abort_handle j_aborted h err
        some (err, handle_ptr.journaled a.1,
          handle_event.ext5_superblock_csum_set ::
            handle_event.jbd2_journal_dirty_metadata s_sbh :: a.2)
      else
        some (err, handle,
          [handle_event.ext5_superblock_csum_set, handle_event.jbd2_journal_dirty_metadata s_sbh])
    | _ => none
  else
    some (0, handle, [handle_event.ext5_superblock_csum_set, handle_event.mark_buffer_dirty s_sbh])

/-! ## Goal-block hint -/

/-- The fields of the inode that `ext5_inode_to_goal_block` reads. -/
structure ext5_inode_info where
  i_block_group : Nat
  /-- Result of `S_ISREG(inode->i_mode)`. -/
  is_reg : Bool
deriving DecidableEq

/-- Conversion of an `unsigned int` to `int`: the 32-bit pattern read as a
two's-complement value. -/
def u32_to_int (x : Nat) : Int :=
  if x % 2 ^ 32 < 2 ^ 31 then ((x % 2 ^ 32 : Nat) : Int)
  else ((x % 2 ^ 32 : Nat) : Int) - (2 ^ 32 : Nat)

/-- The group `ext5_inode_to_goal_block` starts from: the value of `block_group`
after the flex-group adjustment.  The argument `flex_size` is the `unsigned int`
that `ext5_flex_bg_size` returns; the source holds it in `int flex_size` and
compares it, signed, with the constant `EXT5_FLEX_SIZE_DIR_ALLOC_SCHEME`
(`scheme`).  `~(flex_size-1)` is taken on the `int` and applied as its 32-bit
pattern, and `block_group++` is an increment of the 32-bit `ext5_group_t`. -/
def goal_block_group (flex_size scheme : Nat) (ei : ext5_inode_info) : Nat :=
  let flex_size : Int := u32_to_int flex_size
  let block_group := ei.i_block_group
  if flex_size ≥ (scheme : Int) then
    let mask : Nat := ((2 ^ 32 - 1 : Nat) - (flex_size - 1) % (2 ^ 32 : Nat)).toNat
    let block_group := block_group &&& mask
    if ei.is_reg then (block_group + 1) % 2 ^ 32 else block_group
  else block_group

/-- Conversion of an unsigned value to `ext5_grpblk_t` (a 32-bit `int`) and back
to a 64-bit unsigned operand: truncation to 32 bits, then sign extension. -/
def grpblk_to_u64 (x : Nat) : Nat :=
  if x % 2 ^ 32 < 2 ^ 31 then x % 2 ^ 32 else x % 2 ^ 32 + (2 ^ 64 - 2 ^ 32)

/-- `ext5_inode_to_goal_block`.  `delalloc` is `test_opt(sb, DELALLOC)` and `pid`
is `current->pid`. -/
def ext5_inode_to_goal_block (sb : super_block) (flex_size scheme : Nat) (delalloc : Bool)
    (pid : Nat) (ei : ext5_inode_info) : Nat :=
  let block_group := goal_block_group flex_size scheme ei
  let bg_start := ext5_group_first_block_no sb block_group
  let last_block := sub64 sb.s_blocks_count 1
  if delalloc then bg_start
  else
    let colour :=
      if bg_start + sb.s_blocks_per_group ≤ last_block then
        (pid % 16) * (sb.s_blocks_per_group / 16)
      else (pid % 16) * (sub64 last_block bg_start / 16)
    (bg_start + grpblk_to_u64 colour) % 2 ^ 64

/-! ## Quantities named by the claims -/

/-- The root reserve: the root-reserved block count converted to clusters, as
`ext5_has_free_clusters` computes it. -/
def root_reserve (sbi : ext5_sb_info) : Int :=
  ((sbi.s_r_blocks_count >>> sbi.s_cluster_bits : Nat) : Int)

/-- The value of `rsv` in `ext5_has_free_clusters`: root reserve plus the
reserved-cluster pool. -/
def reserve (sbi : ext5_sb_info) : Int := root_reserve sbi + sbi.s_resv_clusters

/-- Whether `ext5_has_free_clusters` falls back to the exact sums: the request is
within the watermark margin of the approximate reads. -/
def within_watermark (k : kernel_env) (sbi : ext5_sb_info) (nclusters : Int) : Bool :=
  decide (percpu_counter_read_positive sbi.s_freeclusters_counter -
      (nclusters + reserve sbi + percpu_counter_read_positive sbi.s_dirtyclusters_counter)
    < k.EXT5_FREECLUSTERS_WATERMARK)

/-- The free-cluster value `ext5_has_free_clusters` ends up using. -/
def used_free (k : kernel_env) (sbi : ext5_sb_info) (nclusters : Int) : Int :=
  if within_watermark k sbi nclusters then
    percpu_counter_sum_positive sbi.s_freeclusters_counter
  else percpu_counter_read_positive sbi.s_freeclusters_counter

/-- The dirty-cluster value `ext5_has_free_clusters` ends up using. -/
def used_dirty (k : kernel_env) (sbi : ext5_sb_info) (nclusters : Int) : Int :=
  if within_watermark k sbi nclusters then
    percpu_counter_sum_positive sbi.s_dirtyclusters_counter
  else percpu_counter_read_positive sbi.s_dirtyclusters_counter

/-- The operands of `ext5_has_free_clusters` are below `2^61` in magnitude, so
that none of its `s64` sums overflows: the request, the reserved-cluster pool,
the root reserve, and the approximate and exact values of the two counters. -/
def sums_fit_s64 (sbi : ext5_sb_info) (nclusters : Int) : Bool :=
  decide (-((2 ^ 61 : Nat) : Int) < nclusters ∧ nclusters < (2 ^ 61 : Nat) ∧
    -((2 ^ 61 : Nat) : Int) < sbi.s_resv_clusters ∧ sbi.s_resv_clusters < (2 ^ 61 : Nat) ∧
    root_reserve sbi < (2 ^ 61 : Nat) ∧
    percpu_counter_read_positive sbi.s_freeclusters_counter < (2 ^ 61 : Nat) ∧
    percpu_counter_read_positive sbi.s_dirtyclusters_counter < (2 ^ 61 : Nat) ∧
    percpu_counter_sum_positive sbi.s_freeclusters_counter < (2 ^ 61 : Nat) ∧
    percpu_counter_sum_positive sbi.s_dirtyclusters_counter < (2 ^ 61 : Nat))

/-- Geometry of the scenario of the spec: 8192 blocks per group, one block per
cluster, first data block 0. -/
def sb_scenario : super_block :=
  { s_blocksize := 1024, s_blocksize_bits := 10, s_cluster_bits := 0,
    s_blocks_per_group := 8192, s_first_data_block := 0, s_blocks_count := 81920,
    s_groups_count := 10, s_desc_per_block := 32, s_gdb_count := 1,
    s_first_meta_bg := 0, s_reserved_gdt_blocks := 0, s_itb_per_group := 4,
    sparse_super := true, meta_bg := false, flex_bg := false, std_group_size := false }

/-- A privileged task (it holds `CAP_SYS_RESOURCE`) on CPU 0. -/
def env_privileged : kernel_env :=
  { current_fsuid := 1000, current_groups := [1000], cap_sys_resource := true, cpu := 0,
    percpu_counter_batch := 32, EXT5_FREECLUSTERS_WATERMARK := 128,
    EXT5_MB_USE_ROOT_BLOCKS := 0x1000, EXT5_MB_USE_RESERVED := 0x2000 }

/-- An unprivileged task on CPU 0. -/
def env_plain : kernel_env :=
  { current_fsuid := 1000, current_groups := [1000], cap_sys_resource := false, cpu := 0,
    percpu_counter_batch := 32, EXT5_FREECLUSTERS_WATERMARK := 128,
    EXT5_MB_USE_ROOT_BLOCKS := 0x1000, EXT5_MB_USE_RESERVED := 0x2000 }

/-- Counters with 10 free clusters, none dirty, a root reserve of 8 blocks and an
empty reserved pool, on a one-CPU machine. -/
def sbi_ten_free : ext5_sb_info :=
  { s_freeclusters_counter := { count := 10, counters := [0] },
    s_dirtyclusters_counter := { count := 0, counters := [0] },
    s_resv_clusters := 0, s_r_blocks_count := 8, s_cluster_bits := 0,
    s_resuid := 0, s_resgid := 0 }

/-- Checksum routines for which every descriptor verifies. -/
def csum_accept : csum_ops :=
  { group_desc_csum_verify := fun _ _ => true, block_bitmap_csum := fun _ _ _ => 0,
    group_desc_csum := fun _ _ => 0 }

/-- Checksum routines for which no descriptor verifies. -/
def csum_reject : csum_ops :=
  { group_desc_csum_verify := fun _ _ => false, block_bitmap_csum := fun _ _ _ => 0,
    group_desc_csum := fun _ _ => 0 }

/-- A descriptor of group 1 of `sb_scenario`: bitmaps and inode table follow the
superblock backup and the descriptor block. -/
def gd_scenario : ext5_group_desc :=
  { bg_block_bitmap := 8194, bg_inode_bitmap := 8195, bg_inode_table := 8196,
    bg_free_blocks_count := 8000, bg_free_inodes_count := 100, bg_itable_unused := 100,
    bg_flags := 1, bg_block_bitmap_csum := 0, bg_checksum := 0 }

/-- A meta-block-group geometry: `META_BG` on from meta-group 0, 32 descriptors per
block. -/
def sb_meta : super_block :=
  { s_blocksize := 1024, s_blocksize_bits := 10, s_cluster_bits := 0,
    s_blocks_per_group := 8192, s_first_data_block := 1, s_blocks_count := 819201,
    s_groups_count := 100, s_desc_per_block := 32, s_gdb_count := 4,
    s_first_meta_bg := 0, s_reserved_gdt_blocks := 0, s_itb_per_group := 4,
    sparse_super := true, meta_bg := true, flex_bg := false, std_group_size := false }

/-- The clusters of group `g` that hold metadata, as a set: the first `base`
clusters together with the cluster of every block-bitmap, inode-bitmap or
inode-table block of `gdp` that lies inside group `g`. -/
def overhead_cluster_set (sb : super_block) (g : Nat) (gdp : ext5_group_desc)
    (base : Nat) : Finset Nat :=
  Finset.range base ∪
    (((gdp.bg_block_bitmap :: gdp.bg_inode_bitmap ::
        (List.range sb.s_itb_per_group).map (fun i => (gdp.bg_inode_table + i) % 2 ^ 64)).filter
          (fun blk => ext5_block_in_group sb blk g)).map
      (fun blk => EXT5_B2C sb (sub64 blk (ext5_group_first_block_no sb g)))).toFinset

/-- A bigalloc flex-layout geometry: 1 KiB blocks, two blocks per cluster, 16384
blocks (8192 clusters) per group, 10 groups. -/
def sb_bigalloc : super_block :=
  { s_blocksize := 1024, s_blocksize_bits := 10, s_cluster_bits := 1,
    s_blocks_per_group := 16384, s_first_data_block := 0, s_blocks_count := 163840,
    s_groups_count := 10, s_desc_per_block := 32, s_gdb_count := 1,
    s_first_meta_bg := 0, s_reserved_gdt_blocks := 0, s_itb_per_group := 4,
    sparse_super := true, meta_bg := false, flex_bg := true, std_group_size := false }

/-- A descriptor of group 4 of `sb_bigalloc` (first block 65536): the block bitmap
and the inode bitmap are the two blocks of cluster 5, the inode table fills
clusters 6 and 7. -/
def gd_shared_cluster : ext5_group_desc :=
  { bg_block_bitmap := 65546, bg_inode_bitmap := 65547, bg_inode_table := 65548,
    bg_free_blocks_count := 0, bg_free_inodes_count := 0, bg_itable_unused := 0,
    bg_flags := 1, bg_block_bitmap_csum := 0, bg_checksum := 0 }

/-- A flex-layout geometry with one block per cluster. -/
def sb_flex : super_block :=
  { s_blocksize := 1024, s_blocksize_bits := 10, s_cluster_bits := 0,
    s_blocks_per_group := 8192, s_first_data_block := 0, s_blocks_count := 81920,
    s_groups_count := 10, s_desc_per_block := 32, s_gdb_count := 1,
    s_first_meta_bg := 0, s_reserved_gdt_blocks := 0, s_itb_per_group := 4,
    sparse_super := true, meta_bg := false, flex_bg := true, std_group_size := false }

/-- A descriptor of group 4 of `sb_flex` (first block 32768): block bitmap at
offset 5, inode bitmap at offset 7, inode table in group 0. -/
def gd_gap : ext5_group_desc :=
  { bg_block_bitmap := 32773, bg_inode_bitmap := 32775, bg_inode_table := 100,
    bg_free_blocks_count := 0, bg_free_inodes_count := 0, bg_itable_unused := 0,
    bg_flags := 1, bg_block_bitmap_csum := 0, bg_checksum := 0 }

/-- A volume of `2^31` groups of 32768 blocks of 4 KiB. -/
def sb_huge : super_block :=
  { s_blocksize := 4096, s_blocksize_bits := 12, s_cluster_bits := 0,
    s_blocks_per_group := 32768, s_first_data_block := 0,
    s_blocks_count := 70368744177664, s_groups_count := 2147483648,
    s_desc_per_block := 64, s_gdb_count := 33554432,
    s_first_meta_bg := 0, s_reserved_gdt_blocks := 0, s_itb_per_group := 512,
    sparse_super := true, meta_bg := false, flex_bg := true, std_group_size := false }

/-- A standard-group-size geometry: 4 KiB blocks, `32768 = 2^(12 + 0 + 3)` blocks
per group, shift mode selected. -/
def sb_std : super_block :=
  { s_blocksize := 4096, s_blocksize_bits := 12, s_cluster_bits := 0,
    s_blocks_per_group := 32768, s_first_data_block := 0, s_blocks_count := 327680,
    s_groups_count := 10, s_desc_per_block := 64, s_gdb_count := 1,
    s_first_meta_bg := 0, s_reserved_gdt_blocks := 0, s_itb_per_group := 512,
    sparse_super := true, meta_bg := false, flex_bg := true, std_group_size := true }

/-- A descriptor table of `sb_scenario`: 32 records of 32 bytes per block, one
loaded descriptor block. -/
def gdt_scenario : group_desc_table :=
  { s_desc_per_block_bits := 5, s_desc_size := 32,
    s_group_desc := [some { b_blocknr := 1, b_data := [] }] }

/-- A journalling layer whose start returns a fresh handle and whose forced
commit advances the commit sequence and reports a commit. -/
def jbd2_simple : jbd2_ops :=
  { jbd2__journal_start := fun j _ _ _ =>
      (j, handle_ptr.journaled { h_err := 0, h_aborted := false }),
    jbd2_journal_force_commit_nested := fun j =>
      ({ j with j_commit_sequence := j.j_commit_sequence + 1 }, 1) }

/-- A volume mounted read-only, with a healthy journal. -/
def jsb_readonly : journal_sb :=
  { s_rdonly := true, s_frozen := 0,
    s_journal := some { j_aborted := false, j_commit_sequence := 7 },
    journal_info := 0, events := [] }

/-- A writable volume whose journal has aborted. -/
def jsb_aborted : journal_sb :=
  { s_rdonly := false, s_frozen := 0,
    s_journal := some { j_aborted := true, j_commit_sequence := 7 },
    journal_info := 0, events := [] }

/-- A two-group flex-layout volume whose last group is short: 1 KiB blocks, first
data block 1, 8195 blocks, so group 1 (first block 8193) holds 2 blocks; it carries
a superblock backup, one descriptor block and two reserved GDT blocks. -/
def sb_short_last : super_block :=
  { s_blocksize := 1024, s_blocksize_bits := 10, s_cluster_bits := 0,
    s_blocks_per_group := 8192, s_first_data_block := 1, s_blocks_count := 8195,
    s_groups_count := 2, s_desc_per_block := 32, s_gdb_count := 1,
    s_first_meta_bg := 0, s_reserved_gdt_blocks := 2, s_itb_per_group := 4,
    sparse_super := true, meta_bg := false, flex_bg := true, std_group_size := false }

/-- A descriptor whose bitmaps and inode table lie in group 0. -/
def gd_in_group0 : ext5_group_desc :=
  { bg_block_bitmap := 10, bg_inode_bitmap := 11, bg_inode_table := 12,
    bg_free_blocks_count := 0, bg_free_inodes_count := 0, bg_itable_unused := 0,
    bg_flags := 1, bg_block_bitmap_csum := 0, bg_checksum := 0 }

/-- A non-flex geometry with 4 KiB blocks and first data block 0. -/
def sb_nonflex_4k : super_block :=
  { s_blocksize := 4096, s_blocksize_bits := 12, s_cluster_bits := 0,
    s_blocks_per_group := 32768, s_first_data_block := 0, s_blocks_count := 327680,
    s_groups_count := 10, s_desc_per_block := 64, s_gdb_count := 1,
    s_first_meta_bg := 0, s_reserved_gdt_blocks := 0, s_itb_per_group := 4,
    sparse_super := true, meta_bg := false, flex_bg := false, std_group_size := false }

/-- A descriptor of group 0 whose block-bitmap pointer is block 0. -/
def gd_bitmap_at_zero : ext5_group_desc :=
  { bg_block_bitmap := 0, bg_inode_bitmap := 3, bg_inode_table := 4,
    bg_free_blocks_count := 0, bg_free_inodes_count := 0, bg_itable_unused := 0,
    bg_flags := 0, bg_block_bitmap_csum := 0, bg_checksum := 0 }

/-- The budget of the accountant on exact counter values:
free − dirty − reserve. -/
def budget (sbi : ext5_sb_info) : Int :=
  percpu_counter_sum sbi.s_freeclusters_counter -
    percpu_counter_sum sbi.s_dirtyclusters_counter - reserve sbi

/-- A sequential run of plain `ext5_claim_free_clusters` calls, one per requested
size: the counters at the end and the sum of the sizes of the claims that
succeeded. -/
def claim_run (k : kernel_env) (sbi : ext5_sb_info) : List Int → ext5_sb_info × Int
  | [] => (sbi, 0)
  | n :: ns =>
    let r := ext5_claim_free_clusters k sbi n 0
    let rest := claim_run k r.2 ns
    (rest.1, (if r.1 = 0 then n else 0) + rest.2)

/-- Every call of the run is evaluated on exact counter values: it falls within
the watermark margin, where `ext5_has_free_clusters` takes the exact sums. -/
def claims_exact (k : kernel_env) (sbi : ext5_sb_info) : List Int → Bool
  | [] => true
  | n :: ns =>
    within_watermark k sbi n && claims_exact k (ext5_claim_free_clusters k sbi n 0).2 ns

/-- Every call of the run has operands for which no `s64` sum of
`ext5_has_free_clusters` overflows. -/
def claims_fit_s64 (k : kernel_env) (sbi : ext5_sb_info) : List Int → Bool
  | [] => true
  | n :: ns =>
    sums_fit_s64 sbi n && claims_fit_s64 k (ext5_claim_free_clusters k sbi n 0).2 ns

/-- An additive checksum over every descriptor field except `bg_checksum`,
seeded with the group number. -/
def desc_sum (g : Nat) (d : ext5_group_desc) : Nat :=
  (g + d.bg_block_bitmap + d.bg_inode_bitmap + d.bg_inode_table + d.bg_free_blocks_count +
    d.bg_free_inodes_count + d.bg_itable_unused + d.bg_flags + d.bg_block_bitmap_csum) % 65536

/-- Checksum routines of a volume with descriptor checksums and without bitmap
checksums: a descriptor verifies when `bg_checksum` is the checksum of its other
fields, and storing the bitmap checksum leaves the descriptor alone. -/
def csum_additive : csum_ops :=
  { group_desc_csum_verify := fun g d => d.bg_checksum == desc_sum g d,
    block_bitmap_csum := fun _ d _ => d.bg_block_bitmap_csum,
    group_desc_csum := desc_sum }

/-- A descriptor of group 1 of `sb_scenario` whose free-cluster count was
corrupted from 0 to 5 after its checksum 24587 was stored. -/
def gd_stale_count : ext5_group_desc :=
  { bg_block_bitmap := 8194, bg_inode_bitmap := 8195, bg_inode_table := 8196,
    bg_free_blocks_count := 5, bg_free_inodes_count := 0, bg_itable_unused := 0,
    bg_flags := 1, bg_block_bitmap_csum := 0, bg_checksum := 24587 }

/-- The block-bitmap and inode-bitmap branches of `ext5_num_overhead_clusters`
share this shape: from `blk` and the running `num_clusters` to the new
`num_clusters` and the cluster left pending (`-1` for none). -/
def overhead_bitmap_step (sb : super_block) (block_group start blk num_clusters : Nat) :
    Nat × Int :=
  if ext5_block_in_group sb blk block_group then
    let c : Int := EXT5_B2C sb (sub64 blk start)
    if c < num_clusters then (num_clusters, -1)
    else if c = num_clusters then (num_clusters + 1, -1)
    else (num_clusters, c)
  else (num_clusters, -1)

/-- The body of `ext5_num_overhead_clusters` after the base metadata count
`base` has been read. -/
def overhead_from_base (sb : super_block) (g : Nat) (gdp : ext5_group_desc) (base : Nat) :
    Nat :=
  let start := ext5_group_first_block_no sb g
  let s1 := overhead_bitmap_step sb g start gdp.bg_block_bitmap base
  let s2 := overhead_bitmap_step sb g start gdp.bg_inode_bitmap s1.1
  let s3 := (List.range sb.s_itb_per_group).foldl
    (overhead_itbl_step sb g start gdp.bg_inode_table s1.2 s2.2) (s2.1, -1)
  let n := s3.1
  let n := if s1.2 ≠ -1 then n + 1 else n
  if s2.2 ≠ -1 then n + 1 else n

/-- None of the block-bitmap, inode-bitmap and inode-table blocks of `gdp` lies
inside group `g`. -/
def no_metadata_in_group (sb : super_block) (g : Nat) (gdp : ext5_group_desc) : Prop :=
  ext5_block_in_group sb gdp.bg_block_bitmap g = false ∧
  ext5_block_in_group sb gdp.bg_inode_bitmap g = false ∧
  ∀ i, i < sb.s_itb_per_group →
    ext5_block_in_group sb ((gdp.bg_inode_table + i) % 2 ^ 64) g = false

/-- A descriptor of group 4 of the non-flex `sb_scenario` (first block 32768): the
bitmaps and the inode table open the group. -/
def gd_group4 : ext5_group_desc :=
  { bg_block_bitmap := 32768, bg_inode_bitmap := 32769, bg_inode_table := 32770,
    bg_free_blocks_count := 0, bg_free_inodes_count := 0, bg_itable_unused := 0,
    bg_flags := 1, bg_block_bitmap_csum := 0, bg_checksum := 0 }

/-- A writable volume without journal, frozen (freeze complete), with no handle
open. -/
def jsb_frozen : journal_sb :=
  { s_rdonly := false, s_frozen := 4, s_journal := none, journal_info := 0, events := [] }

/-- A journalling layer whose routines fail with `-EROFS` on a handle flagged
aborted and succeed otherwise; its stop reports success. -/
def jbd2_rofs_when_aborted : jbd2_handle_ops :=
  { jbd2_journal_stop := fun _ => 0,
    jbd2_journal_get_write_access := fun h _ => if h.h_aborted then -30 else 0,
    jbd2_journal_get_create_access := fun h _ => if h.h_aborted then -30 else 0,
    jbd2_journal_dirty_metadata := fun h _ => if h.h_aborted then -30 else 0,
    jbd2_journal_forget := fun h _ => if h.h_aborted then -30 else 0,
    jbd2_journal_revoke := fun h _ _ => if h.h_aborted then -30 else 0 }

/-- A journalling layer whose stop reports `-EIO` and whose other routines
succeed. -/
def jbd2_stop_fails : jbd2_handle_ops :=
  { jbd2_journal_stop := fun _ => -5,
    jbd2_journal_get_write_access := fun _ _ => 0,
    jbd2_journal_get_create_access := fun _ _ => 0,
    jbd2_journal_dirty_metadata := fun _ _ => 0,
    jbd2_journal_forget := fun _ _ => 0,
    jbd2_journal_revoke := fun _ _ _ => 0 }

/-- A metadata buffer of block 1000. -/
def bh_sample : buffer_head := { b_blocknr := 1000, b_data := [] }

/-- A flex-layout volume of 17 groups of 32768 blocks of 4 KiB: with 16 groups per
flex-group, group 16 is the only group of the last flex-group. -/
def sb_17_groups : super_block :=
  { s_blocksize := 4096, s_blocksize_bits := 12, s_cluster_bits := 0,
    s_blocks_per_group := 32768, s_first_data_block := 0, s_blocks_count := 557056,
    s_groups_count := 17, s_desc_per_block := 64, s_gdb_count := 1,
    s_first_meta_bg := 0, s_reserved_gdt_blocks := 0, s_itb_per_group := 512,
    sparse_super := true, meta_bg := false, flex_bg := true, std_group_size := true }

/-- A regular file whose inode lives in group 16. -/
def ei_reg_last_group : ext5_inode_info := { i_block_group := 16, is_reg := true }

/-- A directory whose inode lives in group 7. -/
def ei_dir_group7 : ext5_inode_info := { i_block_group := 7, is_reg := false }

/-- A non-flex bigalloc geometry: 1 KiB blocks, two blocks per cluster, 16384
blocks (8192 clusters) per group. -/
def sb_bigalloc_nonflex : super_block :=
  { s_blocksize := 1024, s_blocksize_bits := 10, s_cluster_bits := 1,
    s_blocks_per_group := 16384, s_first_data_block := 0, s_blocks_count := 163840,
    s_groups_count := 10, s_desc_per_block := 32, s_gdb_count := 1,
    s_first_meta_bg := 0, s_reserved_gdt_blocks := 0, s_itb_per_group := 4,
    sparse_super := true, meta_bg := false, flex_bg := false, std_group_size := false }

/-- The descriptor of group 1 of `sb_bigalloc_nonflex` (first block 16384): the
bitmaps and the inode table follow the superblock backup and the descriptor
block. -/
def gd_bigalloc_group1 : ext5_group_desc :=
  { bg_block_bitmap := 16386, bg_inode_bitmap := 16387, bg_inode_table := 16388,
    bg_free_blocks_count := 0, bg_free_inodes_count := 0, bg_itable_unused := 0,
    bg_flags := 1, bg_block_bitmap_csum := 0, bg_checksum := 0 }

/-! ## Theorems -/

theorem sub64_of_le {a b : Nat} (h : b ≤ a) (ha : a < 2 ^ 64) : sub64 a b = a - b := by
  unfold sub64; omega

/-- C4: for a geometry with `blocks_per_group > 0` and a 64-bit block number at or
above the first data block, `ext5_get_group_no_and_offset` returns as group the
quotient of `block − first_data_block` by `blocks_per_group`, stored through the
32-bit `ext5_group_t`, and as offset the remainder shifted right by cluster-bits;
so for a block of a volume of fewer than `2^32` groups the group is the quotient
itself.  With 8192 blocks per group, cluster-bits 0 and first data block 0, block
8200 maps to (1, 8) and block 0 to (0, 0). -/
theorem ext5_get_group_no_and_offset_spec (sb : super_block) (blocknr : Nat)
    (_hbpg : 0 < sb.s_blocks_per_group) (hfirst : sb.s_first_data_block ≤ blocknr)
    (h64 : blocknr < 2 ^ 64) :
    ext5_get_group_no_and_offset sb blocknr =
      (((blocknr - sb.s_first_data_block) / sb.s_blocks_per_group) % 2 ^ 32,
       ((blocknr - sb.s_first_data_block) % sb.s_blocks_per_group) >>> sb.s_cluster_bits) ∧
    ((blocknr - sb.s_first_data_block) / sb.s_blocks_per_group < 2 ^ 32 →
      ext5_get_group_no_and_offset sb blocknr =
        ((blocknr - sb.s_first_data_block) / sb.s_blocks_per_group,
         ((blocknr - sb.s_first_data_block) % sb.s_blocks_per_group) >>>
           sb.s_cluster_bits)) ∧
    (sb.s_blocks_per_group = 8192 → sb.s_cluster_bits = 0 → sb.s_first_data_block = 0 →
      ext5_get_group_no_and_offset sb 8200 = (1, 8) ∧
      ext5_get_group_no_and_offset sb 0 = (0, 0)) := by
  refine ⟨?_, ?_, ?_⟩
  · simp only [ext5_get_group_no_and_offset, sub64_of_le hfirst h64]
  · intro hq
    simp only [ext5_get_group_no_and_offset, sub64_of_le hfirst h64, Nat.mod_eq_of_lt hq]
  · intro h1 h2 h3
    simp [ext5_get_group_no_and_offset, h1, h2, h3, sub64]

theorem ext5_get_group_no_and_offset_spec_witness :
    0 < sb_scenario.s_blocks_per_group ∧ sb_scenario.s_first_data_block ≤ 8200 ∧
    ext5_get_group_no_and_offset sb_scenario 8200 = (1, 8) :=
  ⟨by decide, by decide,
    ((ext5_get_group_no_and_offset_spec sb_scenario 8200 (by decide) (by decide)
      (by decide)).2.2 rfl rfl rfl).1⟩

theorem wrap_s64_of_fit {x : Int} (h1 : -2 ^ 63 ≤ x) (h2 : x < 2 ^ 63) : wrap_s64 x = x := by
  unfold wrap_s64; omega

theorem read_positive_nonneg (c : percpu_counter) : 0 ≤ percpu_counter_read_positive c := by
  unfold percpu_counter_read_positive
  split_ifs <;> omega

theorem sum_positive_nonneg (c : percpu_counter) : 0 ≤ percpu_counter_sum_positive c := by
  unfold percpu_counter_sum_positive
  split_ifs <;> omega

theorem has_free_eq (k : kernel_env) (sbi : ext5_sb_info) (nclusters : Int) (flags : Nat)
    (hfit : sums_fit_s64 sbi nclusters = true) :
    ext5_has_free_clusters k sbi nclusters flags =
      if used_free k sbi nclusters ≥ reserve sbi + nclusters + used_dirty k sbi nclusters then 1
      else if may_use_root_blocks k sbi flags = true ∧
        used_free k sbi nclusters ≥
          nclusters + used_dirty k sbi nclusters + sbi.s_resv_clusters then 1
      else if flags &&& k.EXT5_MB_USE_RESERVED ≠ 0 ∧
        used_free k sbi nclusters ≥ nclusters + used_dirty k sbi nclusters then 1
      else 0 := by
  simp only [sums_fit_s64, decide_eq_true_eq] at hfit
  obtain ⟨h1, h2, h3, h4, h5, h6, h7, h8, h9⟩ := hfit
  have hr0 : 0 ≤ root_reserve sbi := by
    unfold root_reserve
    exact Int.ofNat_nonneg _
  have hrsv : wrap_s64 (((sbi.s_r_blocks_count >>> sbi.s_cluster_bits : Nat) : Int) +
      sbi.s_resv_clusters) = reserve sbi := by
    unfold root_reserve at hr0 h5
    unfold reserve root_reserve
    exact wrap_s64_of_fit (by omega) (by omega)
  have hres : -((2 ^ 61 : Nat) : Int) < reserve sbi ∧ reserve sbi < 2 * ((2 ^ 61 : Nat) : Int) := by
    unfold reserve
    omega
  have key : ∀ f d : Int, 0 ≤ f → f < ((2 ^ 61 : Nat) : Int) → 0 ≤ d →
      d < ((2 ^ 61 : Nat) : Int) →
      wrap_s64 (f - wrap_s64 (wrap_s64 (nclusters + reserve sbi) + d)) =
        f - (nclusters + reserve sbi + d) ∧
      wrap_s64 (wrap_s64 (reserve sbi + nclusters) + d) = reserve sbi + nclusters + d ∧
      wrap_s64 (wrap_s64 (nclusters + d) + sbi.s_resv_clusters) =
        nclusters + d + sbi.s_resv_clusters ∧
      wrap_s64 (nclusters + d) = nclusters + d := by
    intro f d hf0 hf hd0 hd
    have e1 : wrap_s64 (nclusters + reserve sbi) = nclusters + reserve sbi :=
      wrap_s64_of_fit (by omega) (by omega)
    have e2 : wrap_s64 (nclusters + reserve sbi + d) = nclusters + reserve sbi + d :=
      wrap_s64_of_fit (by omega) (by omega)
    have e3 : wrap_s64 (f - (nclusters + reserve sbi + d)) = f - (nclusters + reserve sbi + d) :=
      wrap_s64_of_fit (by omega) (by omega)
    have e4 : wrap_s64 (reserve sbi + nclusters) = reserve sbi + nclusters :=
      wrap_s64_of_fit (by omega) (by omega)
    have e5 : wrap_s64 (reserve sbi + nclusters + d) = reserve sbi + nclusters + d :=
      wrap_s64_of_fit (by omega) (by omega)
    have e6 : wrap_s64 (nclusters + d) = nclusters + d :=
      wrap_s64_of_fit (by omega) (by omega)
    have e7 : wrap_s64 (nclusters + d + sbi.s_resv_clusters) =
        nclusters + d + sbi.s_resv_clusters :=
      wrap_s64_of_fit (by omega) (by omega)
    rw [e1, e2, e3, e4, e5, e6, e7]
    exact ⟨rfl, rfl, rfl, rfl⟩
  have kr := key _ _ (read_positive_nonneg sbi.s_freeclusters_counter) h6
    (read_positive_nonneg sbi.s_dirtyclusters_counter) h7
  have ks := key _ _ (sum_positive_nonneg sbi.s_freeclusters_counter) h8
    (sum_positive_nonneg sbi.s_dirtyclusters_counter) h9
  unfold ext5_has_free_clusters used_free used_dirty within_watermark
  dsimp only
  rw [hrsv, kr.1]
  by_cases hw : percpu_counter_read_positive sbi.s_freeclusters_counter -
      (nclusters + reserve sbi + percpu_counter_read_positive sbi.s_dirtyclusters_counter) <
      k.EXT5_FREECLUSTERS_WATERMARK
  · simp only [hw, decide_True, if_true]
    rw [ks.2.1, ks.2.2.1, ks.2.2.2]
  · simp only [hw, decide_False, Bool.false_eq_true, if_false]
    rw [kr.2.1, kr.2.2.1, kr.2.2.2]

/-- C2, as the code has it: for operands below `2^61` in magnitude, where no
`s64` sum overflows, `ext5_has_free_clusters` returns 1 iff (a) free ≥ reserve +
n + dirty, or (b) the caller is privileged and free ≥ n + dirty + the
reserved-cluster pool, or (c) `EXT5_MB_USE_RESERVED` is set and free ≥ n + dirty;
it returns 0 otherwise.  Free and dirty are the values the function ends up using
and reserve is the root reserve plus the reserved-cluster pool. -/
theorem ext5_has_free_clusters_tiers (k : kernel_env) (sbi : ext5_sb_info)
    (nclusters : Int) (flags : Nat) (hfit : sums_fit_s64 sbi nclusters = true) :
    (ext5_has_free_clusters k sbi nclusters flags = 1 ↔
      (used_free k sbi nclusters ≥ reserve sbi + nclusters + used_dirty k sbi nclusters) ∨
      (may_use_root_blocks k sbi flags = true ∧
        used_free k sbi nclusters ≥
          nclusters + used_dirty k sbi nclusters + sbi.s_resv_clusters) ∨
      (flags &&& k.EXT5_MB_USE_RESERVED ≠ 0 ∧
        used_free k sbi nclusters ≥ nclusters + used_dirty k sbi nclusters)) ∧
    (ext5_has_free_clusters k sbi nclusters flags = 1 ∨
      ext5_has_free_clusters k sbi nclusters flags = 0) := by
  rw [has_free_eq k sbi nclusters flags hfit]
  constructor
  · constructor
    · intro h
      by_contra hc
      push_neg at hc
      obtain ⟨h1, h2, h3⟩ := hc
      rw [if_neg (not_le.mpr h1), if_neg (fun hh => absurd hh.2 (not_le.mpr (h2 hh.1))),
        if_neg (fun hh => absurd hh.2 (not_le.mpr (h3 hh.1)))] at h
      exact absurd h (by decide)
    · rintro (h | h | h)
      · rw [if_pos h]
      · split_ifs <;> rfl
      · split_ifs <;> rfl
  · split_ifs <;> simp

theorem ext5_has_free_clusters_tiers_witness :
    sums_fit_s64 sbi_ten_free 2 = true ∧
    (ext5_has_free_clusters env_plain sbi_ten_free 2 0 = 1 ↔
      (used_free env_plain sbi_ten_free 2 ≥
        reserve sbi_ten_free + 2 + used_dirty env_plain sbi_ten_free 2) ∨
      (may_use_root_blocks env_plain sbi_ten_free 0 = true ∧
        used_free env_plain sbi_ten_free 2 ≥
          2 + used_dirty env_plain sbi_ten_free 2 + sbi_ten_free.s_resv_clusters) ∨
      (0 &&& env_plain.EXT5_MB_USE_RESERVED ≠ 0 ∧
        used_free env_plain sbi_ten_free 2 ≥ 2 + used_dirty env_plain sbi_ten_free 2)) ∧
    ext5_has_free_clusters env_plain sbi_ten_free 2 0 = 1 :=
  ⟨by decide, (ext5_has_free_clusters_tiers env_plain sbi_ten_free 2 0 (by decide)).1,
    by decide⟩

/-- C2 as stated fails: a privileged caller asks for 5 clusters with 10 free,
none dirty, a root reserve of 8 and an empty reserved pool, and no flag.  The
function admits the request, although no tier of the claim holds: tier (b) as
stated needs free ≥ n + dirty + root_reserve = 13. -/
theorem ext5_has_free_clusters_root_reserve_counterexample :
    ext5_has_free_clusters env_privileged sbi_ten_free 5 0 = 1 ∧
    ¬ ((used_free env_privileged sbi_ten_free 5 ≥
          reserve sbi_ten_free + 5 + used_dirty env_privileged sbi_ten_free 5) ∨
       (may_use_root_blocks env_privileged sbi_ten_free 0 = true ∧
          used_free env_privileged sbi_ten_free 5 ≥
            5 + used_dirty env_privileged sbi_ten_free 5 + root_reserve sbi_ten_free) ∨
       (0 &&& env_privileged.EXT5_MB_USE_RESERVED ≠ 0 ∧
          used_free env_privileged sbi_ten_free 5 ≥
            5 + used_dirty env_privileged sbi_ten_free 5)) := by
  decide

theorem sum_set_getD (l : List Int) (i : Nat) (v : Int) (h : i < l.length) :
    (l.set i v).sum = l.sum - l.getD i 0 + v := by
  induction l generalizing i with
  | nil => simp at h
  | cons x xs ih =>
    cases i with
    | zero => simp; omega
    | succ j =>
      have hj : j < xs.length := by simpa using h
      have := ih j hj
      simp only [List.set_cons_succ, List.sum_cons, List.getD_cons_succ] at this ⊢
      omega

theorem percpu_counter_add_sum (cpu : Nat) (batch : Int) (fbc : percpu_counter)
    (amount : Int) (h : cpu < fbc.counters.length) :
    percpu_counter_sum (percpu_counter_add cpu batch fbc amount) =
      percpu_counter_sum fbc + amount := by
  unfold percpu_counter_add percpu_counter_sum
  by_cases hb : fbc.counters.getD cpu 0 + amount ≥ batch ∨
      fbc.counters.getD cpu 0 + amount ≤ -batch
  · simp only [hb, if_true, sum_set_getD _ _ _ h]
    omega
  · simp only [hb, if_false, sum_set_getD _ _ _ h]
    omega

theorem has_free_zero_or_one (k : kernel_env) (sbi : ext5_sb_info) (nclusters : Int)
    (flags : Nat) :
    ext5_has_free_clusters k sbi nclusters flags = 1 ∨
      ext5_has_free_clusters k sbi nclusters flags = 0 := by
  unfold ext5_has_free_clusters
  dsimp only
  split_ifs <;> simp

/-- C3: when `ext5_has_free_clusters(n, flags)` holds, `ext5_claim_free_clusters`
returns 0 and the dirty counter grows by exactly `n` while the free counter and
the reserved pool stay as they were; otherwise it returns `-ENOSPC` and leaves the
counters untouched; for an unprivileged caller without flags and operands below
`2^61` in magnitude, where no `s64` sum overflows, it succeeds iff
free − dirty − reserve ≥ n. -/
theorem ext5_claim_free_clusters_spec (k : kernel_env) (sbi : ext5_sb_info)
    (nclusters : Int) (flags : Nat)
    (hcpu : k.cpu < sbi.s_dirtyclusters_counter.counters.length) :
    (ext5_has_free_clusters k sbi nclusters flags = 1 →
      (ext5_claim_free_clusters k sbi nclusters flags).1 = 0 ∧
      percpu_counter_sum (ext5_claim_free_clusters k sbi nclusters flags).2.s_dirtyclusters_counter
        = percpu_counter_sum sbi.s_dirtyclusters_counter + nclusters ∧
      (ext5_claim_free_clusters k sbi nclusters flags).2.s_freeclusters_counter
        = sbi.s_freeclusters_counter ∧
      (ext5_claim_free_clusters k sbi nclusters flags).2.s_resv_clusters
        = sbi.s_resv_clusters) ∧
    (ext5_has_free_clusters k sbi nclusters flags ≠ 1 →
      ext5_claim_free_clusters k sbi nclusters flags = (-ENOSPC, sbi)) ∧
    (may_use_root_blocks k sbi 0 = false → sums_fit_s64 sbi nclusters = true →
      ((ext5_claim_free_clusters k sbi nclusters 0).1 = 0 ↔
        used_free k sbi nclusters - used_dirty k sbi nclusters - reserve sbi ≥ nclusters)) := by
  refine ⟨?_, ?_, ?_⟩
  · intro h
    simp only [ext5_claim_free_clusters, h]
    refine ⟨by simp, ?_, by simp, by simp⟩
    simpa using percpu_counter_add_sum k.cpu k.percpu_counter_batch _ nclusters hcpu
  · intro h
    have h0 : ext5_has_free_clusters k sbi nclusters flags = 0 := by
      rcases has_free_zero_or_one k sbi nclusters flags with h1 | h1
      · exact absurd h1 h
      · exact h1
    simp [ext5_claim_free_clusters, h0]
  · intro hpriv hfit
    have hval : ext5_has_free_clusters k sbi nclusters 0 =
        if used_free k sbi nclusters ≥ reserve sbi + nclusters + used_dirty k sbi nclusters
          then 1 else 0 := by
      rw [has_free_eq k sbi nclusters 0 hfit]
      simp [hpriv]
    unfold ext5_claim_free_clusters
    rw [hval]
    by_cases hp : used_free k sbi nclusters ≥
        reserve sbi + nclusters + used_dirty k sbi nclusters
    · simp only [hp, if_true]
      constructor
      · intro _; omega
      · intro _; simp
    · simp only [hp, if_false]
      constructor
      · intro h; simp [ENOSPC] at h
      · intro h; exact absurd (by omega) hp

theorem ext5_claim_free_clusters_spec_witness :
    env_plain.cpu < sbi_ten_free.s_dirtyclusters_counter.counters.length ∧
    ext5_has_free_clusters env_plain sbi_ten_free 2 0 = 1 ∧
    (ext5_claim_free_clusters env_plain sbi_ten_free 2 0).1 = 0 ∧
    percpu_counter_sum (ext5_claim_free_clusters env_plain sbi_ten_free 2 0).2.s_dirtyclusters_counter
      = percpu_counter_sum sbi_ten_free.s_dirtyclusters_counter + 2 ∧
    may_use_root_blocks env_plain sbi_ten_free 0 = false ∧
    sums_fit_s64 sbi_ten_free 3 = true ∧
    ((ext5_claim_free_clusters env_plain sbi_ten_free 3 0).1 = 0 ↔
      used_free env_plain sbi_ten_free 3 - used_dirty env_plain sbi_ten_free 3 -
        reserve sbi_ten_free ≥ 3) :=
  ⟨by decide, by decide,
    ((ext5_claim_free_clusters_spec env_plain sbi_ten_free 2 0 (by decide)).1 (by decide)).1,
    ((ext5_claim_free_clusters_spec env_plain sbi_ten_free 2 0 (by decide)).1 (by decide)).2.1,
    by decide, by decide,
    (ext5_claim_free_clusters_spec env_plain sbi_ten_free 3 0 (by decide)).2.2 (by decide)
      (by decide)⟩

/-- C6: for a descriptor whose checksum verification fails,
`ext5_init_block_bitmap` returns with the free-cluster, free-inode and
unused-inode counts set to 0 and with exactly the `8 × blocksize` bits of the
bitmap block set; nothing of the normal path (base metadata bits, end padding,
descriptor checksum) is computed: the block pointers, flags and descriptor
checksum stay as they were and only the bitmap checksum is stored. -/
theorem ext5_init_block_bitmap_degraded (cs : csum_ops) (sb : super_block) (bh : Bitmap)
    (block_group : Nat) (gdp : ext5_group_desc)
    (hbad : cs.group_desc_csum_verify block_group gdp = false) :
    ext5_init_block_bitmap cs sb bh block_group gdp =
      some (Finset.range (sb.s_blocksize * 8),
        { bg_block_bitmap := gdp.bg_block_bitmap,
          bg_inode_bitmap := gdp.bg_inode_bitmap,
          bg_inode_table := gdp.bg_inode_table,
          bg_free_blocks_count := 0,
          bg_free_inodes_count := 0,
          bg_itable_unused := 0,
          bg_flags := gdp.bg_flags,
          bg_block_bitmap_csum :=
            cs.block_bitmap_csum block_group
              { gdp with bg_free_blocks_count := 0, bg_free_inodes_count := 0,
                         bg_itable_unused := 0 }
              (Finset.range (sb.s_blocksize * 8)),
          bg_checksum := gdp.bg_checksum }) ∧
    (∀ b, b ∈ Finset.range (sb.s_blocksize * 8) ↔ b < sb.s_blocksize * 8) := by
  refine ⟨?_, fun b => Finset.mem_range⟩
  simp only [ext5_init_block_bitmap, hbad, memset_ff]
  rfl

theorem ext5_init_block_bitmap_degraded_witness :
    csum_reject.group_desc_csum_verify 1 gd_scenario = false ∧
    ext5_init_block_bitmap csum_reject sb_scenario ∅ 1 gd_scenario =
      some (Finset.range 8192,
        { bg_block_bitmap := 8194, bg_inode_bitmap := 8195, bg_inode_table := 8196,
          bg_free_blocks_count := 0, bg_free_inodes_count := 0, bg_itable_unused := 0,
          bg_flags := 1, bg_block_bitmap_csum := 0, bg_checksum := 0 }) :=
  ⟨rfl, (ext5_init_block_bitmap_degraded csum_reject sb_scenario ∅ 1 gd_scenario rfl).1⟩

theorem has_super_zero_or_one {sb : super_block} {group s : Nat}
    (h : ext5_bg_has_super sb group = some s) : s = 0 ∨ s = 1 := by
  unfold ext5_bg_has_super at h
  split at h
  · split at h
    · exact absurd h (by simp)
    · split at h <;> simp at h <;> omega
  · simp at h; omega

theorem num_b2c_le_iff (sb : super_block) (n m : Nat) :
    EXT5_NUM_B2C sb n ≤ m ↔ n ≤ m * 2 ^ sb.s_cluster_bits := by
  have hp : 0 < 2 ^ sb.s_cluster_bits := Nat.pow_pos (by norm_num)
  have e : (m + 1) * 2 ^ sb.s_cluster_bits =
      m * 2 ^ sb.s_cluster_bits + 2 ^ sb.s_cluster_bits := by ring
  unfold EXT5_NUM_B2C
  rw [Nat.shiftRight_eq_div_pow]
  constructor
  · intro h
    by_contra hc
    have h1 : (m + 1) * 2 ^ sb.s_cluster_bits ≤ n + (2 ^ sb.s_cluster_bits - 1) := by omega
    have h2 := (Nat.le_div_iff_mul_le hp).2 h1
    omega
  · intro h
    have h1 : (n + (2 ^ sb.s_cluster_bits - 1)) / 2 ^ sb.s_cluster_bits < m + 1 := by
      rw [Nat.div_lt_iff_lt_mul hp]
      omega
    omega

/-- C9: with `META_BG` off, the base metadata of group `g` is
1 + `s_gdb_count` + `s_reserved_gdt_blocks` blocks when `ext5_bg_has_super(g)` is 1
and 0 blocks otherwise, and `ext5_num_base_meta_clusters(g)` is that block count
rounded up to whole clusters: the least number of clusters that holds it. -/
theorem ext5_num_base_meta_clusters_nometa (sb : super_block) (g : Nat)
    (hmeta : sb.meta_bg = false) :
    ext5_num_base_meta_clusters sb g =
      (ext5_bg_has_super sb g).map (fun s =>
        EXT5_NUM_B2C sb
          (if s = 1 then 1 + sb.s_gdb_count + sb.s_reserved_gdt_blocks else 0)) ∧
    (∀ n m, EXT5_NUM_B2C sb n ≤ m ↔ n ≤ m * 2 ^ sb.s_cluster_bits) := by
  refine ⟨?_, num_b2c_le_iff sb⟩
  unfold ext5_num_base_meta_clusters ext5_bg_num_gdb ext5_bg_num_gdb_nometa
  cases hs : ext5_bg_has_super sb g with
  | none => simp
  | some s =>
    rcases has_super_zero_or_one hs with h0 | h1
    · subst h0; simp [hmeta]
    · subst h1; simp [hmeta]

theorem ext5_num_base_meta_clusters_nometa_witness :
    sb_scenario.meta_bg = false ∧
    ext5_num_base_meta_clusters sb_scenario 1 = some 2 ∧
    ext5_num_base_meta_clusters sb_scenario 4 = some 0 :=
  ⟨rfl,
   (ext5_num_base_meta_clusters_nometa sb_scenario 1 rfl).1.trans (by decide),
   by decide⟩

/-- C10: under the meta-block-group rule (`META_BG` on and
`g / desc_per_block ≥ first_meta_bg`), `ext5_bg_num_gdb(g)` is 1 exactly when
`g mod desc_per_block` is 0, 1 or `desc_per_block − 1` and 0 otherwise; the base
metadata of `g` is `ext5_bg_has_super(g)` plus that value, without reserved-GDT
blocks, rounded up to clusters; and the threshold test of
`ext5_num_base_meta_clusters` agrees with that of `ext5_bg_num_gdb` on every
group. -/
theorem ext5_bg_num_gdb_meta_rule (sb : super_block) (g : Nat)
    (hd : 0 < sb.s_desc_per_block) (hmeta : sb.meta_bg = true)
    (hthr : sb.s_first_meta_bg ≤ g / sb.s_desc_per_block) :
    ext5_bg_num_gdb sb g =
      some (if g % sb.s_desc_per_block = 0 ∨ g % sb.s_desc_per_block = 1 ∨
          g % sb.s_desc_per_block = sb.s_desc_per_block - 1 then 1 else 0) ∧
    ext5_num_base_meta_clusters sb g =
      (ext5_bg_has_super sb g).map (fun s =>
        EXT5_NUM_B2C sb (s +
          (if g % sb.s_desc_per_block = 0 ∨ g % sb.s_desc_per_block = 1 ∨
            g % sb.s_desc_per_block = sb.s_desc_per_block - 1 then 1 else 0))) ∧
    (∀ g1 : Nat, g1 < sb.s_first_meta_bg * sb.s_desc_per_block ↔
      g1 / sb.s_desc_per_block < sb.s_first_meta_bg) := by
  have hthr2 : ∀ g1 : Nat, g1 < sb.s_first_meta_bg * sb.s_desc_per_block ↔
      g1 / sb.s_desc_per_block < sb.s_first_meta_bg :=
    fun g1 => (Nat.div_lt_iff_lt_mul hd).symm
  have hgdb : ext5_bg_num_gdb sb g =
      some (if g % sb.s_desc_per_block = 0 ∨ g % sb.s_desc_per_block = 1 ∨
          g % sb.s_desc_per_block = sb.s_desc_per_block - 1 then 1 else 0) := by
    have h1 := Nat.div_add_mod' g sb.s_desc_per_block
    have h2 := Nat.mod_lt g hd
    have hiff : (g = g / sb.s_desc_per_block * sb.s_desc_per_block ∨
        g = g / sb.s_desc_per_block * sb.s_desc_per_block + 1 ∨
        g = g / sb.s_desc_per_block * sb.s_desc_per_block + sb.s_desc_per_block - 1) ↔
        (g % sb.s_desc_per_block = 0 ∨ g % sb.s_desc_per_block = 1 ∨
          g % sb.s_desc_per_block = sb.s_desc_per_block - 1) := by
      omega
    simp only [ext5_bg_num_gdb, ext5_bg_num_gdb_meta, hmeta, Bool.not_true, Bool.false_eq_true,
      false_or, not_lt.mpr hthr, if_false, hiff]
  refine ⟨hgdb, ?_, hthr2⟩
  have hnot : ¬ g < sb.s_first_meta_bg * sb.s_desc_per_block := by
    rw [hthr2]; exact not_lt.mpr hthr
  unfold ext5_num_base_meta_clusters
  cases hs : ext5_bg_has_super sb g with
  | none => simp
  | some s => simp [hmeta, hnot, hgdb]

theorem ext5_bg_num_gdb_meta_rule_witness :
    0 < sb_meta.s_desc_per_block ∧ sb_meta.meta_bg = true ∧
    sb_meta.s_first_meta_bg ≤ 63 / sb_meta.s_desc_per_block ∧
    ext5_bg_num_gdb sb_meta 63 = some 1 ∧ ext5_bg_num_gdb sb_meta 34 = some 0 :=
  ⟨by decide, rfl, by decide,
   (ext5_bg_num_gdb_meta_rule sb_meta 63 (by decide) rfl (by decide)).1.trans (by decide),
   by decide⟩

theorem mem_foldl_set_bit (l : List Nat) (s : Bitmap) (x : Nat) :
    x ∈ l.foldl (fun b bit => ext5_set_bit bit b) s ↔ x ∈ s ∨ x ∈ l := by
  induction l generalizing s with
  | nil => simp
  | cons a t ih =>
    rw [List.foldl_cons, ih]
    simp only [ext5_set_bit, Finset.mem_insert, List.mem_cons]
    tauto

theorem mem_init_mark_block (sb : super_block) (g start : Nat) (bh : Bitmap) (tmp x : Nat) :
    x ∈ init_mark_block sb g start bh tmp ↔
      x ∈ bh ∨ ((sb.flex_bg = false ∨ ext5_block_in_group sb tmp g = true) ∧
        x = EXT5_B2C sb (sub64 tmp start)) := by
  unfold init_mark_block ext5_set_bit
  by_cases h : (!sb.flex_bg) = true ∨ ext5_block_in_group sb tmp g = true
  · have h2 : sb.flex_bg = false ∨ ext5_block_in_group sb tmp g = true := by
      simpa using h
    simp only [h, if_true, Finset.mem_insert]
    constructor
    · rintro (h1 | h1)
      · exact Or.inr ⟨h2, h1⟩
      · exact Or.inl h1
    · rintro (h1 | ⟨_, h1⟩)
      · exact Or.inr h1
      · exact Or.inl h1
  · have h2 : ¬ (sb.flex_bg = false ∨ ext5_block_in_group sb tmp g = true) := by
      simpa using h
    simp only [h, if_false]
    constructor
    · exact fun h1 => Or.inl h1
    · rintro (h1 | ⟨h1, _⟩)
      · exact h1
      · exact absurd h1 h2

theorem mem_foldl_init_mark_block (sb : super_block) (g start : Nat) (l : List Nat)
    (bh : Bitmap) (x : Nat) :
    x ∈ l.foldl (init_mark_block sb g start) bh ↔
      x ∈ bh ∨ ∃ tmp ∈ l, (sb.flex_bg = false ∨ ext5_block_in_group sb tmp g = true) ∧
        x = EXT5_B2C sb (sub64 tmp start) := by
  induction l generalizing bh with
  | nil => simp
  | cons a t ih =>
    rw [List.foldl_cons, ih, mem_init_mark_block]
    constructor
    · rintro ((h | h) | ⟨tmp, ht, h⟩)
      · exact Or.inl h
      · exact Or.inr ⟨a, List.mem_cons_self a t, h⟩
      · exact Or.inr ⟨tmp, List.mem_cons_of_mem a ht, h⟩
    · rintro (h | ⟨tmp, ht, h⟩)
      · exact Or.inl (Or.inl h)
      · rcases List.mem_cons.mp ht with rfl | ht
        · exact Or.inl (Or.inr h)
        · exact Or.inr ⟨tmp, ht, h⟩

/-- C7, as the code has it: for a descriptor whose checksum verifies,
`ext5_init_block_bitmap` returns whenever `ext5_num_base_meta_clusters` does, and
whatever the buffer held before, the bits set afterwards are exactly: the first
`ext5_num_base_meta_clusters(g)` bits; the clusters of the block-bitmap,
inode-bitmap and inode-table blocks (always when `FLEX_BG` is off, only those
inside group `g` when it is on); and every bit from `num_clusters_in_group(g)` up
to `8 × blocksize`. -/
theorem ext5_init_block_bitmap_bits (cs : csum_ops) (sb : super_block) (bh : Bitmap)
    (g : Nat) (gdp : ext5_group_desc)
    (hok : cs.group_desc_csum_verify g gdp = true) :
    (ext5_init_block_bitmap cs sb bh g gdp).isSome =
      (ext5_num_base_meta_clusters sb g).isSome ∧
    ∀ r, ext5_init_block_bitmap cs sb bh g gdp = some r → ∀ b, b ∈ r.1 ↔
      (∃ base, ext5_num_base_meta_clusters sb g = some base ∧ b < base) ∨
      ((sb.flex_bg = false ∨ ext5_block_in_group sb gdp.bg_block_bitmap g = true) ∧
        b = EXT5_B2C sb (sub64 gdp.bg_block_bitmap (ext5_group_first_block_no sb g))) ∨
      ((sb.flex_bg = false ∨ ext5_block_in_group sb gdp.bg_inode_bitmap g = true) ∧
        b = EXT5_B2C sb (sub64 gdp.bg_inode_bitmap (ext5_group_first_block_no sb g))) ∨
      (∃ tmp, gdp.bg_inode_table ≤ tmp ∧
        tmp < (gdp.bg_inode_table + sb.s_itb_per_group) % 2 ^ 64 ∧
        (sb.flex_bg = false ∨ ext5_block_in_group sb tmp g = true) ∧
        b = EXT5_B2C sb (sub64 tmp (ext5_group_first_block_no sb g))) ∨
      (num_clusters_in_group sb g ≤ b ∧ b < sb.s_blocksize * 8) := by
  unfold ext5_init_block_bitmap
  cases hbase : ext5_num_base_meta_clusters sb g with
  | none => simp [hok]
  | some base =>
    refine ⟨by simp [hok], ?_⟩
    intro r hr b
    simp only [hok, Bool.not_true, Bool.false_eq_true, if_false, Option.some.injEq] at hr
    subst hr
    simp only [ext5_mark_bitmap_end, Finset.mem_union, Finset.mem_Ico,
      mem_foldl_init_mark_block, mem_init_mark_block, mem_foldl_set_bit, List.mem_range,
      List.mem_range'_1, Finset.not_mem_empty, false_or, Option.some.injEq, exists_eq_left']
    constructor
    · rintro ((((h | h) | h) | ⟨tmp, ⟨h1, h2⟩, h3, h4⟩) | h)
      · exact Or.inl h
      · exact Or.inr (Or.inl h)
      · exact Or.inr (Or.inr (Or.inl h))
      · exact Or.inr (Or.inr (Or.inr (Or.inl ⟨tmp, h1, by omega, h3, h4⟩)))
      · exact Or.inr (Or.inr (Or.inr (Or.inr h)))
    · rintro (h | h | h | ⟨tmp, h1, h2, h3, h4⟩ | h)
      · exact Or.inl (Or.inl (Or.inl (Or.inl h)))
      · exact Or.inl (Or.inl (Or.inl (Or.inr h)))
      · exact Or.inl (Or.inl (Or.inr h))
      · exact Or.inl (Or.inr ⟨tmp, ⟨h1, by omega⟩, h3, h4⟩)
      · exact Or.inr h

theorem ext5_init_block_bitmap_bits_witness :
    csum_accept.group_desc_csum_verify 1 gd_scenario = true ∧
    (ext5_init_block_bitmap csum_accept sb_scenario ∅ 1 gd_scenario).isSome =
      (ext5_num_base_meta_clusters sb_scenario 1).isSome ∧
    (ext5_init_block_bitmap csum_accept sb_scenario ∅ 1 gd_scenario).map
      (fun r => ((List.range 16).filter (fun b => decide (b ∈ r.1)), r.1.card)) =
        some ([0, 1, 2, 3, 4, 5, 6, 7], 8) :=
  ⟨rfl, (ext5_init_block_bitmap_bits csum_accept sb_scenario ∅ 1 gd_scenario rfl).1,
    by decide⟩

/-- C7 as stated fails: in group 4 of `sb_flex` (no base metadata) with the block
bitmap at offset 5 and the inode bitmap at offset 7, `ext5_num_overhead_clusters`
is 2, yet bits 0 and 1 stay clear: the bits set are 5 and 7. -/
theorem ext5_init_block_bitmap_overhead_prefix_counterexample :
    ext5_num_overhead_clusters sb_flex 4 gd_gap = some 2 ∧
    ext5_num_base_meta_clusters sb_flex 4 = some 0 ∧
    (ext5_init_block_bitmap csum_accept sb_flex ∅ 4 gd_gap).map
      (fun r => (decide (0 ∈ r.1), decide (1 ∈ r.1), decide (5 ∈ r.1), decide (7 ∈ r.1),
        r.1.card)) = some (false, false, true, true, 2) := by
  decide

/-- C1 at the failing input: in group 4 of `sb_bigalloc` the block bitmap and the
inode bitmap share cluster 5 and the inode table fills clusters 6 and 7, so three
distinct clusters hold metadata, but `ext5_num_overhead_clusters` returns 4. -/
theorem ext5_num_overhead_clusters_shared_cluster :
    ext5_num_base_meta_clusters sb_bigalloc 4 = some 0 ∧
    (List.range 16).filter (fun c => decide (c ∈ overhead_cluster_set sb_bigalloc 4 gd_shared_cluster 0))
      = [5, 6, 7] ∧
    (overhead_cluster_set sb_bigalloc 4 gd_shared_cluster 0).card = 3 ∧
    ext5_num_overhead_clusters sb_bigalloc 4 gd_shared_cluster = some 4 := by
  decide

/-- C5 at the failing input: for group 4 of `sb_bigalloc` and a descriptor whose
checksum verifies, `ext5_init_block_bitmap` sets bits 5, 6 and 7, three bits below
the group's 8192 clusters, while `ext5_num_overhead_clusters` reports 4. -/
theorem ext5_init_block_bitmap_fewer_bits_than_overhead :
    csum_accept.group_desc_csum_verify 4 gd_shared_cluster = true ∧
    num_clusters_in_group sb_bigalloc 4 = 8192 ∧
    (ext5_init_block_bitmap csum_accept sb_bigalloc ∅ 4 gd_shared_cluster).map
      (fun r => (Finset.filter (fun b => b < num_clusters_in_group sb_bigalloc 4) r.1).card) =
        some 3 ∧
    ext5_num_overhead_clusters sb_bigalloc 4 gd_shared_cluster = some 4 := by
  decide

theorem pow_ne_of_between {b m g : Nat} (hb : 0 < b) (hlo : b ^ m < g) (hhi : g < b ^ (m + 1))
    (k : Nat) : g ≠ b ^ k := by
  intro h
  rcases Nat.lt_or_ge k (m + 1) with hk | hk
  · have := Nat.pow_le_pow_right hb (Nat.lt_succ_iff.mp hk)
    omega
  · have := Nat.pow_le_pow_right hb hk
    omega

/-- C8 at the failing input: with `SPARSE_SUPER` on, group 1808548329 (below the
`2^31` groups of `sb_huge`) is neither 0 or 1 nor a power of 3, 5 or 7, but
`ext5_bg_has_super` returns 1: `test_root(g, 5)` multiplies `5^13` by 5 in an
`int`, the product wraps to 1808548329 and compares equal to the group. -/
theorem ext5_bg_has_super_overflow :
    sb_huge.sparse_super = true ∧ 1808548329 < sb_huge.s_groups_count ∧
    ext5_bg_has_super sb_huge 1808548329 = some 1 ∧
    (5 ^ 14) % 2 ^ 32 = 1808548329 ∧
    ¬ (1808548329 ≤ 1 ∨ ∃ k : Nat, 1 ≤ k ∧
      (1808548329 = 3 ^ k ∨ 1808548329 = 5 ^ k ∨ 1808548329 = 7 ^ k)) := by
  refine ⟨rfl, by decide, by decide, by decide, ?_⟩
  rintro (h | ⟨k, _, h | h | h⟩)
  · exact absurd h (by decide)
  · exact pow_ne_of_between (m := 19) (by decide) (by decide) (by decide) k h
  · exact pow_ne_of_between (m := 13) (by decide) (by decide) (by decide) k h
  · exact pow_ne_of_between (m := 10) (by decide) (by decide) (by decide) k h

theorem test_root_loop_exact (b a m : Nat) (hb : 2 ≤ b) (hm : b ^ m < 2 ^ 32)
    (ha : a ≤ b ^ m) :
    ∀ d j fuel, j + d = m → 1 ≤ j → d < fuel → (∀ i, 1 ≤ i → i < j → b ^ i < a) →
      ∃ r, test_root_loop fuel a (b ^ j) b = some r ∧
        (r = true ↔ ∃ k, 1 ≤ k ∧ a = b ^ k) := by
  have hstop : ∀ j fuel, 1 ≤ j → 0 < fuel → (∀ i, 1 ≤ i → i < j → b ^ i < a) → a ≤ b ^ j →
      ∃ r, test_root_loop fuel a (b ^ j) b = some r ∧
        (r = true ↔ ∃ k, 1 ≤ k ∧ a = b ^ k) := by
    intro j fuel hj hfuel hinv hle
    obtain ⟨f, rfl⟩ : ∃ f, fuel = f + 1 := ⟨fuel - 1, by omega⟩
    refine ⟨b ^ j == a, by simp [test_root_loop, not_lt.mpr hle], ?_⟩
    constructor
    · intro h
      exact ⟨j, hj, (by simpa using h : b ^ j = a).symm⟩
    · rintro ⟨k, hk, rfl⟩
      have hkj : k ≤ j := (Nat.pow_le_pow_iff_right hb).mp hle
      rcases Nat.lt_or_eq_of_le hkj with hlt | heq
      · exact absurd (hinv k hk hlt) (lt_irrefl _)
      · simp [heq]
  intro d
  induction d with
  | zero =>
    intro j fuel hjm hj hfuel hinv
    have : j = m := by omega
    subst this
    exact hstop j fuel hj hfuel hinv ha
  | succ d ih =>
    intro j fuel hjm hj hfuel hinv
    by_cases hgt : a > b ^ j
    · obtain ⟨f, rfl⟩ : ∃ f, fuel = f + 1 := ⟨fuel - 1, by omega⟩
      have hpow : b ^ (j + 1) ≤ b ^ m := Nat.pow_le_pow_right (by omega) (by omega)
      have hmod : (b ^ j * b) % 2 ^ 32 = b ^ (j + 1) := by
        rw [← Nat.pow_succ]
        exact Nat.mod_eq_of_lt (lt_of_le_of_lt hpow hm)
      have hstep : test_root_loop (f + 1) a (b ^ j) b = test_root_loop f a (b ^ (j + 1)) b := by
        rw [test_root_loop, if_pos hgt, hmod]
      rw [hstep]
      refine ih (j + 1) f (by omega) (by omega) (by omega) ?_
      intro i hi hij
      rcases Nat.lt_or_eq_of_le (Nat.lt_succ_iff.mp hij) with h | h
      · exact hinv i hi h
      · rw [h]; exact hgt
    · exact hstop j fuel hj (by omega) hinv (not_lt.mp hgt)

theorem test_root_exact (b a m : Nat) (hb : 2 ≤ b) (h1 : 1 ≤ m) (hm : b ^ m < 2 ^ 32)
    (ha : a ≤ b ^ m) :
    ∃ r, test_root a b = some r ∧ (r = true ↔ ∃ k, 1 ≤ k ∧ a = b ^ k) := by
  have hm32 : m < 2 ^ 32 := by
    have : m < b ^ m := Nat.lt_pow_self (by omega) m
    omega
  have := test_root_loop_exact b a m hb hm ha (m - 1) 1 (2 ^ 32) (by omega) le_rfl
    (by omega) (by intro i h1 h2; omega)
  simpa [test_root] using this

theorem odd_pow_ne_even {b g k : Nat} (hb : b % 2 = 1) (hg : g % 2 = 0) : g ≠ b ^ k := by
  intro h
  have : (b ^ k) % 2 = 1 := by
    rw [Nat.pow_mod, hb]; simp
  omega

/-- Below the first overflow of `test_root` (`g ≤ 5^13`), `ext5_bg_has_super`
returns, and returns 1 exactly when `SPARSE_SUPER` is off, or `g ≤ 1`, or `g` is
a power of 3, 5 or 7. -/
theorem ext5_bg_has_super_below_overflow (sb : super_block) (g : Nat)
    (hg : g ≤ 1220703125) :
    ∃ s, ext5_bg_has_super sb g = some s ∧ (s = 0 ∨ s = 1) ∧
      (s = 1 ↔ (sb.sparse_super = false ∨ g ≤ 1 ∨
        ∃ k, 1 ≤ k ∧ (g = 3 ^ k ∨ g = 5 ^ k ∨ g = 7 ^ k))) := by
  unfold ext5_bg_has_super
  cases hsp : sb.sparse_super with
  | false => exact ⟨1, by simp, Or.inr rfl, by simp⟩
  | true =>
    simp only [if_true]
    unfold ext5_group_sparse
    by_cases h1 : g ≤ 1
    · exact ⟨1, by simp [h1], Or.inr rfl, by simp [h1]⟩
    · by_cases hev : g &&& 1 = 0
      · refine ⟨0, by simp [h1, hev], Or.inl rfl, ?_⟩
        have hg2 : g % 2 = 0 := by rw [← Nat.and_one_is_mod]; exact hev
        constructor
        · intro h; exact absurd h (by decide)
        · rintro (h | h | ⟨k, _, h | h | h⟩)
          · exact absurd h (by simp)
          · exact absurd h h1
          · exact absurd h (odd_pow_ne_even (by decide) hg2)
          · exact absurd h (odd_pow_ne_even (by decide) hg2)
          · exact absurd h (odd_pow_ne_even (by decide) hg2)
      · obtain ⟨r7, e7, p7⟩ := test_root_exact 7 g 11 (by decide) (by decide) (by decide)
          (by omega)
        obtain ⟨r5, e5, p5⟩ := test_root_exact 5 g 13 (by decide) (by decide) (by decide)
          (by omega)
        obtain ⟨r3, e3, p3⟩ := test_root_exact 3 g 20 (by decide) (by decide) (by decide)
          (by omega)
        simp only [h1, hev, if_false, e7, e5, e3]
        cases r7 with
        | true =>
          obtain ⟨k, hk, h⟩ := p7.mp rfl
          exact ⟨1, by simp, Or.inr rfl, by
            simp only [true_iff]; exact Or.inr (Or.inr ⟨k, hk, Or.inr (Or.inr h)⟩)⟩
        | false =>
          cases r5 with
          | true =>
            obtain ⟨k, hk, h⟩ := p5.mp rfl
            exact ⟨1, by simp, Or.inr rfl, by
              simp only [true_iff]; exact Or.inr (Or.inr ⟨k, hk, Or.inr (Or.inl h)⟩)⟩
          | false =>
            cases r3 with
            | true =>
              obtain ⟨k, hk, h⟩ := p3.mp rfl
              exact ⟨1, by simp, Or.inr rfl, by
                simp only [true_iff]; exact Or.inr (Or.inr ⟨k, hk, Or.inl h⟩)⟩
            | false =>
              refine ⟨0, by simp, Or.inl rfl, ?_⟩
              constructor
              · intro h; exact absurd h (by decide)
              · rintro (h | h | ⟨k, hk, h | h | h⟩)
                · exact absurd h (by simp)
                · exact h.elim
                · exact absurd (p3.mpr ⟨k, hk, h⟩) (by simp)
                · exact absurd (p5.mpr ⟨k, hk, h⟩) (by simp)
                · exact absurd (p7.mpr ⟨k, hk, h⟩) (by simp)

/-- C16: for a geometry with `blocks_per_group > 0` and a group `g` below
`groups_count` whose first block `g × blocks_per_group + first_data_block` is a
64-bit block number, both `ext5_get_group_no_and_offset` and
`ext5_get_group_number` map that block back to `g`, as a value of the 32-bit
`ext5_group_t` (`g mod 2^32`, which is `g` for every group index of that type);
the shift mode (`STD_GROUP_SIZE`) is the one mount selects, for
`blocks_per_group = 2^(block_size_bits + cluster_bits + 3)`. -/
theorem ext5_group_first_block_round_trip (sb : super_block) (g : Nat)
    (hbpg : 0 < sb.s_blocks_per_group) (_hg : g < sb.s_groups_count)
    (h64 : ext5_group_first_block_no sb g < 2 ^ 64)
    (hstd : sb.std_group_size = true →
      sb.s_blocks_per_group = 2 ^ (sb.s_blocksize_bits + sb.s_cluster_bits + 3)) :
    ((ext5_get_group_no_and_offset sb (ext5_group_first_block_no sb g)).1 = g % 2 ^ 32 ∧
      ext5_get_group_number sb (ext5_group_first_block_no sb g) = g % 2 ^ 32) ∧
    (g < 2 ^ 32 →
      (ext5_get_group_no_and_offset sb (ext5_group_first_block_no sb g)).1 = g ∧
      ext5_get_group_number sb (ext5_group_first_block_no sb g) = g) := by
  have hsub : sub64 (ext5_group_first_block_no sb g) sb.s_first_data_block =
      g * sb.s_blocks_per_group := by
    rw [sub64_of_le (by unfold ext5_group_first_block_no; omega) h64]
    unfold ext5_group_first_block_no
    omega
  have hdiv : (ext5_get_group_no_and_offset sb (ext5_group_first_block_no sb g)).1 =
      g % 2 ^ 32 := by
    simp only [ext5_get_group_no_and_offset, hsub]
    rw [Nat.mul_div_cancel g hbpg]
  have hnum : ext5_get_group_number sb (ext5_group_first_block_no sb g) = g % 2 ^ 32 := by
    unfold ext5_get_group_number
    cases hs : sb.std_group_size with
    | false => simpa using hdiv
    | true =>
      simp only [if_true, hsub, Nat.shiftRight_eq_div_pow]
      rw [hstd hs, Nat.mul_div_cancel g (Nat.pow_pos (by norm_num))]
  refine ⟨⟨hdiv, hnum⟩, ?_⟩
  intro hg32
  rw [hdiv, hnum, Nat.mod_eq_of_lt hg32]
  exact ⟨rfl, rfl⟩

theorem ext5_group_first_block_round_trip_witness :
    0 < sb_std.s_blocks_per_group ∧ 3 < sb_std.s_groups_count ∧
    ext5_group_first_block_no sb_std 3 = 98304 ∧
    (ext5_get_group_no_and_offset sb_std 98304).1 = 3 ∧
    ext5_get_group_number sb_std 98304 = 3 :=
  ⟨by decide, by decide, rfl,
    ((ext5_group_first_block_round_trip sb_std 3 (by decide) (by decide) (by decide)
      (fun _ => by decide)).2 (by decide)).1,
    ((ext5_group_first_block_round_trip sb_std 3 (by decide) (by decide) (by decide)
      (fun _ => by decide)).2 (by decide)).2⟩

/-- C17: when `blocks_per_group = 2^(block_size_bits + cluster_bits + 3)`, the
shift mode of `ext5_get_group_number` (`STD_GROUP_SIZE` set) returns for every
block the group that the division of `ext5_get_group_no_and_offset` returns, and
so agrees with the division mode of `ext5_get_group_number`. -/
theorem ext5_get_group_number_shift_eq_div (sb : super_block) (block : Nat)
    (hpow : sb.s_blocks_per_group = 2 ^ (sb.s_blocksize_bits + sb.s_cluster_bits + 3)) :
    ext5_get_group_number { sb with std_group_size := true } block =
      (ext5_get_group_no_and_offset sb block).1 ∧
    ext5_get_group_number { sb with std_group_size := true } block =
      ext5_get_group_number { sb with std_group_size := false } block := by
  constructor
  · simp only [ext5_get_group_number, ext5_get_group_no_and_offset, if_true,
      Nat.shiftRight_eq_div_pow, hpow]
  · simp [ext5_get_group_number, ext5_get_group_no_and_offset,
      Nat.shiftRight_eq_div_pow, hpow]

theorem ext5_get_group_number_shift_eq_div_witness :
    sb_std.s_blocks_per_group =
      2 ^ (sb_std.s_blocksize_bits + sb_std.s_cluster_bits + 3) ∧
    ext5_get_group_number { sb_std with std_group_size := true } 100000 =
      (ext5_get_group_no_and_offset sb_std 100000).1 :=
  ⟨by decide, (ext5_get_group_number_shift_eq_div sb_std 100000 (by decide)).1⟩

/-- C14: `ext5_get_group_desc` returns no descriptor when `group ≥ groups_count`
(first test) and when the slot `group >> desc_per_block_bits` is null; otherwise
it returns the record at index `group & (desc_per_block − 1)` of that slot, at
byte offset index × `desc_size`, with the slot's buffer; and when
`desc_per_block = 2^desc_per_block_bits`, slot × `desc_per_block` + index is the
group. -/
theorem ext5_get_group_desc_spec (sb : super_block) (t : group_desc_table) (group : Nat) :
    (sb.s_groups_count ≤ group →
      ext5_get_group_desc sb t group =
        Except.error desc_lookup_error.group_out_of_range) ∧
    (group < sb.s_groups_count →
      t.s_group_desc.getD (group >>> t.s_desc_per_block_bits) none = none →
      ext5_get_group_desc sb t group =
        Except.error desc_lookup_error.descriptor_missing) ∧
    (∀ bh, group < sb.s_groups_count →
      t.s_group_desc.getD (group >>> t.s_desc_per_block_bits) none = some bh →
      ext5_get_group_desc sb t group =
        Except.ok ((group &&& (sb.s_desc_per_block - 1)) * t.s_desc_size, bh)) ∧
    (sb.s_desc_per_block = 2 ^ t.s_desc_per_block_bits →
      (group >>> t.s_desc_per_block_bits) * sb.s_desc_per_block +
        (group &&& (sb.s_desc_per_block - 1)) = group) := by
  refine ⟨?_, ?_, ?_, ?_⟩
  · intro h
    simp [ext5_get_group_desc, h]
  · intro h hslot
    simp only [ext5_get_group_desc, ge_iff_le, not_le.mpr h, if_false, hslot]
  · intro bh h hslot
    simp only [ext5_get_group_desc, ge_iff_le, not_le.mpr h, if_false, hslot]
  · intro h
    rw [h, Nat.and_pow_two_sub_one_eq_mod, Nat.shiftRight_eq_div_pow]
    exact Nat.div_add_mod' group _

theorem ext5_get_group_desc_spec_witness :
    sb_scenario.s_groups_count ≤ 10 ∧
    ext5_get_group_desc sb_scenario gdt_scenario 10 =
      Except.error desc_lookup_error.group_out_of_range ∧
    ext5_get_group_desc sb_scenario gdt_scenario 7 =
      Except.ok (224, { b_blocknr := 1, b_data := [] }) ∧
    (7 >>> gdt_scenario.s_desc_per_block_bits) * sb_scenario.s_desc_per_block +
      (7 &&& (sb_scenario.s_desc_per_block - 1)) = 7 :=
  ⟨by decide,
    (ext5_get_group_desc_spec sb_scenario gdt_scenario 10).1 (by decide),
    (ext5_get_group_desc_spec sb_scenario gdt_scenario 7).2.2.1 _ (by decide) rfl,
    (ext5_get_group_desc_spec sb_scenario gdt_scenario 7).2.2.2 (by decide)⟩

/-- C15: `ext5_should_retry_alloc` returns 0 when the retry count on entry is
above 3, whatever the free space, when there is no journal, and when
`ext5_has_free_clusters(1, 0)` is 0; in each of these cases the journal is left
alone.  When none of the three holds it calls
`jbd2_journal_force_commit_nested` on the journal and returns what that call
returns, so a nonzero result is returned only then. -/
theorem ext5_should_retry_alloc_spec (k : kernel_env) (ops : jbd2_ops)
    (sbi : ext5_sb_info) (s_journal : Option journal_t) (retries : Int) :
    (retries > 3 →
      (ext5_should_retry_alloc k ops sbi s_journal retries).1 = 0 ∧
      (ext5_should_retry_alloc k ops sbi s_journal retries).2.2 = s_journal) ∧
    (s_journal = none →
      (ext5_should_retry_alloc k ops sbi s_journal retries).1 = 0 ∧
      (ext5_should_retry_alloc k ops sbi s_journal retries).2.2 = s_journal) ∧
    (ext5_has_free_clusters k sbi 1 0 = 0 →
      ext5_should_retry_alloc k ops sbi s_journal retries = (0, retries, s_journal)) ∧
    (∀ journal, retries ≤ 3 → s_journal = some journal →
      ext5_has_free_clusters k sbi 1 0 ≠ 0 →
      ext5_should_retry_alloc k ops sbi s_journal retries =
        ((ops.jbd2_journal_force_commit_nested journal).2, retries + 1,
          some (ops.jbd2_journal_force_commit_nested journal).1)) ∧
    ((ext5_should_retry_alloc k ops sbi s_journal retries).1 ≠ 0 →
      retries ≤ 3 ∧ s_journal ≠ none ∧ ext5_has_free_clusters k sbi 1 0 ≠ 0) := by
  unfold ext5_should_retry_alloc
  by_cases hfree : ext5_has_free_clusters k sbi 1 0 = 0
  · simp [hfree]
  · by_cases hr : retries > 3
    · simp [hfree, hr]
    · cases hj : s_journal with
      | none => simp [hfree, hr]
      | some j => simp [hfree, hr, not_lt.mp hr]

theorem ext5_should_retry_alloc_spec_witness :
    (4 : Int) > 3 ∧
    (ext5_should_retry_alloc env_plain jbd2_simple sbi_ten_free
      (some { j_aborted := false, j_commit_sequence := 7 }) 4).1 = 0 ∧
    ext5_should_retry_alloc env_plain jbd2_simple sbi_ten_free
      (some { j_aborted := false, j_commit_sequence := 7 }) 0 =
        (1, 1, some { j_aborted := false, j_commit_sequence := 8 }) :=
  ⟨by decide,
    ((ext5_should_retry_alloc_spec env_plain jbd2_simple sbi_ten_free
      (some { j_aborted := false, j_commit_sequence := 7 }) 4).1 (by decide)).1,
    by decide⟩

/-- C20: on a volume mounted read-only `__ext5_journal_start_sb` returns
`ERR_PTR(-EROFS)` and leaves the state as it was, whatever the journalling layer:
no journal call, the nesting counter unchanged, no abort.  On a writable volume
whose journal exists and is aborted it returns `ERR_PTR(-EROFS)` after
`ext5_abort`, which leaves the volume read-only; the journal is not started and
the nesting counter is unchanged. -/
theorem ext5_journal_start_sb_refused (ops : jbd2_ops) (max_ref : Nat) (sb : journal_sb)
    (line : Nat) (type nblocks : Int) :
    (sb.s_rdonly = true →
      __ext5_journal_start_sb ops max_ref sb line type nblocks =
        some (handle_ptr.err_ptr (-EROFS), sb)) ∧
    (∀ journal, sb.s_rdonly = false → sb.s_journal = some journal →
      journal.j_aborted = true →
      ∃ sb1, __ext5_journal_start_sb ops max_ref sb line type nblocks =
          some (handle_ptr.err_ptr (-EROFS), sb1) ∧
        sb1.s_rdonly = true ∧ journal_event.fs_abort ∈ sb1.events ∧
        sb1.s_journal = sb.s_journal ∧ sb1.journal_info = sb.journal_info) := by
  constructor
  · intro h
    simp [__ext5_journal_start_sb, h]
  · intro journal hro hj hab
    have hstart : __ext5_journal_start_sb ops max_ref sb line type nblocks =
        some (handle_ptr.err_ptr (-EROFS), ext5_abort
          (if sb.s_frozen = SB_FREEZE_COMPLETE then
            { sb with events := sb.events ++ [journal_event.warn_frozen] }
          else sb)) := by
      unfold __ext5_journal_start_sb
      by_cases hfr : sb.s_frozen = SB_FREEZE_COMPLETE
      · simp only [hro, hfr, if_true, hj, hab]
        rfl
      · simp only [hro, hfr, if_false, hj, hab, if_true]
        rfl
    refine ⟨_, hstart, ?_, ?_, ?_, ?_⟩
    · rfl
    · simp [ext5_abort]
    · by_cases hfr : sb.s_frozen = SB_FREEZE_COMPLETE <;> simp [ext5_abort, hfr]
    · by_cases hfr : sb.s_frozen = SB_FREEZE_COMPLETE <;> simp [ext5_abort, hfr]

theorem ext5_journal_start_sb_refused_witness :
    jsb_readonly.s_rdonly = true ∧
    __ext5_journal_start_sb jbd2_simple 4096 jsb_readonly 0 0 8 =
      some (handle_ptr.err_ptr (-EROFS), jsb_readonly) ∧
    (__ext5_journal_start_sb jbd2_simple 4096 jsb_aborted 0 0 8).map
      (fun r => (r.1, r.2.s_rdonly, r.2.events)) =
        some (handle_ptr.err_ptr (-30), true, [journal_event.fs_abort]) :=
  ⟨rfl, (ext5_journal_start_sb_refused jbd2_simple 4096 jsb_readonly 0 0 8).1 rfl,
    by decide⟩

/-- C11 at the failing input: the last group of `sb_short_last` has 2 clusters and
4 clusters of base metadata, so `ext5_num_overhead_clusters` exceeds the cluster
count and the unguarded unsigned subtraction of `ext5_free_clusters_after_init`
wraps: the function reports `2^32 − 2` free clusters for a group of 2 clusters. -/
theorem ext5_free_clusters_after_init_wraps :
    num_clusters_in_group sb_short_last 1 = 2 ∧
    ext5_num_overhead_clusters sb_short_last 1 gd_in_group0 = some 4 ∧
    ext5_free_clusters_after_init sb_short_last 1 gd_in_group0 = some 4294967294 := by
  decide

/-- Where the overhead does not exceed the cluster count,
`ext5_free_clusters_after_init` is their difference: it returns whenever
`ext5_num_overhead_clusters` does, and it equals cluster_count(g) −
overhead_clusters(g); for a volume of 1 to `2^32` groups, cluster_count(g) is
`blocks_per_group` rounded up to clusters for every group but the last and
`blocks_count` − first block of `g` rounded up to clusters for the last group. -/
theorem ext5_free_clusters_after_init_spec (sb : super_block) (g : Nat)
    (gdp : ext5_group_desc) :
    (ext5_free_clusters_after_init sb g gdp).isSome =
      (ext5_num_overhead_clusters sb g gdp).isSome ∧
    (∀ overhead, ext5_num_overhead_clusters sb g gdp = some overhead →
      overhead ≤ num_clusters_in_group sb g → num_clusters_in_group sb g < 2 ^ 32 →
      ext5_free_clusters_after_init sb g gdp =
        some (num_clusters_in_group sb g - overhead)) ∧
    (0 < sb.s_groups_count → sb.s_groups_count ≤ 2 ^ 32 → g ≠ sb.s_groups_count - 1 →
      num_clusters_in_group sb g = EXT5_NUM_B2C sb sb.s_blocks_per_group) ∧
    (0 < sb.s_groups_count → sb.s_groups_count ≤ 2 ^ 32 → g = sb.s_groups_count - 1 →
      ext5_group_first_block_no sb g ≤ sb.s_blocks_count → sb.s_blocks_count < 2 ^ 64 →
      sb.s_blocks_count - ext5_group_first_block_no sb g < 2 ^ 32 →
      num_clusters_in_group sb g =
        EXT5_NUM_B2C sb (sb.s_blocks_count - ext5_group_first_block_no sb g)) := by
  refine ⟨?_, ?_, ?_, ?_⟩
  · unfold ext5_free_clusters_after_init
    cases ext5_num_overhead_clusters sb g gdp <;> rfl
  · intro overhead ho hle hlt
    simp only [ext5_free_clusters_after_init, ho]
    congr 1
    omega
  · intro hpos hle h
    have hlast : (sb.s_groups_count + 2 ^ 32 - 1) % 2 ^ 32 = sb.s_groups_count - 1 := by
      omega
    simp only [num_clusters_in_group, hlast, h, if_false]
  · intro hpos hle h hfirst h64 h32
    have hlast : (sb.s_groups_count + 2 ^ 32 - 1) % 2 ^ 32 = sb.s_groups_count - 1 := by
      omega
    simp only [num_clusters_in_group, hlast, h, if_true]
    rw [← h, sub64_of_le hfirst h64, Nat.mod_eq_of_lt h32]

theorem ext5_free_clusters_after_init_spec_witness :
    ext5_num_overhead_clusters sb_scenario 1 gd_scenario = some 8 ∧
    num_clusters_in_group sb_scenario 1 = 8192 ∧
    ext5_free_clusters_after_init sb_scenario 1 gd_scenario = some (8192 - 8) :=
  ⟨by decide, by decide,
    (ext5_free_clusters_after_init_spec sb_scenario 1 gd_scenario).2.1 8 (by decide)
      (by decide) (by decide)⟩

theorem find_next_zero_bit_lt_iff (bh : Bitmap) (offset n : Nat) :
    ext5_find_next_zero_bit bh (offset + n) offset < offset + n ↔
      ∃ i, i < n ∧ offset + i ∉ bh := by
  unfold ext5_find_next_zero_bit
  have hn : offset + n - offset = n := by omega
  rw [hn]
  cases hf : (List.range' offset n).find? (fun p => !ext5_test_bit p bh) with
  | none =>
    simp only [lt_irrefl, false_iff, not_exists, not_and]
    intro i hi hmem
    have := List.find?_eq_none.mp hf (offset + i)
      (by rw [List.mem_range'_1]; omega)
    simp [ext5_test_bit, hmem] at this
  | some p =>
    have hmem := List.mem_of_find?_eq_some hf
    have hp := List.find?_some hf
    rw [List.mem_range'_1] at hmem
    simp only [ext5_test_bit, Bool.not_eq_true', decide_eq_false_iff_not] at hp
    constructor
    · intro _
      exact ⟨p - offset, by omega, by rwa [Nat.add_sub_cancel' hmem.1]⟩
    · intro _
      exact hmem.2

/-- C13, as the code has it: `ext5_valid_block_bitmap` returns 0 whenever
`FLEX_BG` is on.  With `FLEX_BG` off and one block per cluster it tests the bit
of the block-bitmap block, then the bit of the inode-bitmap block, then the bits
of the `s_itb_per_group` inode-table blocks (the bit of a block being that of the
cluster of its offset from the first block of the group), and returns the block
number of the first test that fails (block bitmap, inode bitmap, inode-table
start) and 0 when all pass; so for block numbers other than 0 it returns 0 iff
all these bits are set. -/
theorem ext5_valid_block_bitmap_spec (sb : super_block) (desc : ext5_group_desc)
    (g : Nat) (bh : Bitmap) :
    (sb.flex_bg = true → ext5_valid_block_bitmap sb desc g bh = 0) ∧
    (sb.flex_bg = false → sb.s_cluster_bits = 0 →
      (EXT5_B2C sb (sub64 desc.bg_block_bitmap (ext5_group_first_block_no sb g)) ∉ bh →
        ext5_valid_block_bitmap sb desc g bh = desc.bg_block_bitmap) ∧
      (EXT5_B2C sb (sub64 desc.bg_block_bitmap (ext5_group_first_block_no sb g)) ∈ bh →
        EXT5_B2C sb (sub64 desc.bg_inode_bitmap (ext5_group_first_block_no sb g)) ∉ bh →
        ext5_valid_block_bitmap sb desc g bh = desc.bg_inode_bitmap) ∧
      (EXT5_B2C sb (sub64 desc.bg_block_bitmap (ext5_group_first_block_no sb g)) ∈ bh →
        EXT5_B2C sb (sub64 desc.bg_inode_bitmap (ext5_group_first_block_no sb g)) ∈ bh →
        (∃ i, i < sb.s_itb_per_group ∧
          EXT5_B2C sb (sub64 desc.bg_inode_table (ext5_group_first_block_no sb g) + i) ∉ bh) →
        ext5_valid_block_bitmap sb desc g bh = desc.bg_inode_table) ∧
      (EXT5_B2C sb (sub64 desc.bg_block_bitmap (ext5_group_first_block_no sb g)) ∈ bh →
        EXT5_B2C sb (sub64 desc.bg_inode_bitmap (ext5_group_first_block_no sb g)) ∈ bh →
        (∀ i, i < sb.s_itb_per_group →
          EXT5_B2C sb (sub64 desc.bg_inode_table (ext5_group_first_block_no sb g) + i) ∈ bh) →
        ext5_valid_block_bitmap sb desc g bh = 0) ∧
      (desc.bg_block_bitmap ≠ 0 → desc.bg_inode_bitmap ≠ 0 → desc.bg_inode_table ≠ 0 →
        (ext5_valid_block_bitmap sb desc g bh = 0 ↔
          EXT5_B2C sb (sub64 desc.bg_block_bitmap (ext5_group_first_block_no sb g)) ∈ bh ∧
          EXT5_B2C sb (sub64 desc.bg_inode_bitmap (ext5_group_first_block_no sb g)) ∈ bh ∧
          ∀ i, i < sb.s_itb_per_group →
            EXT5_B2C sb (sub64 desc.bg_inode_table (ext5_group_first_block_no sb g) + i) ∈ bh))) := by
  constructor
  · intro h
    simp [ext5_valid_block_bitmap, h]
  · intro hflex hbits
    have hb2c : ∀ x, EXT5_B2C sb x = x := by
      intro x
      simp [EXT5_B2C, hbits]
    simp only [hb2c]
    have hbb : sub64 desc.bg_block_bitmap (ext5_group_first_block_no sb g) ∉ bh →
        ext5_valid_block_bitmap sb desc g bh = desc.bg_block_bitmap := by
      intro h
      simp [ext5_valid_block_bitmap, hflex, ext5_test_bit, h]
    have hib : sub64 desc.bg_block_bitmap (ext5_group_first_block_no sb g) ∈ bh →
        sub64 desc.bg_inode_bitmap (ext5_group_first_block_no sb g) ∉ bh →
        ext5_valid_block_bitmap sb desc g bh = desc.bg_inode_bitmap := by
      intro h1 h2
      simp [ext5_valid_block_bitmap, hflex, ext5_test_bit, h1, h2]
    have hit : sub64 desc.bg_block_bitmap (ext5_group_first_block_no sb g) ∈ bh →
        sub64 desc.bg_inode_bitmap (ext5_group_first_block_no sb g) ∈ bh →
        (∃ i, i < sb.s_itb_per_group ∧
          sub64 desc.bg_inode_table (ext5_group_first_block_no sb g) + i ∉ bh) →
        ext5_valid_block_bitmap sb desc g bh = desc.bg_inode_table := by
      intro h1 h2 h3
      have := (find_next_zero_bit_lt_iff bh _ _).mpr h3
      simp [ext5_valid_block_bitmap, hflex, ext5_test_bit, h1, h2, this]
    have hok : sub64 desc.bg_block_bitmap (ext5_group_first_block_no sb g) ∈ bh →
        sub64 desc.bg_inode_bitmap (ext5_group_first_block_no sb g) ∈ bh →
        (∀ i, i < sb.s_itb_per_group →
          sub64 desc.bg_inode_table (ext5_group_first_block_no sb g) + i ∈ bh) →
        ext5_valid_block_bitmap sb desc g bh = 0 := by
      intro h1 h2 h3
      have : ¬ ext5_find_next_zero_bit bh
          (sub64 desc.bg_inode_table (ext5_group_first_block_no sb g) + sb.s_itb_per_group)
          (sub64 desc.bg_inode_table (ext5_group_first_block_no sb g)) <
          sub64 desc.bg_inode_table (ext5_group_first_block_no sb g) + sb.s_itb_per_group := by
        rw [find_next_zero_bit_lt_iff]
        rintro ⟨i, hi, hne⟩
        exact hne (h3 i hi)
      simp [ext5_valid_block_bitmap, hflex, ext5_test_bit, h1, h2, this]
    refine ⟨hbb, hib, hit, hok, ?_⟩
    intro n1 n2 n3
    constructor
    · intro h0
      by_contra hc
      by_cases h1 : sub64 desc.bg_block_bitmap (ext5_group_first_block_no sb g) ∈ bh
      · by_cases h2 : sub64 desc.bg_inode_bitmap (ext5_group_first_block_no sb g) ∈ bh
        · have h3 : ∃ i, i < sb.s_itb_per_group ∧
              sub64 desc.bg_inode_table (ext5_group_first_block_no sb g) + i ∉ bh := by
            by_contra h3
            push_neg at h3
            exact hc ⟨h1, h2, h3⟩
          exact n3 ((hit h1 h2 h3).symm.trans h0)
        · exact n2 ((hib h1 h2).symm.trans h0)
      · exact n1 ((hbb h1).symm.trans h0)
    · rintro ⟨h1, h2, h3⟩
      exact hok h1 h2 h3

theorem ext5_valid_block_bitmap_spec_witness :
    sb_flex.flex_bg = true ∧ ext5_valid_block_bitmap sb_flex gd_gap 4 ∅ = 0 ∧
    sb_scenario.flex_bg = false ∧ sb_scenario.s_cluster_bits = 0 ∧
    ext5_valid_block_bitmap sb_scenario gd_scenario 1 {0, 1, 2, 3, 4, 5, 6, 7} = 0 ∧
    ext5_valid_block_bitmap sb_scenario gd_scenario 1 {0, 1, 2, 4, 5, 6, 7} = 8195 :=
  ⟨rfl, (ext5_valid_block_bitmap_spec sb_flex gd_gap 4 ∅).1 rfl, rfl, rfl,
    ((ext5_valid_block_bitmap_spec sb_scenario gd_scenario 1 {0, 1, 2, 3, 4, 5, 6, 7}).2
      rfl rfl).2.2.2.1 (by decide) (by decide) (by decide),
    ((ext5_valid_block_bitmap_spec sb_scenario gd_scenario 1 {0, 1, 2, 4, 5, 6, 7}).2
      rfl rfl).2.1 (by decide) (by decide)⟩

/-- C13 as stated fails: with `FLEX_BG` off, group 0 and a descriptor whose block
bitmap is block 0, the bit of the block-bitmap block (bit 0) is clear in the
bitmap, yet `ext5_valid_block_bitmap` returns 0: the block number it reports for
the failed test is itself 0. -/
theorem ext5_valid_block_bitmap_block_zero_counterexample :
    sb_nonflex_4k.flex_bg = false ∧
    sub64 gd_bitmap_at_zero.bg_block_bitmap (ext5_group_first_block_no sb_nonflex_4k 0) = 0 ∧
    (0 : Nat) ∉ ({3, 4, 5, 6, 7} : Finset Nat) ∧
    ext5_valid_block_bitmap sb_nonflex_4k gd_bitmap_at_zero 0 {3, 4, 5, 6, 7} = 0 := by
  decide

theorem claim_step_plain (k : kernel_env) (sbi : ext5_sb_info) (n : Int)
    (hplain : may_use_root_blocks k sbi 0 = false)
    (hcpu : k.cpu < sbi.s_dirtyclusters_counter.counters.length)
    (hfree : 0 ≤ percpu_counter_sum sbi.s_freeclusters_counter)
    (hinit : 0 ≤ budget sbi) (hexact : within_watermark k sbi n = true)
    (hfit : sums_fit_s64 sbi n = true) :
    may_use_root_blocks k (ext5_claim_free_clusters k sbi n 0).2 0 = false ∧
    k.cpu < (ext5_claim_free_clusters k sbi n 0).2.s_dirtyclusters_counter.counters.length ∧
    percpu_counter_sum (ext5_claim_free_clusters k sbi n 0).2.s_freeclusters_counter =
      percpu_counter_sum sbi.s_freeclusters_counter ∧
    budget (ext5_claim_free_clusters k sbi n 0).2 =
      budget sbi - (if (ext5_claim_free_clusters k sbi n 0).1 = 0 then n else 0) ∧
    0 ≤ budget (ext5_claim_free_clusters k sbi n 0).2 := by
  have hval : ext5_has_free_clusters k sbi n 0 =
      if used_free k sbi n ≥ reserve sbi + n + used_dirty k sbi n then 1 else 0 := by
    rw [has_free_eq k sbi n 0 hfit]
    simp [hplain]
  have hf : used_free k sbi n = percpu_counter_sum sbi.s_freeclusters_counter := by
    simp only [used_free, hexact, if_true, percpu_counter_sum_positive]
    rw [if_neg (not_lt.mpr hfree)]
  have hd : percpu_counter_sum sbi.s_dirtyclusters_counter ≤ used_dirty k sbi n := by
    simp only [used_dirty, hexact, if_true, percpu_counter_sum_positive]
    split_ifs <;> omega
  by_cases hp : used_free k sbi n ≥ reserve sbi + n + used_dirty k sbi n
  · have hc : ext5_claim_free_clusters k sbi n 0 =
        (0, { sbi with s_dirtyclusters_counter :=
          percpu_counter_add k.cpu k.percpu_counter_batch sbi.s_dirtyclusters_counter n }) := by
      unfold ext5_claim_free_clusters
      rw [hval, if_pos hp, if_pos one_ne_zero]
    have hsum := percpu_counter_add_sum k.cpu k.percpu_counter_batch
      sbi.s_dirtyclusters_counter n hcpu
    have hlen : (percpu_counter_add k.cpu k.percpu_counter_batch
        sbi.s_dirtyclusters_counter n).counters.length =
        sbi.s_dirtyclusters_counter.counters.length := by
      simp only [percpu_counter_add]
      split_ifs <;> simp
    rw [hc]
    refine ⟨?_, ?_, ?_, ?_, ?_⟩
    · simpa [may_use_root_blocks] using hplain
    · show k.cpu < (percpu_counter_add k.cpu k.percpu_counter_batch
        sbi.s_dirtyclusters_counter n).counters.length
      rw [hlen]; exact hcpu
    · rfl
    · simp only [budget, reserve, root_reserve, hsum, if_true]
      omega
    · simp only [budget, reserve, root_reserve, hsum]
      simp only [budget, reserve, root_reserve] at hinit
      rw [hf] at hp
      simp only [reserve, root_reserve] at hp
      omega
  · have hc : ext5_claim_free_clusters k sbi n 0 = (-ENOSPC, sbi) := by
      unfold ext5_claim_free_clusters
      rw [hval, if_neg hp]
      simp
    rw [hc]
    refine ⟨hplain, hcpu, rfl, ?_, hinit⟩
    simp [ENOSPC]

/-- C18: start from counters with free ≥ 0 and free − dirty − reserve ≥ 0 on
exact values and run any sequence of plain (unprivileged, no-flag)
`ext5_claim_free_clusters` calls, each evaluated on exact counter values and with
operands below `2^61` in magnitude, where no `s64` sum overflows.  The
free counter and the reserve stay fixed, the sum of the sizes of the successful
claims is the amount by which the budget shrinks and never exceeds the initial
budget, and free − dirty − reserve ≥ 0 holds at the end of the run, hence after
every successful claim. -/
theorem ext5_claim_free_clusters_budget (k : kernel_env) (ns : List Int) :
    ∀ sbi : ext5_sb_info, may_use_root_blocks k sbi 0 = false →
      k.cpu < sbi.s_dirtyclusters_counter.counters.length →
      0 ≤ percpu_counter_sum sbi.s_freeclusters_counter →
      0 ≤ budget sbi → claims_exact k sbi ns = true → claims_fit_s64 k sbi ns = true →
      (claim_run k sbi ns).2 ≤ budget sbi ∧
      budget (claim_run k sbi ns).1 = budget sbi - (claim_run k sbi ns).2 ∧
      0 ≤ budget (claim_run k sbi ns).1 ∧
      percpu_counter_sum (claim_run k sbi ns).1.s_freeclusters_counter =
        percpu_counter_sum sbi.s_freeclusters_counter := by
  induction ns with
  | nil =>
    intro sbi _ _ _ hinit _ _
    simp [claim_run, hinit]
  | cons n ns ih =>
    intro sbi hplain hcpu hfree hinit hexact hfit
    simp only [claims_exact, Bool.and_eq_true] at hexact
    simp only [claims_fit_s64, Bool.and_eq_true] at hfit
    obtain ⟨h1, h2, h3, h4, h5⟩ :=
      claim_step_plain k sbi n hplain hcpu hfree hinit hexact.1 hfit.1
    obtain ⟨i1, i2, i3, i4⟩ := ih _ h1 h2 (h3 ▸ hfree) h5 hexact.2 hfit.2
    simp only [claim_run]
    refine ⟨?_, ?_, i3, i4.trans h3⟩
    · omega
    · omega

theorem ext5_claim_free_clusters_budget_witness :
    may_use_root_blocks env_plain sbi_ten_free 0 = false ∧
    budget sbi_ten_free = 2 ∧ claims_exact env_plain sbi_ten_free [1, 5, 1, 1] = true ∧
    claims_fit_s64 env_plain sbi_ten_free [1, 5, 1, 1] = true ∧
    (claim_run env_plain sbi_ten_free [1, 5, 1, 1]).2 = 2 ∧
    (claim_run env_plain sbi_ten_free [1, 5, 1, 1]).2 ≤ budget sbi_ten_free :=
  ⟨by decide, by decide, by decide, by decide, by decide,
    (ext5_claim_free_clusters_budget env_plain [1, 5, 1, 1] sbi_ten_free (by decide)
      (by decide) (by decide) (by decide) (by decide) (by decide)).1⟩

/-- C19 as stated fails: the descriptor `gd_stale_count` fails verification, the
first call zeroes its counts and fills the bitmap, and the descriptor it leaves
verifies, because the degraded path keeps `bg_checksum` and changes fields the
checksum covers; the second call takes the normal path and leaves bit 100 clear
and 8 bits set. -/
theorem ext5_init_block_bitmap_twice_counterexample :
    csum_additive.group_desc_csum_verify 1 gd_stale_count = false ∧
    ext5_init_block_bitmap csum_additive sb_scenario ∅ 1 gd_stale_count =
      some (memset_ff sb_scenario, { gd_stale_count with bg_free_blocks_count := 0 }) ∧
    (100 : Nat) ∈ memset_ff sb_scenario ∧
    csum_additive.group_desc_csum_verify 1
      { gd_stale_count with bg_free_blocks_count := 0 } = true ∧
    (ext5_init_block_bitmap csum_additive sb_scenario (memset_ff sb_scenario) 1
      { gd_stale_count with bg_free_blocks_count := 0 }).map
        (fun r => (decide (100 ∈ r.1), r.1.card)) = some (false, 8) := by
  refine ⟨by decide, rfl, ?_, by decide, by decide⟩
  simp [memset_ff, sb_scenario]

/-- C19, as the code has it: on a descriptor that fails verification
`ext5_init_block_bitmap` returns, and a second call on the bitmap and descriptor
it left returns the same bitmap and descriptor provided that descriptor still
fails verification and storing the bitmap checksum twice stores the same
value. -/
theorem ext5_init_block_bitmap_degraded_idempotent (cs : csum_ops) (sb : super_block)
    (bh : Bitmap) (g : Nat) (gdp : ext5_group_desc)
    (hbad : cs.group_desc_csum_verify g gdp = false)
    (hcs : ∀ (d : ext5_group_desc) (bm : Bitmap),
      cs.block_bitmap_csum g
        { d with bg_block_bitmap_csum := cs.block_bitmap_csum g d bm } bm =
      cs.block_bitmap_csum g d bm) :
    ∃ r1, ext5_init_block_bitmap cs sb bh g gdp = some r1 ∧
      (cs.group_desc_csum_verify g r1.2 = false →
        ext5_init_block_bitmap cs sb r1.1 g r1.2 = some r1) := by
  refine ⟨_, by simp only [ext5_init_block_bitmap, hbad]; rfl, ?_⟩
  intro hbad2
  simp only [ext5_init_block_bitmap, hbad2, Bool.not_false, if_true]
  have := hcs { gdp with bg_free_blocks_count := 0, bg_free_inodes_count := 0,
                         bg_itable_unused := 0 } (memset_ff sb)
  simp only [Option.some.injEq, Prod.mk.injEq, true_and]
  rw [ext5_group_desc.mk.injEq]
  exact ⟨rfl, rfl, rfl, rfl, rfl, rfl, rfl, this, rfl⟩

theorem ext5_init_block_bitmap_degraded_idempotent_witness :
    csum_reject.group_desc_csum_verify 1 gd_scenario = false ∧
    ∃ r1, ext5_init_block_bitmap csum_reject sb_scenario ∅ 1 gd_scenario = some r1 ∧
      (csum_reject.group_desc_csum_verify 1 r1.2 = false →
        ext5_init_block_bitmap csum_reject sb_scenario r1.1 1 r1.2 = some r1) :=
  ⟨rfl, ext5_init_block_bitmap_degraded_idempotent csum_reject sb_scenario ∅ 1 gd_scenario
    rfl (fun _ _ => rfl)⟩

theorem overhead_eq_from_base (sb : super_block) (g : Nat) (gdp : ext5_group_desc)
    (base : Nat) (h : ext5_num_base_meta_clusters sb g = some base) :
    ext5_num_overhead_clusters sb g gdp = some (overhead_from_base sb g gdp base) := by
  unfold ext5_num_overhead_clusters
  rw [h]
  rfl

theorem final_count_zero {a : Nat} {p q : Prop} [Decidable p] [Decidable q]
    (h : (if q then (if p then a + 1 else a) + 1 else (if p then a + 1 else a)) = 0) :
    ¬ q ∧ ¬ p ∧ a = 0 := by
  split_ifs at h
  simp_all

theorem overhead_bitmap_step_fst_ge (sb : super_block) (g start blk n : Nat) :
    n ≤ (overhead_bitmap_step sb g start blk n).1 := by
  simp only [overhead_bitmap_step]
  split_ifs <;> simp

theorem overhead_bitmap_step_out (sb : super_block) (g start blk n : Nat)
    (h : ext5_block_in_group sb blk g = false) :
    overhead_bitmap_step sb g start blk n = (n, -1) := by
  unfold overhead_bitmap_step
  rw [h]
  rfl

theorem overhead_bitmap_step_in_zero (sb : super_block) (g start blk : Nat)
    (h : ext5_block_in_group sb blk g = true) :
    1 ≤ (overhead_bitmap_step sb g start blk 0).1 ∨
      (overhead_bitmap_step sb g start blk 0).2 ≠ -1 := by
  unfold overhead_bitmap_step
  simp only [h, if_true]
  have hc : ¬ ((EXT5_B2C sb (sub64 blk start) : Nat) : Int) < ((0 : Nat) : Int) := by
    simp
  rw [if_neg hc]
  split_ifs
  · left; simp
  · right
    show ((EXT5_B2C sb (sub64 blk start) : Nat) : Int) ≠ -1
    omega

theorem overhead_itbl_step_fst_ge (sb : super_block) (g start itbl : Nat) (bc ic : Int)
    (st : Nat × Int) (i : Nat) :
    st.1 ≤ (overhead_itbl_step sb g start itbl bc ic st i).1 := by
  simp only [overhead_itbl_step]
  split_ifs <;> simp

theorem overhead_itbl_foldl_fst_ge (sb : super_block) (g start itbl : Nat) (bc ic : Int)
    (l : List Nat) (st : Nat × Int) :
    st.1 ≤ (l.foldl (overhead_itbl_step sb g start itbl bc ic) st).1 := by
  induction l generalizing st with
  | nil => simp
  | cons a t ih =>
    rw [List.foldl_cons]
    exact le_trans (overhead_itbl_step_fst_ge sb g start itbl bc ic st a) (ih _)

theorem overhead_itbl_foldl_out (sb : super_block) (g start itbl : Nat) (bc ic : Int)
    (l : List Nat) (st : Nat × Int)
    (h : ∀ i ∈ l, ext5_block_in_group sb ((itbl + i) % 2 ^ 64) g = false) :
    l.foldl (overhead_itbl_step sb g start itbl bc ic) st = st := by
  induction l generalizing st with
  | nil => simp
  | cons a t ih =>
    rw [List.foldl_cons]
    have ha : overhead_itbl_step sb g start itbl bc ic st a = st := by
      unfold overhead_itbl_step
      rw [h a (List.mem_cons_self a t)]
      rfl
    rw [ha]
    exact ih st (fun i hi => h i (List.mem_cons_of_mem a hi))

theorem overhead_itbl_foldl_in_zero (sb : super_block) (g start itbl : Nat) (l : List Nat)
    (h : ∃ i ∈ l, ext5_block_in_group sb ((itbl + i) % 2 ^ 64) g = true) :
    1 ≤ (l.foldl (overhead_itbl_step sb g start itbl (-1) (-1)) (0, -1)).1 := by
  induction l with
  | nil => simp at h
  | cons a t ih =>
    rw [List.foldl_cons]
    by_cases ha : ext5_block_in_group sb ((itbl + a) % 2 ^ 64) g = true
    · have h1 : 1 ≤ (overhead_itbl_step sb g start itbl (-1) (-1) (0, -1) a).1 := by
        unfold overhead_itbl_step
        simp only [ha, if_true]
        have hc : ¬ (((EXT5_B2C sb (sub64 ((itbl + a) % 2 ^ 64) start) : Nat) : Int) <
              ((0 : Nat) : Int) ∨
            ((EXT5_B2C sb (sub64 ((itbl + a) % 2 ^ 64) start) : Nat) : Int) = -1 ∨
            ((EXT5_B2C sb (sub64 ((itbl + a) % 2 ^ 64) start) : Nat) : Int) = -1 ∨
            ((EXT5_B2C sb (sub64 ((itbl + a) % 2 ^ 64) start) : Nat) : Int) = -1) := by
          omega
        rw [if_neg hc]
        split_ifs <;> simp
      exact le_trans h1 (overhead_itbl_foldl_fst_ge sb g start itbl (-1) (-1) t _)
    · have hf : ext5_block_in_group sb ((itbl + a) % 2 ^ 64) g = false := by
        simpa using ha
      have hst : overhead_itbl_step sb g start itbl (-1) (-1) (0, -1) a = (0, -1) := by
        unfold overhead_itbl_step
        rw [hf]
        rfl
      rw [hst]
      apply ih
      obtain ⟨i, hi, hin⟩ := h
      rcases List.mem_cons.mp hi with rfl | hi
      · exact absurd hin ha
      · exact ⟨i, hi, hin⟩

theorem base_meta_group4 (sb : super_block) (hs : sb.sparse_super = true)
    (hm : sb.meta_bg = false) : ext5_num_base_meta_clusters sb 4 = some 0 := by
  have hsp : ext5_group_sparse 4 = some false := by decide
  have h0 : EXT5_NUM_B2C sb 0 = 0 := by
    unfold EXT5_NUM_B2C
    rw [Nat.shiftRight_eq_div_pow, Nat.zero_add]
    exact Nat.div_eq_of_lt (Nat.sub_lt (Nat.pow_pos (by norm_num)) (by norm_num))
  simp [ext5_num_base_meta_clusters, ext5_bg_has_super, hs, hm, hsp, h0]

/-- C12, as the code has it: with `SPARSE_SUPER` on and `META_BG` off, group 4
has no base metadata (`ext5_num_base_meta_clusters(4) = 0`), and
`ext5_num_overhead_clusters(4, desc)` returns, being 0 exactly when none of the
block-bitmap, inode-bitmap and inode-table blocks of the descriptor lies inside
group 4; in that case `ext5_free_clusters_after_init(4, desc)` is the cluster
count of group 4. -/
theorem ext5_num_overhead_clusters_group4 (sb : super_block) (gdp : ext5_group_desc)
    (hs : sb.sparse_super = true) (hm : sb.meta_bg = false) :
    ext5_num_base_meta_clusters sb 4 = some 0 ∧
    (∃ o, ext5_num_overhead_clusters sb 4 gdp = some o) ∧
    (ext5_num_overhead_clusters sb 4 gdp = some 0 ↔ no_metadata_in_group sb 4 gdp) ∧
    (no_metadata_in_group sb 4 gdp → num_clusters_in_group sb 4 < 2 ^ 32 →
      ext5_free_clusters_after_init sb 4 gdp = some (num_clusters_in_group sb 4)) := by
  have hbase := base_meta_group4 sb hs hm
  have hun := overhead_eq_from_base sb 4 gdp 0 hbase
  have hzero : no_metadata_in_group sb 4 gdp → ext5_num_overhead_clusters sb 4 gdp = some 0 := by
    rintro ⟨h1, h2, h3⟩
    rw [hun]
    simp only [overhead_from_base, overhead_bitmap_step_out _ _ _ _ _ h1,
      overhead_bitmap_step_out _ _ _ _ _ h2,
      overhead_itbl_foldl_out _ _ _ _ _ _ _ _ (fun i hi => h3 i (List.mem_range.mp hi))]
    simp
  refine ⟨hbase, ⟨_, hun⟩, ⟨?_, hzero⟩, ?_⟩
  · intro h
    rw [hun] at h
    simp only [Option.some.injEq, overhead_from_base] at h
    generalize hS1 : overhead_bitmap_step sb 4 (ext5_group_first_block_no sb 4)
      gdp.bg_block_bitmap 0 = S1 at h
    generalize hS2 : overhead_bitmap_step sb 4 (ext5_group_first_block_no sb 4)
      gdp.bg_inode_bitmap S1.1 = S2 at h
    generalize hS3 : List.foldl (overhead_itbl_step sb 4 (ext5_group_first_block_no sb 4)
      gdp.bg_inode_table S1.2 S2.2) (S2.1, -1) (List.range sb.s_itb_per_group) = S3 at h
    obtain ⟨f2, f1, f3⟩ := final_count_zero h
    have f1 : S1.2 = -1 := by simpa using f1
    have f2 : S2.2 = -1 := by simpa using f2
    have g3 : S2.1 ≤ S3.1 := by
      rw [← hS3]
      exact overhead_itbl_foldl_fst_ge sb 4 _ _ S1.2 S2.2 (List.range sb.s_itb_per_group)
        (S2.1, -1)
    have g2 : S1.1 ≤ S2.1 := by
      rw [← hS2]
      exact overhead_bitmap_step_fst_ge _ _ _ _ _
    have e2 : S2.1 = 0 := by omega
    have e1 : S1.1 = 0 := by omega
    have hbb : ext5_block_in_group sb gdp.bg_block_bitmap 4 = false := by
      by_contra hc
      have hin : ext5_block_in_group sb gdp.bg_block_bitmap 4 = true := by simpa using hc
      have := overhead_bitmap_step_in_zero sb 4 (ext5_group_first_block_no sb 4)
        gdp.bg_block_bitmap hin
      rw [hS1] at this
      rcases this with h1 | h1
      · omega
      · exact h1 f1
    have hib : ext5_block_in_group sb gdp.bg_inode_bitmap 4 = false := by
      by_contra hc
      have hin : ext5_block_in_group sb gdp.bg_inode_bitmap 4 = true := by simpa using hc
      have := overhead_bitmap_step_in_zero sb 4 (ext5_group_first_block_no sb 4)
        gdp.bg_inode_bitmap hin
      rw [← e1, hS2] at this
      rcases this with h1 | h1
      · omega
      · exact h1 f2
    refine ⟨hbb, hib, ?_⟩
    intro i hi
    by_contra hc
    have hin : ext5_block_in_group sb ((gdp.bg_inode_table + i) % 2 ^ 64) 4 = true := by
      simpa using hc
    have := overhead_itbl_foldl_in_zero sb 4 (ext5_group_first_block_no sb 4)
      gdp.bg_inode_table (List.range sb.s_itb_per_group) ⟨i, List.mem_range.mpr hi, hin⟩
    rw [f1, f2, e2] at hS3
    rw [hS3] at this
    omega
  · intro hno hlt
    unfold ext5_free_clusters_after_init
    rw [hzero hno]
    show some ((num_clusters_in_group sb 4 + 2 ^ 32 - 0) % 2 ^ 32) =
      some (num_clusters_in_group sb 4)
    rw [Nat.sub_zero, Nat.add_mod_right, Nat.mod_eq_of_lt hlt]

theorem ext5_num_overhead_clusters_group4_witness :
    sb_flex.sparse_super = true ∧ sb_flex.meta_bg = false ∧
    ext5_num_base_meta_clusters sb_flex 4 = some 0 ∧
    ext5_num_overhead_clusters sb_flex 4 gd_in_group0 = some 0 ∧
    ext5_free_clusters_after_init sb_flex 4 gd_in_group0 = some 8192 :=
  ⟨rfl, rfl, (ext5_num_overhead_clusters_group4 sb_flex gd_in_group0 rfl rfl).1,
    by decide, by decide⟩

/-- C12 as stated fails: on the non-flex volume `sb_scenario` (`SPARSE_SUPER` on,
`META_BG` off) the descriptor of group 4 keeps the block bitmap, the inode bitmap
and the four inode-table blocks in the first six blocks of the group, so
`ext5_num_overhead_clusters(4)` is 6 and `ext5_free_clusters_after_init(4)` is
8186, not the cluster count 8192. -/
theorem ext5_num_overhead_clusters_group4_counterexample :
    sb_scenario.flex_bg = false ∧ sb_scenario.sparse_super = true ∧
    sb_scenario.meta_bg = false ∧
    ext5_num_overhead_clusters sb_scenario 4 gd_group4 = some 6 ∧
    num_clusters_in_group sb_scenario 4 = 8192 ∧
    ext5_free_clusters_after_init sb_scenario 4 gd_group4 = some 8186 := by
  decide

/-- C21 as stated fails: on a writable volume without journal that is frozen
(freeze complete), `__ext5_journal_start_sb` warns and then returns the
placeholder handle of depth 1 and raises the nesting counter from 0 to 1. -/
theorem ext5_journal_start_sb_frozen_counterexample :
    jsb_frozen.s_frozen = SB_FREEZE_COMPLETE ∧ jsb_frozen.journal_info = 0 ∧
    __ext5_journal_start_sb jbd2_simple 4096 jsb_frozen 0 0 8 =
      some (handle_ptr.nojournal 1,
        { jsb_frozen with journal_info := 1, events := [journal_event.warn_frozen] }) := by
  decide

/-- C21, as the code has it: on a writable volume that is frozen (freeze
complete) `__ext5_journal_start_sb` only records the warning of `WARN_ON` and
then proceeds as on an unfrozen volume: without journal it hands out the
placeholder and raises the nesting counter, with an aborted journal it returns
`ERR_PTR(-EROFS)` after `ext5_abort`, and otherwise it returns what
`jbd2__journal_start` returns. -/
theorem ext5_journal_start_sb_frozen (ops : jbd2_ops) (max_ref : Nat) (sb : journal_sb)
    (line : Nat) (type nblocks : Int)
    (hfrozen : sb.s_frozen = SB_FREEZE_COMPLETE) (hrw : sb.s_rdonly = false) :
    (sb.s_journal = none →
      __ext5_journal_start_sb ops max_ref sb line type nblocks =
        ext5_get_nojournal max_ref
          { sb with events := sb.events ++ [journal_event.warn_frozen] }) ∧
    (sb.s_journal = none → sb.journal_info < max_ref →
      __ext5_journal_start_sb ops max_ref sb line type nblocks =
        some (handle_ptr.nojournal (sb.journal_info + 1),
          { sb with journal_info := sb.journal_info + 1,
                    events := sb.events ++ [journal_event.warn_frozen] })) ∧
    (∀ journal, sb.s_journal = some journal → journal.j_aborted = true →
      __ext5_journal_start_sb ops max_ref sb line type nblocks =
        some (handle_ptr.err_ptr (-EROFS),
          ext5_abort { sb with events := sb.events ++ [journal_event.warn_frozen] })) ∧
    (∀ journal, sb.s_journal = some journal → journal.j_aborted = false →
      __ext5_journal_start_sb ops max_ref sb line type nblocks =
        some ((ops.jbd2__journal_start journal nblocks type line).2,
          { sb with s_journal := some (ops.jbd2__journal_start journal nblocks type line).1,
                    events := sb.events ++ [journal_event.warn_frozen] })) := by
  refine ⟨?_, ?_, ?_, ?_⟩
  · intro hj
    simp only [__ext5_journal_start_sb, hrw, hfrozen, if_true, hj]
    rfl
  · intro hj hlt
    simp only [__ext5_journal_start_sb, hrw, hfrozen, if_true, hj, ext5_get_nojournal]
    simp [not_le.mpr hlt]
  · intro journal hj hab
    simp only [__ext5_journal_start_sb, hrw, hfrozen, if_true, hj, hab]
    rfl
  · intro journal hj hab
    simp only [__ext5_journal_start_sb, hrw, hfrozen, if_true, hj, hab]
    rfl

theorem ext5_journal_start_sb_frozen_witness :
    jsb_frozen.s_frozen = SB_FREEZE_COMPLETE ∧ jsb_frozen.s_rdonly = false ∧
    jsb_frozen.s_journal = none ∧ jsb_frozen.journal_info < 4096 ∧
    __ext5_journal_start_sb jbd2_simple 4096 jsb_frozen 0 0 8 =
      some (handle_ptr.nojournal (jsb_frozen.journal_info + 1),
        { jsb_frozen with journal_info := jsb_frozen.journal_info + 1,
                          events := jsb_frozen.events ++ [journal_event.warn_frozen] }) :=
  ⟨rfl, rfl, rfl, by decide,
    (ext5_journal_start_sb_frozen jbd2_simple 4096 jsb_frozen 0 0 8 rfl rfl).2.1 rfl
      (by decide)⟩

/-- C22: on a placeholder handle of depth `ref_cnt > 0`, `__ext5_journal_stop`
returns 0 and leaves the nesting counter at `ref_cnt − 1`, one below the value
the handle carries, so a start followed by a stop on a writable volume without
journal restores the nesting counter.  On a journaled handle it returns `h_err`
when that is nonzero and the result of `jbd2_journal_stop` otherwise, and it
calls `__ext5_std_error` exactly when the value returned is nonzero. -/
theorem ext5_journal_stop_spec (ops : jbd2_handle_ops) (journal_info : Nat) :
    (∀ ref_cnt, 0 < ref_cnt →
      __ext5_journal_stop ops (handle_ptr.nojournal ref_cnt) journal_info =
        some (0, ref_cnt - 1, [])) ∧
    (∀ (jops : jbd2_ops) (max_ref : Nat) (sb : journal_sb) (line : Nat) (type nblocks : Int),
      sb.s_rdonly = false → sb.s_journal = none → sb.journal_info < max_ref →
      ∃ handle sb1, __ext5_journal_start_sb jops max_ref sb line type nblocks =
          some (handle, sb1) ∧ sb1.journal_info = sb.journal_info + 1 ∧
        __ext5_journal_stop ops handle sb1.journal_info = some (0, sb.journal_info, [])) ∧
    (∀ h : jbd2_handle, h.h_err ≠ 0 →
      __ext5_journal_stop ops (handle_ptr.journaled h) journal_info =
        some (h.h_err, journal_info,
          [handle_event.jbd2_journal_stop, handle_event.std_error h.h_err])) ∧
    (∀ h : jbd2_handle, h.h_err = 0 → ops.jbd2_journal_stop h ≠ 0 →
      __ext5_journal_stop ops (handle_ptr.journaled h) journal_info =
        some (ops.jbd2_journal_stop h, journal_info,
          [handle_event.jbd2_journal_stop,
            handle_event.std_error (ops.jbd2_journal_stop h)])) ∧
    (∀ h : jbd2_handle, h.h_err = 0 → ops.jbd2_journal_stop h = 0 →
      __ext5_journal_stop ops (handle_ptr.journaled h) journal_info =
        some (0, journal_info, [handle_event.jbd2_journal_stop])) := by
  refine ⟨?_, ?_, ?_, ?_, ?_⟩
  · intro ref_cnt hpos
    simp [__ext5_journal_stop, ext5_handle_valid, ext5_put_nojournal, Nat.pos_iff_ne_zero.mp hpos]
  · intro jops max_ref sb line type nblocks hrw hj hlt
    refine ⟨handle_ptr.nojournal (sb.journal_info + 1),
      { (if sb.s_frozen = SB_FREEZE_COMPLETE then
          { sb with events := sb.events ++ [journal_event.warn_frozen] }
        else sb) with journal_info := sb.journal_info + 1 }, ?_, rfl, ?_⟩
    · by_cases hfr : sb.s_frozen = SB_FREEZE_COMPLETE
      · simp only [__ext5_journal_start_sb, hrw, hfr, if_true, hj, ext5_get_nojournal]
        simp only [ge_iff_le, not_le.mpr hlt, if_false]
        rfl
      · simp only [__ext5_journal_start_sb, hrw, hfr, if_false, hj, ext5_get_nojournal]
        simp only [ge_iff_le, not_le.mpr hlt, if_false]
        rfl
    · simp [__ext5_journal_stop, ext5_handle_valid, ext5_put_nojournal]
  · intro h hne
    simp [__ext5_journal_stop, ext5_handle_valid, hne]
  · intro h h0 hrc
    simp [__ext5_journal_stop, ext5_handle_valid, h0, hrc]
  · intro h h0 hrc
    simp [__ext5_journal_stop, ext5_handle_valid, h0, hrc]

theorem ext5_journal_stop_spec_witness :
    (0 : Nat) < 3 ∧
    __ext5_journal_stop jbd2_stop_fails (handle_ptr.nojournal 3) 3 = some (0, 2, []) ∧
    __ext5_journal_stop jbd2_stop_fails
      (handle_ptr.journaled { h_err := -30, h_aborted := true }) 0 =
        some (-30, 0, [handle_event.jbd2_journal_stop, handle_event.std_error (-30)]) ∧
    __ext5_journal_stop jbd2_stop_fails
      (handle_ptr.journaled { h_err := 0, h_aborted := false }) 0 =
        some (-5, 0, [handle_event.jbd2_journal_stop, handle_event.std_error (-5)]) :=
  ⟨by decide, (ext5_journal_stop_spec jbd2_stop_fails 3).1 3 (by decide),
    (ext5_journal_stop_spec jbd2_stop_fails 0).2.2.1 _ (by decide),
    (ext5_journal_stop_spec jbd2_stop_fails 0).2.2.2.1 _ rfl (by decide)⟩

theorem abort_handle_h_err (j_aborted : Bool) (h : jbd2_handle) (err : Int) :
    (ext5_journal_abort_handle j_aborted h err).1.h_err =
      if h.h_err = 0 then err else h.h_err := by
  unfold ext5_journal_abort_handle
  by_cases h0 : h.h_err = 0
  · simp only [h0, if_true]
    split_ifs <;> rfl
  · simp only [h0, if_false]
    split_ifs <;> rfl

/-- C23 as stated fails: on a journaled handle that already carries the error −5
and is flagged aborted, with a journalling layer that answers `-EROFS` on an
aborted handle, `__ext5_journal_get_write_access` still calls
`jbd2_journal_get_write_access` and returns −30, not the recorded −5; and
`__ext5_handle_dirty_metadata` replaces the recorded −5 by −30. -/
theorem ext5_handle_sticky_error_counterexample :
    __ext5_journal_get_write_access jbd2_rofs_when_aborted false
      (handle_ptr.journaled { h_err := -5, h_aborted := true }) bh_sample =
        some (-30, handle_ptr.journaled { h_err := -5, h_aborted := true },
          [handle_event.jbd2_journal_get_write_access bh_sample]) ∧
    (__ext5_handle_dirty_metadata jbd2_rofs_when_aborted
      (handle_ptr.journaled { h_err := -5, h_aborted := true }) none false bh_sample).map
        (fun r => (r.1, r.2.1)) =
        some (-30, handle_ptr.journaled { h_err := -30, h_aborted := true }) := by
  decide

/-- C23, as the code has it: on a journaled handle each of
`__ext5_journal_get_write_access`, `__ext5_journal_get_create_access`,
`__ext5_handle_dirty_super` and `__ext5_forget` issues its call into the
journalling layer whatever `h_err` is and returns the value of that call (0 when
`__ext5_forget` has nothing to do); like `ext5_journal_abort_handle`, they record
a failure in `h_err` only when `h_err` is still 0, so once `h_err` is nonzero it
keeps the first recorded error through all of them. -/
theorem ext5_handle_first_error (ops : jbd2_handle_ops) (j_aborted : Bool)
    (h : jbd2_handle) (bh : buffer_head) :
    (∀ err, (ext5_journal_abort_handle j_aborted h err).1.h_err =
      if h.h_err = 0 then err else h.h_err) ∧
    (∃ h1 ev, __ext5_journal_get_write_access ops j_aborted (handle_ptr.journaled h) bh =
        some (ops.jbd2_journal_get_write_access h bh, handle_ptr.journaled h1,
          handle_event.jbd2_journal_get_write_access bh :: ev) ∧
      h1.h_err = if h.h_err = 0 then ops.jbd2_journal_get_write_access h bh else h.h_err) ∧
    (∃ h1 ev, __ext5_journal_get_create_access ops j_aborted (handle_ptr.journaled h) bh =
        some (ops.jbd2_journal_get_create_access h bh, handle_ptr.journaled h1,
          handle_event.jbd2_journal_get_create_access bh :: ev) ∧
      h1.h_err = if h.h_err = 0 then ops.jbd2_journal_get_create_access h bh else h.h_err) ∧
    (∃ h1 ev, __ext5_handle_dirty_super ops j_aborted (handle_ptr.journaled h) bh =
        some (ops.jbd2_journal_dirty_metadata h bh, handle_ptr.journaled h1,
          handle_event.ext5_superblock_csum_set ::
            handle_event.jbd2_journal_dirty_metadata bh :: ev) ∧
      h1.h_err = if h.h_err = 0 then ops.jbd2_journal_dirty_metadata h bh else h.h_err) ∧
    (∀ (is_metadata data_journal should_journal_data : Bool) (obh : Option buffer_head)
        (blocknr : Nat),
      ∃ err h1 ev, __ext5_forget ops j_aborted (handle_ptr.journaled h) is_metadata
          data_journal should_journal_data obh blocknr =
            some (err, handle_ptr.journaled h1, ev) ∧
        h1.h_err = if h.h_err = 0 then err else h.h_err) := by
  refine ⟨abort_handle_h_err j_aborted h, ?_, ?_, ?_, ?_⟩
  · by_cases he : ops.jbd2_journal_get_write_access h bh = 0
    · refine ⟨h, [], by simp [__ext5_journal_get_write_access, ext5_handle_valid, he], ?_⟩
      rw [he]; split_ifs with h0
      · exact h0
      · rfl
    · exact ⟨(ext5_journal_abort_handle j_aborted h (ops.jbd2_journal_get_write_access h bh)).1,
        (ext5_journal_abort_handle j_aborted h (ops.jbd2_journal_get_write_access h bh)).2,
        by simp [__ext5_journal_get_write_access, ext5_handle_valid, he], abort_handle_h_err j_aborted h _⟩
  · by_cases he : ops.jbd2_journal_get_create_access h bh = 0
    · refine ⟨h, [], by simp [__ext5_journal_get_create_access, ext5_handle_valid, he], ?_⟩
      rw [he]; split_ifs with h0
      · exact h0
      · rfl
    · exact ⟨(ext5_journal_abort_handle j_aborted h (ops.jbd2_journal_get_create_access h bh)).1,
        (ext5_journal_abort_handle j_aborted h (ops.jbd2_journal_get_create_access h bh)).2,
        by simp [__ext5_journal_get_create_access, ext5_handle_valid, he], abort_handle_h_err j_aborted h _⟩
  · by_cases he : ops.jbd2_journal_dirty_metadata h bh = 0
    · refine ⟨h, [], by simp [__ext5_handle_dirty_super, ext5_handle_valid, he], ?_⟩
      rw [he]; split_ifs with h0
      · exact h0
      · rfl
    · exact ⟨(ext5_journal_abort_handle j_aborted h (ops.jbd2_journal_dirty_metadata h bh)).1,
        (ext5_journal_abort_handle j_aborted h (ops.jbd2_journal_dirty_metadata h bh)).2,
        by simp [__ext5_handle_dirty_super, ext5_handle_valid, he], abort_handle_h_err j_aborted h _⟩
  · intro is_metadata data_journal should_journal_data obh blocknr
    have hsame : ∀ e : Int, e = 0 → h.h_err = if h.h_err = 0 then e else h.h_err := by
      intro e he
      rw [he]; split_ifs with h0
      · exact h0
      · rfl
    unfold __ext5_forget
    simp only [ext5_handle_valid, Bool.not_true, Bool.false_eq_true, if_false]
    by_cases hc : data_journal = true ∨ (!is_metadata) = true ∧ (!should_journal_data) = true
    · rw [if_pos hc]
      cases obh with
      | none => exact ⟨0, h, [], rfl, hsame 0 rfl⟩
      | some b =>
        by_cases he : ops.jbd2_journal_forget h b = 0
        · exact ⟨ops.jbd2_journal_forget h b, h, [handle_event.jbd2_journal_forget b],
            by simp [he], hsame _ he⟩
        · exact ⟨ops.jbd2_journal_forget h b,
            (ext5_journal_abort_handle j_aborted h (ops.jbd2_journal_forget h b)).1,
            handle_event.jbd2_journal_forget b ::
              (ext5_journal_abort_handle j_aborted h (ops.jbd2_journal_forget h b)).2,
            by simp only [ne_eq, he, not_false_eq_true, if_true],
            abort_handle_h_err j_aborted h _⟩
    · rw [if_neg hc]
      by_cases he : ops.jbd2_journal_revoke h blocknr obh = 0
      · exact ⟨ops.jbd2_journal_revoke h blocknr obh, h,
          [handle_event.jbd2_journal_revoke blocknr obh], by simp [he], hsame _ he⟩
      · exact ⟨ops.jbd2_journal_revoke h blocknr obh,
          (ext5_journal_abort_handle j_aborted h (ops.jbd2_journal_revoke h blocknr obh)).1,
          handle_event.jbd2_journal_revoke blocknr obh ::
            (ext5_journal_abort_handle j_aborted h
              (ops.jbd2_journal_revoke h blocknr obh)).2 ++ [handle_event.fs_abort],
          by simp only [ne_eq, he, not_false_eq_true, if_true],
          abort_handle_h_err j_aborted h _⟩

theorem abort_handle_events (j_aborted : Bool) (h : jbd2_handle) (err : Int) :
    (ext5_journal_abort_handle j_aborted h err).2 = [] ∨
    (ext5_journal_abort_handle j_aborted h err).2 = [handle_event.jbd2_journal_abort_handle] := by
  simp only [ext5_journal_abort_handle]
  split_ifs <;> simp

/-- C24: `__ext5_forget` on a placeholder handle only calls `bforget` and returns
0.  On a journaled handle it calls `jbd2_journal_revoke` iff the mount is not in
full-data-journaling mode and (`is_metadata` is set or the inode journals its
data); in the other journaled cases it calls only `jbd2_journal_forget` when a
buffer is given and nothing when none is given.  The value of the call is
returned, and a nonzero value goes through `ext5_journal_abort_handle`, after
which `h_err` is nonzero (a failed revoke also calls `__ext5_abort`). -/
theorem ext5_forget_table (ops : jbd2_handle_ops) (j_aborted : Bool)
    (is_metadata data_journal should_journal_data : Bool) (bh : Option buffer_head)
    (blocknr : Nat) :
    (∀ ref_cnt, __ext5_forget ops j_aborted (handle_ptr.nojournal ref_cnt) is_metadata
        data_journal should_journal_data bh blocknr =
      some (0, handle_ptr.nojournal ref_cnt, [handle_event.bforget bh])) ∧
    (∀ h : jbd2_handle, ∃ r, __ext5_forget ops j_aborted (handle_ptr.journaled h) is_metadata
        data_journal should_journal_data bh blocknr = some r ∧
      (handle_event.jbd2_journal_revoke blocknr bh ∈ r.2.2 ↔
        (data_journal = false ∧ (is_metadata = true ∨ should_journal_data = true)))) ∧
    (∀ h : jbd2_handle, data_journal = false →
      (is_metadata = true ∨ should_journal_data = true) →
      __ext5_forget ops j_aborted (handle_ptr.journaled h) is_metadata
        data_journal should_journal_data bh blocknr =
      if ops.jbd2_journal_revoke h blocknr bh ≠ 0 then
        some (ops.jbd2_journal_revoke h blocknr bh,
          handle_ptr.journaled
            (ext5_journal_abort_handle j_aborted h (ops.jbd2_journal_revoke h blocknr bh)).1,
          handle_event.jbd2_journal_revoke blocknr bh ::
            (ext5_journal_abort_handle j_aborted h (ops.jbd2_journal_revoke h blocknr bh)).2 ++
              [handle_event.fs_abort])
      else some (0, handle_ptr.journaled h, [handle_event.jbd2_journal_revoke blocknr bh])) ∧
    (∀ (h : jbd2_handle) (b : buffer_head), bh = some b →
      (data_journal = true ∨ (is_metadata = false ∧ should_journal_data = false)) →
      __ext5_forget ops j_aborted (handle_ptr.journaled h) is_metadata
        data_journal should_journal_data bh blocknr =
      if ops.jbd2_journal_forget h b ≠ 0 then
        some (ops.jbd2_journal_forget h b,
          handle_ptr.journaled
            (ext5_journal_abort_handle j_aborted h (ops.jbd2_journal_forget h b)).1,
          handle_event.jbd2_journal_forget b ::
            (ext5_journal_abort_handle j_aborted h (ops.jbd2_journal_forget h b)).2)
      else some (0, handle_ptr.journaled h, [handle_event.jbd2_journal_forget b])) ∧
    (∀ h : jbd2_handle, bh = none →
      (data_journal = true ∨ (is_metadata = false ∧ should_journal_data = false)) →
      __ext5_forget ops j_aborted (handle_ptr.journaled h) is_metadata
        data_journal should_journal_data bh blocknr =
      some (0, handle_ptr.journaled h, [])) ∧
    (∀ (h : jbd2_handle) (err : Int), err ≠ 0 →
      (ext5_journal_abort_handle j_aborted h err).1.h_err ≠ 0 ∧
      (h.h_err = 0 → (ext5_journal_abort_handle j_aborted h err).1.h_err = err)) := by
  have hrev : ∀ h : jbd2_handle, data_journal = false →
      (is_metadata = true ∨ should_journal_data = true) →
      __ext5_forget ops j_aborted (handle_ptr.journaled h) is_metadata
        data_journal should_journal_data bh blocknr =
      if ops.jbd2_journal_revoke h blocknr bh ≠ 0 then
        some (ops.jbd2_journal_revoke h blocknr bh,
          handle_ptr.journaled
            (ext5_journal_abort_handle j_aborted h (ops.jbd2_journal_revoke h blocknr bh)).1,
          handle_event.jbd2_journal_revoke blocknr bh ::
            (ext5_journal_abort_handle j_aborted h (ops.jbd2_journal_revoke h blocknr bh)).2 ++
              [handle_event.fs_abort])
      else some (0, handle_ptr.journaled h, [handle_event.jbd2_journal_revoke blocknr bh]) := by
    intro h hd hm
    have hc : ¬ (data_journal = true ∨ (!is_metadata) = true ∧ (!should_journal_data) = true) := by
      rcases hm with hm | hm <;> simp [hd, hm]
    unfold __ext5_forget
    simp only [ext5_handle_valid, Bool.not_true, Bool.false_eq_true, if_false, if_neg hc]
    by_cases he : ops.jbd2_journal_revoke h blocknr bh = 0
    · simp [he]
    · simp [he]
  have hfor : ∀ (h : jbd2_handle) (b : buffer_head), bh = some b →
      (data_journal = true ∨ (is_metadata = false ∧ should_journal_data = false)) →
      __ext5_forget ops j_aborted (handle_ptr.journaled h) is_metadata
        data_journal should_journal_data bh blocknr =
      if ops.jbd2_journal_forget h b ≠ 0 then
        some (ops.jbd2_journal_forget h b,
          handle_ptr.journaled
            (ext5_journal_abort_handle j_aborted h (ops.jbd2_journal_forget h b)).1,
          handle_event.jbd2_journal_forget b ::
            (ext5_journal_abort_handle j_aborted h (ops.jbd2_journal_forget h b)).2)
      else some (0, handle_ptr.journaled h, [handle_event.jbd2_journal_forget b]) := by
    intro h b hb hcond
    have hc : data_journal = true ∨ (!is_metadata) = true ∧ (!should_journal_data) = true := by
      rcases hcond with hd | ⟨h1, h2⟩
      · exact Or.inl hd
      · exact Or.inr (by simp [h1, h2])
    unfold __ext5_forget
    simp only [ext5_handle_valid, Bool.not_true, Bool.false_eq_true, if_false, if_pos hc, hb]
    by_cases he : ops.jbd2_journal_forget h b = 0
    · simp [he]
    · simp [he]
  have hnone : ∀ h : jbd2_handle, bh = none →
      (data_journal = true ∨ (is_metadata = false ∧ should_journal_data = false)) →
      __ext5_forget ops j_aborted (handle_ptr.journaled h) is_metadata
        data_journal should_journal_data bh blocknr =
      some (0, handle_ptr.journaled h, []) := by
    intro h hb hcond
    have hc : data_journal = true ∨ (!is_metadata) = true ∧ (!should_journal_data) = true := by
      rcases hcond with hd | ⟨h1, h2⟩
      · exact Or.inl hd
      · exact Or.inr (by simp [h1, h2])
    unfold __ext5_forget
    simp only [ext5_handle_valid, Bool.not_true, Bool.false_eq_true, if_false, if_pos hc, hb]
  refine ⟨?_, ?_, hrev, hfor, hnone, ?_⟩
  · intro ref_cnt
    simp [__ext5_forget, ext5_handle_valid]
  · intro h
    by_cases hcond : data_journal = false ∧ (is_metadata = true ∨ should_journal_data = true)
    · rw [hrev h hcond.1 hcond.2]
      split_ifs
      · exact ⟨_, rfl, by simp [hcond]⟩
      · exact ⟨_, rfl, by simp [hcond]⟩
    · have hcond2 : data_journal = true ∨ (is_metadata = false ∧ should_journal_data = false) := by
        cases data_journal <;> cases is_metadata <;> cases should_journal_data <;> simp_all
      by_cases hb : bh = none
      · rw [hnone h hb hcond2]
        exact ⟨_, rfl, by simp [hcond]⟩
      · obtain ⟨b, hb⟩ := Option.ne_none_iff_exists'.mp hb
        rw [hfor h b hb hcond2]
        split_ifs
        · refine ⟨_, rfl, ?_⟩
          simp only [hcond, iff_false, List.mem_cons, not_or]
          refine ⟨by simp, ?_⟩
          rcases abort_handle_events j_aborted h (ops.jbd2_journal_forget h b) with he | he <;>
            simp [he]
        · exact ⟨_, rfl, by simp [hcond]⟩
  · intro h err herr
    rw [abort_handle_h_err]
    constructor
    · split_ifs with h0
      · exact herr
      · exact h0
    · intro h0
      simp [h0]

theorem ext5_forget_table_witness :
    __ext5_forget jbd2_stop_fails false
      (handle_ptr.journaled { h_err := 0, h_aborted := false }) true false false
      (some bh_sample) 1000 =
        some (0, handle_ptr.journaled { h_err := 0, h_aborted := false },
          [handle_event.jbd2_journal_revoke 1000 (some bh_sample)]) ∧
    __ext5_forget jbd2_stop_fails false
      (handle_ptr.journaled { h_err := 0, h_aborted := false }) false false false
      (none : Option buffer_head) 1000 =
        some (0, handle_ptr.journaled { h_err := 0, h_aborted := false }, []) :=
  ⟨((ext5_forget_table jbd2_stop_fails false true false false (some bh_sample) 1000).2.2.1
      _ rfl (Or.inl rfl)).trans (by decide),
    (ext5_forget_table jbd2_stop_fails false false false false none 1000).2.2.2.2.1 _ rfl
      (Or.inr ⟨rfl, rfl⟩)⟩

theorem and_mask_eq_round_down (g k : Nat) (hg : g < 2 ^ 32) (hk : k ≤ 32) :
    g &&& (2 ^ 32 - 1 - (2 ^ k - 1)) = g / 2 ^ k * 2 ^ k := by
  have hx : 2 ^ k - 1 < 2 ^ 32 := by
    have : 2 ^ k ≤ 2 ^ 32 := Nat.pow_le_pow_right (by norm_num) hk
    have : 0 < 2 ^ k := Nat.pow_pos (by norm_num)
    omega
  have hmask : 2 ^ 32 - 1 - (2 ^ k - 1) = 2 ^ 32 - ((2 ^ k - 1) + 1) := by
    rw [Nat.sub_sub, Nat.add_comm]
  rw [hmask, ← Nat.shiftRight_eq_div_pow, ← Nat.shiftLeft_eq]
  apply Nat.eq_of_testBit_eq
  intro i
  rw [Nat.testBit_and, Nat.testBit_two_pow_sub_succ hx, Nat.testBit_two_pow_sub_one,
    Nat.testBit_shiftLeft, Nat.testBit_shiftRight]
  by_cases hik : i < k
  · simp [hik, not_le.mpr hik]
  · have hki : k ≤ i := not_lt.mp hik
    have e : k + (i - k) = i := by omega
    rw [e]
    by_cases hi32 : i < 32
    · simp [hik, hki, hi32]
    · have hlt : g < 2 ^ i :=
        lt_of_lt_of_le hg (Nat.pow_le_pow_right (by norm_num) (not_lt.mp hi32))
      simp [Nat.testBit_lt_two_pow hlt]

theorem grpblk_to_u64_small {x : Nat} (h : x < 2 ^ 31) : grpblk_to_u64 x = x := by
  unfold grpblk_to_u64
  have h1 : x % 2 ^ 32 = x := Nat.mod_eq_of_lt (by omega)
  rw [h1, if_pos h]

theorem u32_to_int_small {x : Nat} (h : x < 2 ^ 31) : u32_to_int x = (x : Int) := by
  unfold u32_to_int
  rw [Nat.mod_eq_of_lt (by omega), if_pos h]

theorem u32_to_int_neg {x : Nat} (h1 : 2 ^ 31 ≤ x) (h2 : x < 2 ^ 32) : u32_to_int x < 0 := by
  unfold u32_to_int
  rw [Nat.mod_eq_of_lt h2, if_neg (by omega)]
  omega

/-- C25: `ext5_inode_to_goal_block` starts from the inode's own group when
`flex_size < EXT5_FLEX_SIZE_DIR_ALLOC_SCHEME`, `flex_size` being the `int` the
source compares (so also when `ext5_flex_bg_size` returns `2^31` or more, which
is negative as an `int`); otherwise, `flex_size` being a power of two, from the
inode's group rounded down to a multiple of `flex_size`, plus one for a regular
file.  With delayed allocation the result is the first block of that group;
otherwise it is that first block plus (pid mod 16) × (span / 16), where span is
`blocks_per_group` when the whole group lies below `last_block` and
`last_block` − group start otherwise (the colour being in the range of
`ext5_grpblk_t`). -/
theorem ext5_inode_to_goal_block_spec (sb : super_block) (flex_size scheme : Nat)
    (delalloc : Bool) (pid : Nat) (ei : ext5_inode_info) :
    (u32_to_int flex_size < (scheme : Int) →
      goal_block_group flex_size scheme ei = ei.i_block_group) ∧
    (2 ^ 31 ≤ flex_size → flex_size < 2 ^ 32 →
      goal_block_group flex_size scheme ei = ei.i_block_group) ∧
    (∀ k, (scheme : Int) ≤ u32_to_int flex_size → flex_size = 2 ^ k → flex_size < 2 ^ 32 →
      ei.i_block_group + 1 < 2 ^ 32 →
      goal_block_group flex_size scheme ei =
        ei.i_block_group / flex_size * flex_size + (if ei.is_reg then 1 else 0)) ∧
    (delalloc = true →
      ext5_inode_to_goal_block sb flex_size scheme delalloc pid ei =
        ext5_group_first_block_no sb (goal_block_group flex_size scheme ei)) ∧
    (∀ span, delalloc = false →
      span = (if ext5_group_first_block_no sb (goal_block_group flex_size scheme ei) +
            sb.s_blocks_per_group ≤ sub64 sb.s_blocks_count 1
          then sb.s_blocks_per_group
          else sub64 (sub64 sb.s_blocks_count 1)
            (ext5_group_first_block_no sb (goal_block_group flex_size scheme ei))) →
      (pid % 16) * (span / 16) < 2 ^ 31 →
      ext5_group_first_block_no sb (goal_block_group flex_size scheme ei) +
        (pid % 16) * (span / 16) < 2 ^ 64 →
      ext5_inode_to_goal_block sb flex_size scheme delalloc pid ei =
        ext5_group_first_block_no sb (goal_block_group flex_size scheme ei) +
          (pid % 16) * (span / 16)) ∧
    (1 ≤ sb.s_blocks_count → sb.s_blocks_count < 2 ^ 64 →
      ext5_group_first_block_no sb (goal_block_group flex_size scheme ei) ≤
        sb.s_blocks_count - 1 →
      sub64 (sub64 sb.s_blocks_count 1)
          (ext5_group_first_block_no sb (goal_block_group flex_size scheme ei)) =
        sb.s_blocks_count - 1 -
          ext5_group_first_block_no sb (goal_block_group flex_size scheme ei)) := by
  have hown : u32_to_int flex_size < (scheme : Int) →
      goal_block_group flex_size scheme ei = ei.i_block_group := by
    intro h
    simp [goal_block_group, not_le.mpr h]
  refine ⟨hown, ?_, ?_, ?_, ?_, ?_⟩
  · intro h1 h2
    have hneg := u32_to_int_neg h1 h2
    exact hown (by omega)
  · intro k hs hk hlt hg
    have h31 : flex_size < 2 ^ 31 := by
      by_contra hc
      have hneg := u32_to_int_neg (not_lt.mp hc) hlt
      omega
    have hu : u32_to_int flex_size = (flex_size : Int) := u32_to_int_small h31
    have hk32 : k ≤ 32 := by
      by_contra hc
      have : 2 ^ 32 ≤ 2 ^ k := Nat.pow_le_pow_right (by norm_num) (by omega)
      omega
    have hpos : 0 < flex_size := by
      rw [hk]
      exact Nat.pow_pos (by norm_num)
    have hmask : (((2 ^ 32 - 1 : Nat) : Int) - ((flex_size : Int) - 1) % ((2 ^ 32 : Nat) : Int)).toNat =
        2 ^ 32 - 1 - (flex_size - 1) := by
      omega
    rw [hu] at hs
    simp only [goal_block_group, hu, ge_iff_le, hs, if_true, hmask]
    rw [hk, and_mask_eq_round_down _ k (by omega) hk32]
    have hle : ei.i_block_group / 2 ^ k * 2 ^ k ≤ ei.i_block_group :=
      Nat.div_mul_le_self _ _
    cases ei.is_reg with
    | true =>
      simp only [if_true]
      exact Nat.mod_eq_of_lt (by omega)
    | false => simp
  · intro h
    simp [ext5_inode_to_goal_block, h]
  · intro span hd hspan hcol h64
    simp only [ext5_inode_to_goal_block, hd, Bool.false_eq_true, if_false]
    have hcolour : (if ext5_group_first_block_no sb (goal_block_group flex_size scheme ei) +
          sb.s_blocks_per_group ≤ sub64 sb.s_blocks_count 1
        then pid % 16 * (sb.s_blocks_per_group / 16)
        else pid % 16 * (sub64 (sub64 sb.s_blocks_count 1)
          (ext5_group_first_block_no sb (goal_block_group flex_size scheme ei)) / 16)) =
        pid % 16 * (span / 16) := by
      rw [hspan]
      split_ifs <;> rfl
    rw [hcolour, grpblk_to_u64_small hcol, Nat.mod_eq_of_lt h64]
  · intro h1 h64 hle
    rw [sub64_of_le h1 h64, sub64_of_le hle (by omega)]

theorem ext5_inode_to_goal_block_spec_witness :
    ((4 : Nat) : Int) ≤ u32_to_int 16 ∧ (16 : Nat) = 2 ^ 4 ∧
    ei_dir_group7.i_block_group + 1 < 2 ^ 32 ∧
    goal_block_group 16 4 ei_dir_group7 = 0 ∧
    goal_block_group (2 ^ 31) 4 ei_dir_group7 = 7 ∧
    ext5_inode_to_goal_block sb_17_groups 16 4 true 5 ei_dir_group7 = 0 ∧
    ext5_inode_to_goal_block sb_17_groups 16 4 false 5 ei_dir_group7 = 10240 :=
  ⟨by decide, by decide, by decide,
    ((ext5_inode_to_goal_block_spec sb_17_groups 16 4 true 5 ei_dir_group7).2.2.1 4
      (by decide) (by decide) (by decide) (by decide)).trans (by decide),
    (ext5_inode_to_goal_block_spec sb_17_groups (2 ^ 31) 4 true 5 ei_dir_group7).2.1
      (by decide) (by decide),
    ((ext5_inode_to_goal_block_spec sb_17_groups 16 4 true 5 ei_dir_group7).2.2.2.1
      rfl).trans (by decide),
    ((ext5_inode_to_goal_block_spec sb_17_groups 16 4 false 5 ei_dir_group7).2.2.2.2.1
      32768 rfl (by decide) (by decide) (by decide)).trans (by decide)⟩

/-- C27 at the failing input: on a volume of 17 groups with 16 groups per
flex-group, a regular file whose inode lives in group 16 (below `groups_count`)
is given the starting group 17, whose first block 557056 lies beyond
`last_block` = 557055.  With delayed allocation, or for a task whose pid is a
multiple of 16, the goal is 557056, beyond the volume; for pid 5 the subtraction
`last_block − bg_start` wraps, the colour is −5 and the goal 557051 lies below
the first block of the chosen group. -/
theorem ext5_inode_to_goal_block_past_end :
    ei_reg_last_group.i_block_group < sb_17_groups.s_groups_count ∧
    goal_block_group 16 4 ei_reg_last_group = 17 ∧
    ext5_group_first_block_no sb_17_groups 17 = 557056 ∧
    sub64 sb_17_groups.s_blocks_count 1 = 557055 ∧
    ext5_inode_to_goal_block sb_17_groups 16 4 true 5 ei_reg_last_group = 557056 ∧
    ext5_inode_to_goal_block sb_17_groups 16 4 false 32 ei_reg_last_group = 557056 ∧
    ext5_inode_to_goal_block sb_17_groups 16 4 false 5 ei_reg_last_group = 557051 := by
  decide

/-- When the chosen group starts inside the volume, the goal of
`ext5_inode_to_goal_block` lies inside the volume and inside that group. -/
theorem ext5_inode_to_goal_block_in_range (sb : super_block) (flex_size scheme : Nat)
    (delalloc : Bool) (pid : Nat) (ei : ext5_inode_info)
    (hbpg : 0 < sb.s_blocks_per_group) (hbpg31 : sb.s_blocks_per_group < 2 ^ 31)
    (h1 : 1 ≤ sb.s_blocks_count) (h64 : sb.s_blocks_count < 2 ^ 64)
    (hstart : ext5_group_first_block_no sb (goal_block_group flex_size scheme ei) ≤
      sb.s_blocks_count - 1) :
    ext5_group_first_block_no sb (goal_block_group flex_size scheme ei) ≤
      ext5_inode_to_goal_block sb flex_size scheme delalloc pid ei ∧
    ext5_inode_to_goal_block sb flex_size scheme delalloc pid ei ≤ sb.s_blocks_count - 1 ∧
    ext5_inode_to_goal_block sb flex_size scheme delalloc pid ei <
      ext5_group_first_block_no sb (goal_block_group flex_size scheme ei) +
        sb.s_blocks_per_group := by
  have hlast : sub64 sb.s_blocks_count 1 = sb.s_blocks_count - 1 := sub64_of_le h1 h64
  have hpid : pid % 16 ≤ 15 := by omega
  unfold ext5_inode_to_goal_block
  simp only [hlast]
  generalize ext5_group_first_block_no sb (goal_block_group flex_size scheme ei) = bg_start
    at hstart ⊢
  cases delalloc with
  | true => simp only [if_true]; omega
  | false =>
    simp only [Bool.false_eq_true, if_false]
    by_cases hfull : bg_start + sb.s_blocks_per_group ≤ sb.s_blocks_count - 1
    · rw [if_pos hfull]
      have hq : pid % 16 * (sb.s_blocks_per_group / 16) ≤ 15 * (sb.s_blocks_per_group / 16) :=
        Nat.mul_le_mul_right _ hpid
      have hc : pid % 16 * (sb.s_blocks_per_group / 16) < sb.s_blocks_per_group := by omega
      rw [grpblk_to_u64_small (by omega), Nat.mod_eq_of_lt (by omega)]
      omega
    · rw [if_neg hfull, sub64_of_le hstart (by omega)]
      have hq : pid % 16 * ((sb.s_blocks_count - 1 - bg_start) / 16) ≤
          15 * ((sb.s_blocks_count - 1 - bg_start) / 16) := Nat.mul_le_mul_right _ hpid
      have hc : pid % 16 * ((sb.s_blocks_count - 1 - bg_start) / 16) ≤
          sb.s_blocks_count - 1 - bg_start := by omega
      rw [grpblk_to_u64_small (by omega), Nat.mod_eq_of_lt (by omega)]
      omega

/-- C26 at the failing input: on the non-flex bigalloc volume
`sb_bigalloc_nonflex`, for the descriptor of group 1 whose bitmaps and inode table
lie inside the group and whose checksum verifies, `ext5_init_block_bitmap` sets
the cluster bits 0 to 3, and `ext5_valid_block_bitmap` then tests the block
offsets 4 to 7 of the inode table, finds bit 4 clear and returns the inode-table
block 16388 instead of 0. -/
theorem ext5_init_then_validate_bigalloc :
    sb_bigalloc_nonflex.flex_bg = false ∧
    ext5_block_in_group sb_bigalloc_nonflex gd_bigalloc_group1.bg_block_bitmap 1 = true ∧
    ext5_block_in_group sb_bigalloc_nonflex gd_bigalloc_group1.bg_inode_bitmap 1 = true ∧
    (∀ i, i < 4 →
      ext5_block_in_group sb_bigalloc_nonflex (gd_bigalloc_group1.bg_inode_table + i) 1 = true) ∧
    (ext5_init_block_bitmap csum_accept sb_bigalloc_nonflex ∅ 1 gd_bigalloc_group1).map
      (fun r => ((List.range 16).filter (fun b => decide (b ∈ r.1)), r.1.card,
        ext5_valid_block_bitmap sb_bigalloc_nonflex r.2 1 r.1)) =
      some ([0, 1, 2, 3], 4, 16388) := by
  decide

/-- With one block per cluster and `FLEX_BG` off, the bitmap that
`ext5_init_block_bitmap` builds for a checksum-valid descriptor whose inode table
starts at or after the first block of the group passes
`ext5_valid_block_bitmap`: both functions then use the same bit positions. -/
theorem ext5_init_then_validate_no_bigalloc (cs : csum_ops) (sb : super_block)
    (bh : Bitmap) (g : Nat) (gdp : ext5_group_desc)
    (hflex : sb.flex_bg = false) (hbits : sb.s_cluster_bits = 0)
    (hok : cs.group_desc_csum_verify g gdp = true)
    (hstart : ext5_group_first_block_no sb g ≤ gdp.bg_inode_table)
    (hend : gdp.bg_inode_table + sb.s_itb_per_group < 2 ^ 64) :
    (ext5_init_block_bitmap cs sb bh g gdp).map
        (fun r => ext5_valid_block_bitmap sb r.2 g r.1) =
      (ext5_num_base_meta_clusters sb g).map (fun _ => 0) := by
  have hb2c : ∀ x, EXT5_B2C sb x = x := by
    intro x
    simp [EXT5_B2C, hbits]
  unfold ext5_init_block_bitmap
  cases hbase : ext5_num_base_meta_clusters sb g with
  | none => simp [hok]
  | some base =>
    simp only [hok, Bool.not_true, Bool.false_eq_true, if_false, Option.map_some']
    congr 1
    have hitb : ∀ i, i < sb.s_itb_per_group →
        sub64 gdp.bg_inode_table (ext5_group_first_block_no sb g) + i =
          sub64 (gdp.bg_inode_table + i) (ext5_group_first_block_no sb g) := by
      intro i hi
      rw [sub64_of_le hstart (by omega), sub64_of_le (by omega) (by omega)]
      omega
    have hnz : ¬ ext5_find_next_zero_bit
        (ext5_mark_bitmap_end (num_clusters_in_group sb g) (sb.s_blocksize * 8)
          ((List.range' gdp.bg_inode_table
            ((gdp.bg_inode_table + sb.s_itb_per_group) % 2 ^ 64 - gdp.bg_inode_table)).foldl
            (init_mark_block sb g (ext5_group_first_block_no sb g))
            (init_mark_block sb g (ext5_group_first_block_no sb g)
              (init_mark_block sb g (ext5_group_first_block_no sb g)
                ((List.range base).foldl (fun b bit => ext5_set_bit bit b) ∅)
                gdp.bg_block_bitmap) gdp.bg_inode_bitmap)))
        (sub64 gdp.bg_inode_table (ext5_group_first_block_no sb g) + sb.s_itb_per_group)
        (sub64 gdp.bg_inode_table (ext5_group_first_block_no sb g)) <
        sub64 gdp.bg_inode_table (ext5_group_first_block_no sb g) + sb.s_itb_per_group := by
      rw [find_next_zero_bit_lt_iff]
      rintro ⟨i, hi, hne⟩
      apply hne
      simp only [ext5_mark_bitmap_end, Finset.mem_union, mem_foldl_init_mark_block,
        List.mem_range'_1]
      refine Or.inl (Or.inr ⟨gdp.bg_inode_table + i, ⟨by omega, ?_⟩, Or.inl hflex, ?_⟩)
      · rw [Nat.mod_eq_of_lt hend]
        omega
      · rw [hb2c, hitb i hi]
    simp only [ext5_valid_block_bitmap, hflex, Bool.false_eq_true, if_false, ext5_test_bit,
      ext5_mark_bitmap_end, Finset.mem_union, mem_foldl_init_mark_block, mem_init_mark_block,
      hb2c, true_or, true_and, or_true, decide_True, Bool.not_true]
    simp only [ext5_mark_bitmap_end] at hnz
    rw [if_neg hnz]

theorem ext5_init_then_validate_no_bigalloc_witness :
    (ext5_init_block_bitmap csum_accept sb_scenario ∅ 1 gd_scenario).map
        (fun r => ext5_valid_block_bitmap sb_scenario r.2 1 r.1) = some 0 :=
  (ext5_init_then_validate_no_bigalloc csum_accept sb_scenario ∅ 1 gd_scenario rfl rfl rfl
    (by decide) (by decide)).trans (by decide)

theorem ext5_inode_to_goal_block_in_range_witness :
    ext5_group_first_block_no sb_17_groups (goal_block_group 16 4 ei_dir_group7) ≤
      ext5_inode_to_goal_block sb_17_groups 16 4 false 5 ei_dir_group7 ∧
    ext5_inode_to_goal_block sb_17_groups 16 4 false 5 ei_dir_group7 ≤
      sb_17_groups.s_blocks_count - 1 ∧
    ext5_inode_to_goal_block sb_17_groups 16 4 false 5 ei_dir_group7 <
      ext5_group_first_block_no sb_17_groups (goal_block_group 16 4 ei_dir_group7) +
        sb_17_groups.s_blocks_per_group :=
  ext5_inode_to_goal_block_in_range sb_17_groups 16 4 false 5 ei_dir_group7
    (by decide) (by decide) (by decide) (by decide) (by decide)

end Ext5
